import Mathlib

/-!
# Wiegand receiver and antipassback ledger (`main/wiegand.c`)

A shallow embedding of the interrupt-driven Wiegand bit sampler, the frame
timer, the frame decoder of the reader tasks and the antipassback dispatch path,
followed by the properties proved about them.

Conventions of the embedding

* `uint8_t`, `uint32_t` and `uint64_t` values are natural numbers; a narrowing
  store is written with an explicit `% 2 ^ w`.
* `size_t` arithmetic on the buffer size (`size * 8`, `bits + 1`) is done in
  `Nat`: the buffer is allocated memory, so these quantities are far below the
  word size.
* A GPIO level is a `Bool`: `true` is a high line, `false` is a low line.
* `esp_err_t` results are integers; `ESP_OK` is `0`.
* A byte buffer is a `List Nat`; `buf[i]` is `buf.getD i 0` on reads and
  `List.set` on writes.  Reads and writes outside the buffer are undefined in
  C; the bounds theorems show that the code never performs one.
-/

namespace Wiegand

/-! ## Constants of the ESP-IDF interface -/

/-- The `esp_err_t` success code. -/
def ESP_OK : Int := 0
/-- The generic `esp_err_t` failure code. -/
def ESP_FAIL : Int := -1
/-- The `esp_err_t` code returned by `CHECK_ARG`. -/
def ESP_ERR_INVALID_ARG : Int := 0x102
/-- The `esp_err_t` code `gpio_install_isr_service` returns when the service is
already installed. -/
def ESP_ERR_INVALID_STATE : Int := 0x103
/-- The `esp_err_t` code of an NVS read or erase of a key that is not stored. -/
def ESP_ERR_NVS_NOT_FOUND : Int := 0x1102

/-- The inactivity interval of the frame timer, in microseconds. -/
def TIMER_INTERVAL_US : Nat := 50000

/-! ## Reader state -/

/-- The enumeration `wiegand_order_t`. -/
inductive wiegand_order_t where
  | WIEGAND_MSB_FIRST
  | WIEGAND_LSB_FIRST
  deriving DecidableEq, Repr

open wiegand_order_t

/-- The callbacks this file installs in a reader (`reader->callback`). -/
inductive wiegand_callback_t where
  | reader_callback
  | reader_callback2
  deriving DecidableEq, Repr

/-- The structure `wiegand_reader_t`.  `intr_negedge` is the interrupt type of the
two lines (`GPIO_INTR_NEGEDGE` when `true`, `GPIO_INTR_DISABLE` when `false`) and
`timer_armed` says whether the one-shot frame timer is running. -/
structure wiegand_reader_t where
  gpio_d0 : Nat := 0
  gpio_d1 : Nat := 0
  callback : Option wiegand_callback_t := none
  bit_order : wiegand_order_t := WIEGAND_MSB_FIRST
  byte_order : wiegand_order_t := WIEGAND_MSB_FIRST
  buf : List Nat := []
  size : Nat := 0
  bits : Nat := 0
  enabled : Bool := false
  intr_negedge : Bool := false
  timer_armed : Bool := false
  deriving DecidableEq, Repr

/-- The function `isr_disable`: both line interrupts off. -/
def isr_disable (reader : wiegand_reader_t) : wiegand_reader_t :=
  { reader with intr_negedge := false }

/-- The function `isr_enable`: both line interrupts on the falling edge. -/
def isr_enable (reader : wiegand_reader_t) : wiegand_reader_t :=
  { reader with intr_negedge := true }

/-- The local `value` of `isr_handler`: the mask OR-ed into the destination byte,
as a `uint8_t`. -/
def isr_value (reader : wiegand_reader_t) (d0 : Bool) : Nat :=
  if reader.bit_order = WIEGAND_MSB_FIRST then
    ((if d0 then 0x80 else 0) >>> (reader.bits % 8)) % 256
  else
    ((if d0 then 1 else 0) <<< (reader.bits % 8)) % 256

/-- The index of the destination byte of `isr_handler`. -/
def isr_index (reader : wiegand_reader_t) : Nat :=
  if reader.byte_order = WIEGAND_MSB_FIRST then
    reader.size - reader.bits / 8 - 1
  else
    reader.bits / 8

/-- The function `isr_handler`, run on a falling edge of either line.
`level_d0` and `level_d1` are what `gpio_get_level` returns for `gpio_d0` and
`gpio_d1` at that moment. -/
def isr_handler (reader : wiegand_reader_t) (level_d0 level_d1 : Bool) :
    wiegand_reader_t :=
  if !reader.enabled then reader
  else
    let d0 := !level_d0
    let d1 := !level_d1
    -- ignore equal
    if d0 = d1 then reader
    -- overflow
    else if reader.bits ≥ reader.size * 8 then reader
    else
      let value := isr_value reader d0
      let i := isr_index reader
      { reader with
          buf := reader.buf.set i ((reader.buf.getD i 0 ||| value) % 256)
          bits := reader.bits + 1
          timer_armed := true }

/-- The function `wiegand_reader_disable`. -/
def wiegand_reader_disable (reader : wiegand_reader_t) : wiegand_reader_t :=
  { isr_disable reader with timer_armed := false, enabled := false }

/-- The function `wiegand_reader_enable`: `memset` of the buffer, bit count 0. -/
def wiegand_reader_enable (reader : wiegand_reader_t) : wiegand_reader_t :=
  { isr_enable reader with
      bits := 0
      buf := List.replicate reader.size 0
      enabled := true }

/-! ## Frames, queues and the frame timer -/

/-- The structure `data_packet_t`: an undecoded frame copied out of the reader. -/
structure data_packet_t where
  data : List Nat := []
  bits : Nat := 0
  deriving DecidableEq, Repr

/-- The length of the two FreeRTOS queues created by the reader tasks
(`xQueueCreate(5, sizeof(data_packet_t))`). -/
def QUEUE_LENGTH : Nat := 5

/-- The call `xQueueSendToBack(q, &p, 0)`: with no block time the packet is
dropped when the queue is full. -/
def xQueueSendToBack (q : List data_packet_t) (p : data_packet_t) :
    List data_packet_t :=
  if q.length < QUEUE_LENGTH then q ++ [p] else q

/-- The two global queues `queue` (reader 1) and `queue2` (reader 2). -/
structure queues_t where
  queue : List data_packet_t := []
  queue2 : List data_packet_t := []
  deriving DecidableEq, Repr

/-- The packet built by `reader_callback` and `reader_callback2`:
`p.bits = r->bits` and `memcpy(p.data, r->buf, CONFIG_EXAMPLE_BUF_SIZE)`.  The
build-time constant `CONFIG_EXAMPLE_BUF_SIZE` is the parameter `cfg`. -/
def make_packet (cfg : Nat) (r : wiegand_reader_t) : data_packet_t :=
  { bits := r.bits
    data := (List.range cfg).map (fun i => r.buf.getD i 0) }

/-- The function `reader_callback`. -/
def reader_callback (cfg : Nat) (r : wiegand_reader_t) (qs : queues_t) : queues_t :=
  { qs with queue := xQueueSendToBack qs.queue (make_packet cfg r) }

/-- The function `reader_callback2`. -/
def reader_callback2 (cfg : Nat) (r : wiegand_reader_t) (qs : queues_t) : queues_t :=
  { qs with queue2 := xQueueSendToBack qs.queue2 (make_packet cfg r) }

/-- The call `reader->callback(reader)` behind its null test. -/
def invoke_callback (cfg : Nat) (r : wiegand_reader_t) (qs : queues_t) : queues_t :=
  match r.callback with
  | some wiegand_callback_t.reader_callback => reader_callback cfg r qs
  | some wiegand_callback_t.reader_callback2 => reader_callback2 cfg r qs
  | none => qs

/-- The function `timer_handler` (frame timer of reader 1). -/
def timer_handler (cfg : Nat) (reader : wiegand_reader_t) (qs : queues_t) :
    wiegand_reader_t × queues_t :=
  let r1 := wiegand_reader_disable reader
  let qs1 := invoke_callback cfg r1 qs
  let r2 := wiegand_reader_enable r1
  (isr_enable r2, qs1)

/-- The function `timer_handler2` (frame timer of reader 2). -/
def timer_handler2 (cfg : Nat) (reader : wiegand_reader_t) (qs : queues_t) :
    wiegand_reader_t × queues_t :=
  let r1 := wiegand_reader_disable reader
  let qs1 := invoke_callback cfg r1 qs
  let r2 := wiegand_reader_enable r1
  (isr_enable r2, qs1)

/-! ## Frame decoder of the reader tasks -/

/-- The operator `~` on a `uint64_t`. -/
def u64_not (x : Nat) : Nat := 2 ^ 64 - 1 - x % 2 ^ 64

/-- The `for` loop of the reader tasks,
`for (i = 0; i < n; i++) wiegandResult = (wiegandResult << 8) | p.data[i];`,
with `todo` iterations left to run from index `i`. -/
def task_decode_loop (data : List Nat) : Nat → Nat → Nat → Nat
  | 0, _, wiegandResult => wiegandResult
  | todo + 1, i, wiegandResult =>
      task_decode_loop data todo (i + 1)
        (((wiegandResult <<< 8) % 2 ^ 64) ||| data.getD i 0)

/-- The frame decoder at the head of the loop body of `wiegand1_task` and
`wiegand2_task` (the two copies are the same text): from the received packet to
the value of `wiegandResult` that the mode logic then uses. -/
def task_decode (p : data_packet_t) : Nat :=
  let bits_to_shift : Nat :=
    if p.bits = 26 then (32 - p.bits) % 256
    else if p.bits = 34 then (40 - p.bits) % 256
    else 0
  let wiegandResult : Nat := 0
  let wiegandResult := (u64_not wiegandResult + 1) % 2 ^ 64
  let bytes := p.bits / 8
  let tail := p.bits % 8
  let wiegandResult :=
    task_decode_loop p.data (bytes + (if tail ≠ 0 then 1 else 0)) 0 wiegandResult
  if p.bits = 26 then wiegandResult >>> bits_to_shift
  else if p.bits = 34 then wiegandResult >>> bits_to_shift
  else wiegandResult

/-! ## Persistent store, user database and global variables -/

/-- The keys of the system namespace (`nvs_System_handle`) used by this file. -/
inductive nvs_key_t where
  | NVS_ANTIPASSBACK_ACTIVATE_LABEL
  | NVS_ANTIPASSBACK_MODE_LABEL
  | NVS_ANTIPASSBACK_PEOPLE_NUMBER
  | NVS_ANTIPASSBACK_PEOPLE_COUNTER
  deriving DecidableEq, Repr

open nvs_key_t

/-- The three role-partitioned presence namespaces
`nvs_wiegand_antipassback_USER_handle`, `..._ADMIN_handle`, `..._OWNER_handle`. -/
inductive antipassback_handle_t where
  | USER
  | ADMIN
  | OWNER
  deriving DecidableEq, Repr

/-- The persisted values: the four system entries (absent when `none`) and the
three presence namespaces as association lists from key to stored string. -/
structure nvs_t where
  activate : Option Nat := none
  mode : Option Nat := none
  people_number : Option Nat := none
  people_counter : Option Nat := none
  antipassback_USER : List (String × String) := []
  antipassback_ADMIN : List (String × String) := []
  antipassback_OWNER : List (String × String) := []
  deriving DecidableEq, Repr

/-- The stored value of a system key. -/
def nvs_t.get (n : nvs_t) : nvs_key_t → Option Nat
  | NVS_ANTIPASSBACK_ACTIVATE_LABEL => n.activate
  | NVS_ANTIPASSBACK_MODE_LABEL => n.mode
  | NVS_ANTIPASSBACK_PEOPLE_NUMBER => n.people_number
  | NVS_ANTIPASSBACK_PEOPLE_COUNTER => n.people_counter

/-- The store with a system key written. -/
def nvs_t.put (n : nvs_t) (k : nvs_key_t) (v : Nat) : nvs_t :=
  match k with
  | NVS_ANTIPASSBACK_ACTIVATE_LABEL => { n with activate := some v }
  | NVS_ANTIPASSBACK_MODE_LABEL => { n with mode := some v }
  | NVS_ANTIPASSBACK_PEOPLE_NUMBER => { n with people_number := some v }
  | NVS_ANTIPASSBACK_PEOPLE_COUNTER => { n with people_counter := some v }

/-- The content of a presence namespace. -/
def nvs_t.ns (n : nvs_t) : antipassback_handle_t → List (String × String)
  | antipassback_handle_t.USER => n.antipassback_USER
  | antipassback_handle_t.ADMIN => n.antipassback_ADMIN
  | antipassback_handle_t.OWNER => n.antipassback_OWNER

/-- The store with the content of a presence namespace replaced. -/
def nvs_t.set_ns (n : nvs_t) (h : antipassback_handle_t) (l : List (String × String)) :
    nvs_t :=
  match h with
  | antipassback_handle_t.USER => { n with antipassback_USER := l }
  | antipassback_handle_t.ADMIN => { n with antipassback_ADMIN := l }
  | antipassback_handle_t.OWNER => { n with antipassback_OWNER := l }

/-- The fields of `MyUser` that this file reads.  The default is the record after
`memset(&user, 0, sizeof(user))`. -/
structure MyUser where
  wiegand_code : String := ""
  permition : Char := Char.ofNat 0
  deriving DecidableEq, Repr

/-- The numeric values of the mode labels of `wiegand.h`. -/
structure labels_t where
  WIEGAND_NORMAL_MODE_LABEL : Nat
  WIEGAND_KEYPAD_MODE_LABEL : Nat
  WIEGAND_AUTO_SAVE_MODE_LABEL : Nat
  WIEGAND_READ_MODE_LABEL : Nat
  deriving DecidableEq, Repr

/-- One call of `wiegand_parse_getData` (the hand-over to the dispatcher). -/
structure dispatch_t where
  wiegand_data : Nat
  mode : Nat
  wiegand_relay : Nat
  readerNumber : Nat
  deriving DecidableEq, Repr

/-- One call of `parse_ReleData` made by `wiegand_parse_getData`. -/
structure rele_t where
  wiegand_relay : Nat
  user : MyUser
  reader : String
  deriving DecidableEq, Repr

/-- Everything outside the reader structures that the code of this file reads or
writes.

* `nvs` is the persistent store and `faults` the outcome of the coming store
  operations, one entry per operation in program order: `true` makes the
  operation fail with `ESP_FAIL` and leave the store as it is; when the list is
  exhausted operations succeed.
* `wiegand_codes` is what `checkIf_wiegandExist` searches (credential key to
  user identity) and `user_records` what `MyUser_Search_User` followed by
  `parse_ValidateData_User` yields for an identity.
* the remaining fields are the global variables and the two call logs. -/
structure world_t where
  nvs : nvs_t := {}
  faults : List Bool := []
  int8_on_error : Nat := 0
  wiegand_codes : List (String × String) := []
  user_records : List (String × MyUser) := []
  anti_passback_activation : Nat := 0
  anti_passback_people_number : Nat := 0
  antipassback_peopleCounter : Nat := 0
  wiegand_antipassback_mode : Nat := 0
  wiegandMode : Nat := 0
  wiegandMode2 : Nat := 0
  keypadCount : Nat := 0
  BLE_SMS_Indication_wiegand_autoSave : Nat := 0
  gattsIF_wiegand_autoSave : Nat := 0
  connID_wiegand_autoSave : Nat := 0
  handle_table_wiegand_autoSave : Nat := 0
  dispatched : List dispatch_t := []
  rele : List rele_t := []
  deriving DecidableEq, Repr

/-- The outcome of the next store operation: whether it fails, and the world with
that entry of the schedule consumed. -/
def pop_fault (w : world_t) : Bool × world_t :=
  match w.faults with
  | [] => (false, w)
  | f :: fs => (f, { w with faults := fs })

/-- The call `nvs_get_u32(nvs_System_handle, key, &out)`: the result code, the
value of `out` afterwards (written on success only) and the world. -/
def nvs_get_u32 (w : world_t) (key : nvs_key_t) (out : Nat) : Int × Nat × world_t :=
  let (fail, w1) := pop_fault w
  if fail then (ESP_FAIL, out, w1)
  else
    match w1.nvs.get key with
    | some v => (ESP_OK, v % 2 ^ 32, w1)
    | none => (ESP_ERR_NVS_NOT_FOUND, out, w1)

/-- The call `nvs_set_u32(nvs_System_handle, key, value)`. -/
def nvs_set_u32 (w : world_t) (key : nvs_key_t) (value : Nat) : Int × world_t :=
  let (fail, w1) := pop_fault w
  if fail then (ESP_FAIL, w1)
  else (ESP_OK, { w1 with nvs := w1.nvs.put key (value % 2 ^ 32) })

/-- The call `nvs_set_u8(nvs_System_handle, key, value)`. -/
def nvs_set_u8 (w : world_t) (key : nvs_key_t) (value : Nat) : Int × world_t :=
  let (fail, w1) := pop_fault w
  if fail then (ESP_FAIL, w1)
  else (ESP_OK, { w1 with nvs := w1.nvs.put key (value % 2 ^ 8) })

/-- The call `nvs_get_str(handle, key, NULL, &required_size)`, used as an
existence test. -/
def nvs_get_str (w : world_t) (h : antipassback_handle_t) (key : String) :
    Int × world_t :=
  let (fail, w1) := pop_fault w
  if fail then (ESP_FAIL, w1)
  else
    match (w1.nvs.ns h).lookup key with
    | some _ => (ESP_OK, w1)
    | none => (ESP_ERR_NVS_NOT_FOUND, w1)

/-- The call `nvs_set_str(handle, key, value)`. -/
def nvs_set_str (w : world_t) (h : antipassback_handle_t) (key value : String) :
    Int × world_t :=
  let (fail, w1) := pop_fault w
  if fail then (ESP_FAIL, w1)
  else
    (ESP_OK,
      { w1 with
          nvs := w1.nvs.set_ns h
            ((key, value) :: (w1.nvs.ns h).filter (fun e => e.1 ≠ key)) })

/-- The call `nvs_erase_key(handle, key)`. -/
def nvs_erase_key (w : world_t) (h : antipassback_handle_t) (key : String) :
    Int × world_t :=
  let (fail, w1) := pop_fault w
  if fail then (ESP_FAIL, w1)
  else
    match (w1.nvs.ns h).lookup key with
    | some _ =>
        (ESP_OK,
          { w1 with nvs := w1.nvs.set_ns h ((w1.nvs.ns h).filter (fun e => e.1 ≠ key)) })
    | none => (ESP_ERR_NVS_NOT_FOUND, w1)

/-- Modelled from the spec: `get_INT8_Data_From_Storage` is a helper of this
repository that is not in `wiegand.c`; the spec says it reads a persisted 8-bit
value.  It is one store read; what it returns when the read fails or the key is
absent is not known and is the field `int8_on_error` of the world. -/
def get_INT8_Data_From_Storage (w : world_t) (key : nvs_key_t) : Nat × world_t :=
  let (fail, w1) := pop_fault w
  if fail then (w1.int8_on_error % 256, w1)
  else
    match w1.nvs.get key with
    | some v => (v % 256, w1)
    | none => (w1.int8_on_error % 256, w1)

/-- Modelled from the spec: `save_INT8_Data_In_Storage` is a helper of this
repository that is not in `wiegand.c`; the spec says it persists an 8-bit value
and reports the result code of the write. -/
def save_INT8_Data_In_Storage (w : world_t) (key : nvs_key_t) (value : Nat) :
    Int × world_t :=
  nvs_set_u8 w key value

/-- The text `printf` produces for `%lld` given a `uint64_t` argument. -/
def lld (v : Nat) : String :=
  if v % 2 ^ 64 < 2 ^ 63 then toString (v % 2 ^ 64)
  else "-" ++ toString (2 ^ 64 - v % 2 ^ 64)

/-- The call `checkIf_wiegandExist(key, out)` of the user database: the identity
written to `out` when the credential key is known. -/
def checkIf_wiegandExist (w : world_t) (key : String) : Option String :=
  w.wiegand_codes.lookup key

/-- The calls `MyUser_Search_User(id, text)` and `parse_ValidateData_User(text,
&user)` on a zeroed `user`, as the action functions make them: the result code
of the search is not tested there, so a failed search leaves the zeroed record. -/
def search_and_parse (w : world_t) (id : String) : MyUser :=
  (w.user_records.lookup id).getD {}

/-! ## Antipassback ledger and dispatch path -/

/-- The function `get_antipassback_user`: `0` when the key is found in one of the
three presence namespaces, `1` otherwise. -/
def get_antipassback_user (w : world_t) (wiegandNumber : String) : Nat × world_t :=
  let (r1, w) := nvs_get_str w antipassback_handle_t.USER wiegandNumber
  if r1 = ESP_OK then (0, w)
  else
    let (r2, w) := nvs_get_str w antipassback_handle_t.ADMIN wiegandNumber
    if r2 = ESP_OK then (0, w)
    else
      let (r3, w) := nvs_get_str w antipassback_handle_t.OWNER wiegandNumber
      if r3 = ESP_OK then (0, w) else (1, w)

/-- The narrowing of an `esp_err_t` to the `uint8_t` return type. -/
def to_uint8 (e : Int) : Nat := (e % 256).toNat

/-- The function `set_antipassback_user`. -/
def set_antipassback_user (w : world_t) (wiegandNumber : String) (permition : Char) :
    Nat × world_t :=
  if permition = '0' then
    let (r, w) := nvs_set_str w antipassback_handle_t.USER wiegandNumber "1"
    (to_uint8 r, w)
  else if permition = '1' then
    let (r, w) := nvs_set_str w antipassback_handle_t.ADMIN wiegandNumber "1"
    (to_uint8 r, w)
  else if permition = '2' then
    let (r, w) := nvs_set_str w antipassback_handle_t.OWNER wiegandNumber "1"
    (to_uint8 r, w)
  else (1, w)

/-- The function `erase_antipassback_user`. -/
def erase_antipassback_user (w : world_t) (wiegandNumber : String) : Nat × world_t :=
  let (_, w) := nvs_erase_key w antipassback_handle_t.USER wiegandNumber
  let (_, w) := nvs_erase_key w antipassback_handle_t.ADMIN wiegandNumber
  let (_, w) := nvs_erase_key w antipassback_handle_t.OWNER wiegandNumber
  (0, w)

/-- The function `wiegand_parse_getData`: the call is logged in `dispatched`, and
the call of `parse_ReleData` it makes for a known credential in `rele`. -/
def wiegand_parse_getData (L : labels_t) (w : world_t) (wiegand_data : Nat)
    (keypadValue : Option String) (mode wiegand_relay readerNumber : Nat) :
    Nat × world_t :=
  let w := { w with
    dispatched := w.dispatched ++ [⟨wiegand_data, mode, wiegand_relay, readerNumber⟩] }
  let wiegandData_str :=
    if mode = L.WIEGAND_KEYPAD_MODE_LABEL then "$" ++ keypadValue.getD "(null)"
    else "$" ++ lld wiegand_data
  let mqttInfo := if readerNumber = 1 then "READER 1" else "READER 2"
  match checkIf_wiegandExist w wiegandData_str with
  | some wiegandDataNumber =>
      match w.user_records.lookup wiegandDataNumber with
      | some validateData_user =>
          (0, { w with rele := w.rele ++ [⟨wiegand_relay, validateData_user, mqttInfo⟩] })
      | none => (0, w)
  | none => (0, w)

/-- The function `wiegand2_action` (exit reader). -/
def wiegand2_action (L : labels_t) (w : world_t) (wiegandResult : Nat) : world_t :=
  let (act, w) := get_INT8_Data_From_Storage w NVS_ANTIPASSBACK_ACTIVATE_LABEL
  let w := { w with anti_passback_activation := if act = 1 then 1 else 0 }
  if w.anti_passback_activation = 1 then
    let wiegandData_str := lld wiegandResult
    let auxWiegan_number := "$" ++ lld wiegandResult
    match checkIf_wiegandExist w auxWiegan_number with
    | some auxWiegan_number2 =>
        let myUser_antipassback := search_and_parse w auxWiegan_number2
        let (ack, w) := get_antipassback_user w myUser_antipassback.wiegand_code
        if ack = 0 then
          let (_, n, w) :=
            nvs_get_u32 w NVS_ANTIPASSBACK_PEOPLE_NUMBER w.anti_passback_people_number
          let w := { w with anti_passback_people_number := n }
          let (_, c, w) :=
            nvs_get_u32 w NVS_ANTIPASSBACK_PEOPLE_COUNTER w.antipassback_peopleCounter
          let w := { w with antipassback_peopleCounter := c }
          if w.anti_passback_people_number = 0 then w
          else
            let w := { w with
              anti_passback_people_number := w.anti_passback_people_number - 1 }
            let (_, w) :=
              nvs_set_u32 w NVS_ANTIPASSBACK_PEOPLE_NUMBER w.anti_passback_people_number
            let (m, w) := get_INT8_Data_From_Storage w NVS_ANTIPASSBACK_MODE_LABEL
            let w := { w with wiegand_antipassback_mode := m }
            let relay_wiegand2 := if w.wiegand_antipassback_mode = 2 then 2 else 1
            let (_, w) := erase_antipassback_user w wiegandData_str
            (wiegand_parse_getData L w wiegandResult none
              L.WIEGAND_NORMAL_MODE_LABEL relay_wiegand2 2).2
        else w
    | none => (erase_antipassback_user w wiegandData_str).2
  else
    (wiegand_parse_getData L w wiegandResult none L.WIEGAND_NORMAL_MODE_LABEL 2 2).2

/-- The function `wiegand1_action` (entry reader). -/
def wiegand1_action (L : labels_t) (w : world_t) (wiegandResult : Nat) : world_t :=
  let (act, w) := get_INT8_Data_From_Storage w NVS_ANTIPASSBACK_ACTIVATE_LABEL
  let w := { w with anti_passback_activation := if act = 1 then 1 else 0 }
  if w.anti_passback_activation = 1 then
    let wiegandData_str := lld wiegandResult
    let auxWiegan_number := "$" ++ lld wiegandResult
    match checkIf_wiegandExist w auxWiegan_number with
    | some auxWiegan_number2 =>
        let myUser_antipassback := search_and_parse w auxWiegan_number2
        let (ack, w) := get_antipassback_user w wiegandData_str
        if ack ≠ 0 then
          let (_, n, w) :=
            nvs_get_u32 w NVS_ANTIPASSBACK_PEOPLE_NUMBER w.anti_passback_people_number
          let w := { w with anti_passback_people_number := n }
          let (_, c, w) :=
            nvs_get_u32 w NVS_ANTIPASSBACK_PEOPLE_COUNTER w.antipassback_peopleCounter
          let w := { w with antipassback_peopleCounter := c }
          if w.anti_passback_people_number ≥ w.antipassback_peopleCounter then w
          else
            let w := { w with
              anti_passback_people_number :=
                (w.anti_passback_people_number + 1) % 2 ^ 32 }
            let (_, w) :=
              nvs_set_u32 w NVS_ANTIPASSBACK_PEOPLE_NUMBER w.anti_passback_people_number
            let (r, w) :=
              set_antipassback_user w wiegandData_str myUser_antipassback.permition
            if r = 0 then
              (wiegand_parse_getData L w wiegandResult none
                L.WIEGAND_NORMAL_MODE_LABEL 1 1).2
            else w
        else w
    | none =>
        (nvs_erase_key w antipassback_handle_t.USER wiegandData_str).2
  else
    (wiegand_parse_getData L w wiegandResult none L.WIEGAND_NORMAL_MODE_LABEL 1 1).2

/-! ## Reader initialisation -/

/-- The result codes of the driver calls made while a reader is initialised. -/
structure driver_t where
  gpio_install_isr_service : Int := 0
  esp_timer_create : Int := 0
  gpio_set_direction_d0 : Int := 0
  gpio_set_direction_d1 : Int := 0
  gpio_set_pull_mode_d0 : Int := 0
  gpio_set_pull_mode_d1 : Int := 0
  gpio_isr_handler_add_d0 : Int := 0
  gpio_isr_handler_add_d1 : Int := 0
  deriving DecidableEq, Repr

/-- The part of `wiegand_reader_init1` and `wiegand_reader_init2` from the call of
`gpio_install_isr_service` to the end (the two copies differ only in the timer
handler they register): the result code and the reader structure afterwards. -/
def reader_init_body (drv : driver_t) (reader : wiegand_reader_t)
    (gpio_d0 gpio_d1 buf_size : Nat) (callback : wiegand_callback_t)
    (bit_order byte_order : wiegand_order_t) : Int × wiegand_reader_t :=
  let res := drv.gpio_install_isr_service
  if res ≠ ESP_OK ∧ res ≠ ESP_ERR_INVALID_STATE then (res, reader)
  else
    let reader : wiegand_reader_t :=
      { gpio_d0 := gpio_d0
        gpio_d1 := gpio_d1
        size := buf_size
        buf := List.replicate buf_size 0
        bit_order := bit_order
        byte_order := byte_order
        callback := some callback }
    if drv.esp_timer_create ≠ ESP_OK then (drv.esp_timer_create, reader)
    else if drv.gpio_set_direction_d0 ≠ ESP_OK then (drv.gpio_set_direction_d0, reader)
    else if drv.gpio_set_direction_d1 ≠ ESP_OK then (drv.gpio_set_direction_d1, reader)
    else if drv.gpio_set_pull_mode_d0 ≠ ESP_OK then (drv.gpio_set_pull_mode_d0, reader)
    else if drv.gpio_set_pull_mode_d1 ≠ ESP_OK then (drv.gpio_set_pull_mode_d1, reader)
    else
      let reader := isr_disable reader
      if drv.gpio_isr_handler_add_d0 ≠ ESP_OK then (drv.gpio_isr_handler_add_d0, reader)
      else if drv.gpio_isr_handler_add_d1 ≠ ESP_OK then
        (drv.gpio_isr_handler_add_d1, reader)
      else
        let reader := isr_enable reader
        (ESP_OK, { reader with enabled := true })

/-- The function `wiegand_reader_init2`.  `callback` is `none` for a null
pointer. -/
def wiegand_reader_init2 (drv : driver_t) (w : world_t) (reader : wiegand_reader_t)
    (gpio_d0 gpio_d1 : Nat) (_internal_pullups : Bool) (buf_size : Nat)
    (callback : Option wiegand_callback_t) (bit_order byte_order : wiegand_order_t) :
    Int × world_t × wiegand_reader_t :=
  match callback with
  | none => (ESP_ERR_INVALID_ARG, w, reader)
  | some cb =>
      if buf_size = 0 then (ESP_ERR_INVALID_ARG, w, reader)
      else
        let w := { w with wiegandMode := 0 }
        let (res, reader) :=
          reader_init_body drv reader gpio_d0 gpio_d1 buf_size cb bit_order byte_order
        (res, w, reader)

/-- The function `wiegand_reader_init1`.  `callback` is `none` for a null
pointer. -/
def wiegand_reader_init1 (drv : driver_t) (w : world_t) (reader : wiegand_reader_t)
    (gpio_d0 gpio_d1 : Nat) (_internal_pullups : Bool) (buf_size : Nat)
    (callback : Option wiegand_callback_t) (bit_order byte_order : wiegand_order_t) :
    Int × world_t × wiegand_reader_t :=
  match callback with
  | none => (ESP_ERR_INVALID_ARG, w, reader)
  | some cb =>
      if buf_size = 0 then (ESP_ERR_INVALID_ARG, w, reader)
      else
        let (m, w) := get_INT8_Data_From_Storage w NVS_ANTIPASSBACK_MODE_LABEL
        let w := { w with
          wiegandMode := m
          BLE_SMS_Indication_wiegand_autoSave := 0
          gattsIF_wiegand_autoSave := 0
          connID_wiegand_autoSave := 0
          handle_table_wiegand_autoSave := 0 }
        let (res, reader) :=
          reader_init_body drv reader gpio_d0 gpio_d1 buf_size cb bit_order byte_order
        (res, w, reader)

/-- The reader set up by `wiegand1_task`:
`wiegand_reader_init1(&reader, 7, 6, true, CONFIG_EXAMPLE_BUF_SIZE,
reader_callback, WIEGAND_MSB_FIRST, WIEGAND_LSB_FIRST)`. -/
def wiegand1_task_init (cfg : Nat) (drv : driver_t) (w : world_t)
    (reader : wiegand_reader_t) : Int × world_t × wiegand_reader_t :=
  wiegand_reader_init1 drv w reader 7 6 true cfg
    (some wiegand_callback_t.reader_callback) WIEGAND_MSB_FIRST WIEGAND_LSB_FIRST

/-- The reader set up by `wiegand2_task`:
`wiegand_reader_init2(&reader2, 40, 39, true, CONFIG_EXAMPLE_BUF_SIZE,
reader_callback2, WIEGAND_MSB_FIRST, WIEGAND_LSB_FIRST)`. -/
def wiegand2_task_init (cfg : Nat) (drv : driver_t) (w : world_t)
    (reader : wiegand_reader_t) : Int × world_t × wiegand_reader_t :=
  wiegand_reader_init2 drv w reader 40 39 true cfg
    (some wiegand_callback_t.reader_callback2) WIEGAND_MSB_FIRST WIEGAND_LSB_FIRST

/-! ## Runs of a reader -/

/-- The reader after the falling edges `edges`, each given by the levels of
`gpio_d0` and `gpio_d1` that `isr_handler` reads. -/
def sample (reader : wiegand_reader_t) (edges : List (Bool × Bool)) : wiegand_reader_t :=
  edges.foldl (fun r e => isr_handler r e.1 e.2) reader

/-- What can happen to a reader: a falling edge with the two line levels read by
the handler, an expiry of the frame timer, and the calls of
`wiegand_reader_enable` and `wiegand_reader_disable`. -/
inductive reader_event where
  | edge (level_d0 level_d1 : Bool)
  | timer_expiry
  | enable
  | disable
  deriving DecidableEq, Repr

/-- One event applied to a reader and the queues. -/
def reader_step (cfg : Nat) (s : wiegand_reader_t × queues_t) :
    reader_event → wiegand_reader_t × queues_t
  | reader_event.edge l0 l1 => (isr_handler s.1 l0 l1, s.2)
  | reader_event.timer_expiry => timer_handler cfg s.1 s.2
  | reader_event.enable => (wiegand_reader_enable s.1, s.2)
  | reader_event.disable => (wiegand_reader_disable s.1, s.2)

/-- A sequence of events applied to a reader and the queues. -/
def reader_run (cfg : Nat) (s : wiegand_reader_t × queues_t) (es : List reader_event) :
    wiegand_reader_t × queues_t :=
  es.foldl (reader_step cfg) s

/-- The number of iterations of the decoder loop for a packet: the loop reads
`p.data[i]` for exactly the indices `i` below this number. -/
def decode_reads (p : data_packet_t) : Nat :=
  p.bits / 8 + (if p.bits % 8 ≠ 0 then 1 else 0)

/-! ## Reference definitions taken from the specification -/

/-- The value of a bit sequence read most significant bit first:
the sum of `b_i * 2 ^ (N - 1 - i)`. -/
def val (bs : List Bool) : Nat :=
  bs.foldl (fun a b => 2 * a + (if b then 1 else 0)) 0

/-- The reference encoder of the specification: the levels of the data-0 and
data-1 lines at the falling edge that transmits a bit.  A `0` is a pulse (low
level) on data-0, a `1` is a pulse on data-1. -/
def spec_encode (b : Bool) : Bool × Bool :=
  if b then (true, false) else (false, true)

/-- The decoding algorithm in the words of the specification, with the start
value of the accumulator as a parameter: for each of the `ceil(bitCount / 8)`
occupied bytes in storage order shift the accumulator left by 8 (modulo `2 ^ 64`)
and OR in the byte, then shift right by 6 when the bit count is 26 or 34. -/
def spec_decode (start : Nat) (bitCount : Nat) (bytes : List Nat) : Nat :=
  let occupied := (bitCount + 7) / 8
  let acc :=
    (List.range occupied).foldl
      (fun acc i => ((acc * 2 ^ 8) % 2 ^ 64) ||| bytes.getD i 0) start
  if bitCount = 26 ∨ bitCount = 34 then acc / 2 ^ 6 else acc

/-- The all-ones 64-bit value. -/
def all_ones_64 : Nat := 2 ^ 64 - 1

/-! ## Predicates and worked inputs used by the statements -/

/-- Bit `n` of the frame held by a reader, read back from the buffer with the
reader's own byte order and bit order. -/
def frame_bit (reader : wiegand_reader_t) (n : Nat) : Bool :=
  let i :=
    if reader.byte_order = WIEGAND_MSB_FIRST then reader.size - n / 8 - 1 else n / 8
  let k := if reader.bit_order = WIEGAND_MSB_FIRST then 7 - n % 8 else n % 8
  (reader.buf.getD i 0).testBit k

/-- A reader whose buffer has `size` bytes, each a `uint8_t`. -/
def reader_wf (reader : wiegand_reader_t) : Prop :=
  reader.buf.length = reader.size ∧ ∀ b ∈ reader.buf, b < 256

/-- The invariant of a reader and its queues: the buffer has `size` bytes, each a
`uint8_t`, the bit count is within the capacity, and every queued packet has
`cfg` data bytes of which the decoder reads at most `cfg`. -/
def reader_inv (cfg : Nat) (s : wiegand_reader_t × queues_t) : Prop :=
  reader_wf s.1 ∧ s.1.bits ≤ 8 * s.1.size ∧ s.1.size = cfg ∧
  (∀ p ∈ s.2.queue ++ s.2.queue2, p.data.length = cfg ∧ decode_reads p ≤ cfg)

/-- Every frame position from the bit count up to the capacity is clear. -/
def clear_from (reader : wiegand_reader_t) : Prop :=
  ∀ n, reader.bits ≤ n → n < 8 * reader.size → frame_bit reader n = false

/-- The big-endian value of the first `n` bytes of a buffer. -/
def be_value (buf : List Nat) : Nat → Nat
  | 0 => 0
  | n + 1 => be_value buf n * 256 + buf.getD n 0

/-- The state of a reader with MSB-first bits and LSB-first bytes that has packed
the bit sequence `bs` into a cleared buffer. -/
def packed (r : wiegand_reader_t) (bs : List Bool) : Prop :=
  reader_wf r ∧ r.enabled = true ∧ r.bit_order = WIEGAND_MSB_FIRST ∧
  r.byte_order = WIEGAND_LSB_FIRST ∧ r.bits = bs.length ∧
  (∀ j, r.bits / 8 < j → r.buf.getD j 0 = 0) ∧
  r.buf.getD (r.bits / 8) 0 % 2 ^ (8 - r.bits % 8) = 0 ∧
  be_value r.buf (r.bits / 8 + 1) = val bs * 2 ^ (8 - r.bits % 8)

/-- The presence namespace of a role tag: `'0'` user, `'1'` admin, `'2'` owner. -/
def role_namespace (permition : Char) : antipassback_handle_t :=
  if permition = '0' then antipassback_handle_t.USER
  else if permition = '1' then antipassback_handle_t.ADMIN
  else antipassback_handle_t.OWNER

/-- The credential key is stored in one of the three presence namespaces. -/
def marked_present (n : nvs_t) (key : String) : Prop :=
  ∃ h : antipassback_handle_t, ((n.ns h).lookup key).isSome = true

/-- Label values used in the worked examples. -/
def example_labels : labels_t := ⟨0, 1, 2, 3⟩

/-- A world with antipassback activated in mode 1, quota 2, nobody inside, and
three enrolled credentials 11, 22 and 33 with role tags `'0'`, `'1'`, `'2'`. -/
def quota_world : world_t :=
  { nvs :=
      { activate := some 1, mode := some 1, people_number := some 0,
        people_counter := some 2 }
    wiegand_codes := [("$11", "a"), ("$22", "b"), ("$33", "c")]
    user_records :=
      [("a", { wiegand_code := "11", permition := '0' }),
       ("b", { wiegand_code := "22", permition := '1' }),
       ("c", { wiegand_code := "33", permition := '2' })] }

/-- The world `quota_world` after credential 11 has entered. -/
def quota_world_inside : world_t := wiegand1_action example_labels quota_world 11

/-- A reader of one byte with an empty frame, enabled. -/
def one_byte_reader : wiegand_reader_t := { size := 1, buf := [0], enabled := true }

/-- A reader of two bytes holding a ten-bit frame, with `reader_callback`. -/
def ten_bit_reader : wiegand_reader_t :=
  { size := 2, buf := [0x80, 0x40], bits := 10, enabled := true,
    callback := some wiegand_callback_t.reader_callback }

/-! ## Activation and deactivation of the antipassback ledger -/

/-- The NUL character. -/
def NUL : Char := Char.ofNat 0

/-- The C library predicate `isspace` in the default locale. -/
def c_isspace (c : Char) : Bool :=
  c = ' ' || (9 ≤ c.toNat && c.toNat ≤ 13)

/-- The digit loop of the C library function `atoi` on the characters of an
array that are left to read; `none` when the loop runs past the end of the array
(no terminator inside it). -/
def atoi_digits : List Char → Int → Option Int
  | [], _ => none
  | c :: cs, acc =>
      if c.isDigit then atoi_digits cs (acc * 10 + ((c.toNat : Int) - 48)) else some acc

/-- The sign step of `atoi`. -/
def atoi_sign : List Char → Option Int
  | [] => none
  | c :: cs =>
      if c = '-' then (atoi_digits cs 0).map (fun x => -x)
      else if c = '+' then atoi_digits cs 0
      else atoi_digits (c :: cs) 0

/-- The C library function `atoi` on a character array: leading white space, an
optional sign, then decimal digits; `none` when it reads past the array. -/
def atoi : List Char → Option Int
  | [] => none
  | c :: cs => if c_isspace c then atoi cs else atoi_sign (c :: cs)

/-- The local variables of the parsing loop of `antipassback_activate`, with the
global `wiegand_antipassback_mode` it assigns.  `written` is a ghost record of the
indices of `peopleCounter` that were written, latest first. -/
structure activate_parse_t where
  aux : Nat := 0
  strIndex : Nat := 0
  wiegand_antipassback_mode : Nat := 0
  peopleCounter : List Char := List.replicate 5 NUL
  written : List Nat := []
  deriving DecidableEq, Repr

/-- How the parsing loop of `antipassback_activate` ends. -/
inductive activate_parse_end where
  | finished (s : activate_parse_t)
  | returned (s : activate_parse_t)
  | out_of_bounds (s : activate_parse_t)
  deriving DecidableEq, Repr

/-- The loop `for (int i = 0; i < strlen(payload); i++)` of `antipassback_activate`
on the characters of the payload that are left: it runs to the end (`finished`),
leaves the function through `return ESP_FAIL + 1` (`returned`), or writes outside
the 5-byte array `peopleCounter` (`out_of_bounds`). -/
def activate_parse : List Char → activate_parse_t → activate_parse_end
  | [], s => activate_parse_end.finished s
  | c :: cs, s =>
      if c = '.' then
        activate_parse cs { s with aux := (s.aux + 1) % 256, strIndex := 0 }
      else if s.aux = 0 then
        activate_parse cs
          { s with wiegand_antipassback_mode := (c.toNat + 256 - 48) % 256 }
      else if s.aux = 1 then
        if s.strIndex < 5 then
          activate_parse cs
            { s with
                peopleCounter := s.peopleCounter.set s.strIndex c
                written := s.strIndex :: s.written
                strIndex := (s.strIndex + 1) % 256 }
        else activate_parse_end.out_of_bounds s
      else activate_parse_end.returned s

/-- The function `antipassback_activate`.  The payload is a C string of ASCII
characters; the global `wiegand_antipassback_mode` is an 8-bit variable (it is
written with `nvs_set_u8`), so `wiegand_antipassback_mode - '0'` is computed in
`int`.  The result is `none` when the execution is undefined: a write outside
`peopleCounter`, or `atoi` reading past it. -/
def antipassback_activate (w : world_t) (payload : String) : Option (Nat × world_t) :=
  let w := { w with anti_passback_activation := 1 }
  let start : activate_parse_t :=
    { wiegand_antipassback_mode := w.wiegand_antipassback_mode }
  match activate_parse (payload.toList.takeWhile (fun c => c ≠ NUL)) start with
  | activate_parse_end.out_of_bounds _ => none
  | activate_parse_end.returned s =>
      some (0, { w with wiegand_antipassback_mode := s.wiegand_antipassback_mode })
  | activate_parse_end.finished s =>
      let w := { w with wiegand_antipassback_mode := s.wiegand_antipassback_mode }
      match atoi s.peopleCounter with
      | none => none
      | some x =>
          let w := { w with antipassback_peopleCounter := (x % 2 ^ 32).toNat }
          if w.antipassback_peopleCounter > 2000 ∧
              (w.wiegand_antipassback_mode : Int) - 48 > 2 then some (0, w)
          else
            let (r1, w) :=
              nvs_set_u32 w NVS_ANTIPASSBACK_PEOPLE_COUNTER w.antipassback_peopleCounter
            if r1 = ESP_OK then
              let (r2, w) := nvs_set_u8 w NVS_ANTIPASSBACK_ACTIVATE_LABEL 1
              if r2 = ESP_OK then
                let w := { w with anti_passback_activation := 1 }
                let (r3, w) :=
                  nvs_set_u8 w NVS_ANTIPASSBACK_MODE_LABEL w.wiegand_antipassback_mode
                if r3 = ESP_OK then some (1, w)
                else some (0, { w with anti_passback_activation := 0 })
              else some (0, { w with anti_passback_activation := 0 })
            else some (0, { w with anti_passback_activation := 0 })

/-- The function `antipassback_deactivate`: the result of the helper plus 1, as a
`uint8_t`. -/
def antipassback_deactivate (w : world_t) : Nat × world_t :=
  let w := { w with anti_passback_activation := 0 }
  let (r, w) := save_INT8_Data_In_Storage w NVS_ANTIPASSBACK_ACTIVATE_LABEL 0
  (to_uint8 (r + 1), w)

/-- One call of an action function: `wiegand1_action` on a frame of the entry
reader, `wiegand2_action` on a frame of the exit reader. -/
inductive action_call where
  | entry (wiegandResult : Nat)
  | exit (wiegandResult : Nat)
  deriving DecidableEq, Repr

/-- One call applied to the world. -/
def action_step (L : labels_t) (w : world_t) : action_call → world_t
  | action_call.entry v => wiegand1_action L w v
  | action_call.exit v => wiegand2_action L w v

/-- A sequence of calls executed one at a time. -/
def action_run (L : labels_t) (w : world_t) (calls : List action_call) : world_t :=
  calls.foldl (action_step L) w

/-- The world `w'` differs from `w` at most in the schedule of store failures. -/
def same_but_faults (w w' : world_t) : Prop :=
  w' = { w with faults := w'.faults }

/-- The invariant of the antipassback counter for the quota `q`: no store failure
is scheduled, the persisted quota is `q` and the persisted current count is
present and at most `q`. -/
def counter_inv (q : Nat) (w : world_t) : Prop :=
  w.faults = [] ∧ w.nvs.people_counter = some q ∧
  ∃ n, w.nvs.people_number = some n ∧ n ≤ q

/-- The number denoted by a sequence of decimal digit characters. -/
def decimal_value (qs : List Char) : Nat :=
  qs.foldl (fun a c => a * 10 + (c.toNat - 48)) 0

/-- Two stores hold the same current count and the same presence records. -/
def same_ledger (a b : nvs_t) : Prop :=
  a.people_number = b.people_number ∧ a.antipassback_USER = b.antipassback_USER ∧
  a.antipassback_ADMIN = b.antipassback_ADMIN ∧ a.antipassback_OWNER = b.antipassback_OWNER

/-- The world `quota_world_inside` after `antipassback_deactivate` followed by
`antipassback_activate` with the payload `1.2`. -/
def toggled_world : world_t :=
  ((antipassback_activate (antipassback_deactivate quota_world_inside).2 "1.2").getD
    (0, {})).2

/-- The world `quota_world` in which the write of the new current count, the
seventh store operation of an entry, fails. -/
def count_write_fails_world : world_t :=
  { quota_world with faults := [false, false, false, false, false, false, true] }

/-- The world `quota_world_inside` in which the write of the new current count,
the fifth store operation of an exit, fails. -/
def exit_write_fails_world : world_t :=
  { quota_world_inside with faults := [false, false, false, false, true] }

/-- The world `quota_world_inside`, credential 11 inside, in which the lookup of
the presence record in the USER role namespace, the second store operation of
an entry, fails. -/
def presence_read_fails_world : world_t :=
  { quota_world_inside with faults := [false, true] }

/-- The world left by the entry of credential 11 in `count_write_fails_world`
(credential 11 marked present, persisted current count still 0, the variable
`anti_passback_people_number` at 1), in which the read of the current count, the
third store operation of an exit, fails. -/
def count_read_fails_world : world_t :=
  { wiegand1_action example_labels count_write_fails_world 11 with
    faults := [false, false, true] }

/-- The world `quota_world` in which the write of the presence record, the eighth
store operation of an entry, fails. -/
def presence_write_fails_world : world_t :=
  { quota_world with faults := [false, false, false, false, false, false, false, true] }

/-- A world like `quota_world` whose only enrolled credential, 11, has the role
tag `'3'`. -/
def unknown_role_world : world_t :=
  { quota_world with
    user_records := [("a", { wiegand_code := "11", permition := '3' })] }

/-- A world with antipassback activated, nobody enrolled, one person counted
inside, and a presence record for credential 22 left behind in the ADMIN
role namespace. -/
def orphan_world : world_t :=
  { nvs :=
      { activate := some 1, mode := some 1, people_number := some 1,
        people_counter := some 2, antipassback_ADMIN := [("22", "1")] } }

/-- A fresh world in which the third store write, that of the mode, fails. -/
def mode_write_fails_world : world_t := { faults := [false, false, true] }

/-! ## Mode logic of the reader tasks -/

/-- The variables of a reader task that live across frames: the array
`uint8_t keypadCode[7]`, the index `uint8_t keyPadIndex`, and the address of the
array, which is the value of the expression `keypadCode` where it is converted to
`uint64_t`.  `written` is a ghost record of the indices of `keypadCode` that
element assignments wrote, latest first. -/
structure task_locals_t where
  keypadCode : List Nat := List.replicate 7 0
  keyPadIndex : Nat := 0
  keypadCode_address : Nat := 0
  written : List Nat := []
  deriving DecidableEq, Repr

/-- The two software timers of the reader tasks. -/
inductive timer_id where
  | xTimer_autoadd_wiegand1
  | xTimer_autoadd_wiegand2
  deriving DecidableEq, Repr

/-- A call of the timer interface made by the mode logic. -/
inductive timer_call where
  | xTimerChangePeriod (t : timer_id)
  | xTimerStop (t : timer_id)
  | xTimerStopFromISR (t : timer_id)
  deriving DecidableEq, Repr

/-- A call of the notification interface: `esp_ble_gatts_send_indicate` with the
three connection values and the text, or `send_UDP_Send` with the text. -/
inductive notify_call where
  | esp_ble_gatts_send_indicate (gattsIF connID handle : Nat) (text : String)
  | send_UDP_Send (text : String)
  deriving DecidableEq, Repr

/-- What the environment answers during one frame of `wiegand1_task`: the value
returned by `add_defaultUser_wiegand`, whether `xTimerIsTimerActive` finds the
timer active, and whether `xTimerChangePeriod` returns `pdPASS`. -/
structure frame_env_t where
  add_defaultUser_wiegand : Nat := 0
  xTimerIsTimerActive : Bool := false
  xTimerChangePeriod : Bool := true
  deriving DecidableEq, Repr

/-- The state shared by the two reader tasks and the two timer callbacks: the
world with the global variables, the variables of each task, and four ghost
logs, oldest call first: the calls of `wiegand1_action` (`entry`) and
`wiegand2_action` (`exit`), the arguments of `add_defaultUser_wiegand`, the
calls of the notification interface and the calls of the timer interface. -/
structure tasks_t where
  w : world_t := {}
  task1 : task_locals_t := {}
  task2 : task_locals_t := {}
  actions : List action_call := []
  enrolled : List Nat := []
  notified : List notify_call := []
  timers : List timer_call := []
  deriving DecidableEq, Repr

/-- The expression assigned to `keyPadValue` in both reader tasks:
`((uint64_t)keypadCode[5] << 40) | ... | ((uint64_t)keypadCode[1] << 8) |
keypadCode[0]`. -/
def keyPadValue (keypadCode : List Nat) : Nat :=
  ((keypadCode.getD 5 0 <<< 40) ||| (keypadCode.getD 4 0 <<< 32) |||
    (keypadCode.getD 3 0 <<< 24) ||| (keypadCode.getD 2 0 <<< 16) |||
    (keypadCode.getD 1 0 <<< 8) ||| keypadCode.getD 0 0) % 2 ^ 64

/-- The first conditional of the loop body of `wiegand2_task` (lines 396-418): the
keypad start and the keypad terminator. -/
def wiegand2_task_sentinel (L : labels_t) (s : tasks_t) (wiegandResult : Nat) : tasks_t :=
  if wiegandResult = 160 ∧ s.w.keypadCount = 0 then
    { s with
      w := { s.w with keypadCount := 1, wiegandMode2 := L.WIEGAND_KEYPAD_MODE_LABEL }
      timers := s.timers ++ [timer_call.xTimerChangePeriod timer_id.xTimer_autoadd_wiegand2]
      task2 := { s.task2 with keypadCode := List.replicate 7 0 } }
  else if wiegandResult = 176 ∧ s.w.keypadCount = 1 then
    let keyPadValue := keyPadValue s.task2.keypadCode
    { s with
      w := { wiegand2_action L s.w keyPadValue with
        keypadCount := 0, wiegandMode2 := L.WIEGAND_NORMAL_MODE_LABEL }
      actions := s.actions ++ [action_call.exit keyPadValue]
      task2 := { s.task2 with
        keypadCode := s.task2.keypadCode.set s.task2.keyPadIndex 34
        written := s.task2.keyPadIndex :: s.task2.written
        keyPadIndex := 0 } }
  else s

/-- The second conditional of the loop body of `wiegand2_task` (lines 421-438):
the dispatch on `wiegandMode2`. -/
def wiegand2_task_mode (L : labels_t) (s : tasks_t) (wiegandResult : Nat) : tasks_t :=
  if s.w.wiegandMode2 = L.WIEGAND_KEYPAD_MODE_LABEL then
    if s.task2.keyPadIndex < 6 then
      if wiegandResult ≠ 160 then
        { s with
          task2 := { s.task2 with
            keypadCode :=
              s.task2.keypadCode.set s.task2.keyPadIndex (((wiegandResult >>> 4) + 48) % 256)
            written := s.task2.keyPadIndex :: s.task2.written
            keyPadIndex := (s.task2.keyPadIndex + 1) % 256 } }
      else s
    else
      { s with
        timers := s.timers ++ [timer_call.xTimerStop timer_id.xTimer_autoadd_wiegand2]
        task2 := { s.task2 with keypadCode := List.replicate 7 0, keyPadIndex := 0 }
        w := { s.w with keypadCount := 0, wiegandMode2 := L.WIEGAND_NORMAL_MODE_LABEL } }
  else if s.w.wiegandMode2 = L.WIEGAND_NORMAL_MODE_LABEL then
    { s with
      w := wiegand2_action L s.w wiegandResult
      actions := s.actions ++ [action_call.exit wiegandResult] }
  else s

/-- The loop body of `wiegand2_task` from the decoded value on (lines 396-438). -/
def wiegand2_task_frame (L : labels_t) (s : tasks_t) (wiegandResult : Nat) : tasks_t :=
  wiegand2_task_mode L (wiegand2_task_sentinel L s wiegandResult) wiegandResult

/-- One iteration of the loop of `wiegand2_task` on a received packet. -/
def wiegand2_task_packet (L : labels_t) (s : tasks_t) (p : data_packet_t) : tasks_t :=
  wiegand2_task_frame L s (task_decode p)

/-- The first conditional of the loop body of `wiegand1_task` (lines 792-817).  At
the terminator the argument of `wiegand1_action` is the expression `keypadCode`,
the address of the array; `keyPadValue` is computed and not used. -/
def wiegand1_task_sentinel (L : labels_t) (s : tasks_t) (wiegandResult : Nat) : tasks_t :=
  if wiegandResult = 160 ∧ s.w.keypadCount = 0 then
    { s with
      w := { s.w with keypadCount := 1, wiegandMode := L.WIEGAND_KEYPAD_MODE_LABEL }
      timers := s.timers ++ [timer_call.xTimerChangePeriod timer_id.xTimer_autoadd_wiegand1]
      task1 := { s.task1 with keypadCode := List.replicate 7 0 } }
  else if wiegandResult = 176 ∧ s.w.keypadCount = 1 then
    let _keyPadValue := keyPadValue s.task1.keypadCode
    let argument := s.task1.keypadCode_address % 2 ^ 64
    { s with
      w := { wiegand1_action L s.w argument with
        keypadCount := 0, wiegandMode := L.WIEGAND_NORMAL_MODE_LABEL }
      actions := s.actions ++ [action_call.entry argument]
      task1 := { s.task1 with
        keypadCode := s.task1.keypadCode.set s.task1.keyPadIndex 34
        written := s.task1.keyPadIndex :: s.task1.written
        keyPadIndex := 0 } }
  else s

/-- The text `asprintf` produces for `"WI G W %lld"`. -/
def read_mode_text (wiegandResult : Nat) : String := "WI G W " ++ lld wiegandResult

/-- The world with the four connection variables of the auto-save session set to
0. -/
def clear_autoSave (w : world_t) : world_t :=
  { w with
    gattsIF_wiegand_autoSave := 0
    connID_wiegand_autoSave := 0
    handle_table_wiegand_autoSave := 0
    BLE_SMS_Indication_wiegand_autoSave := 0 }

/-- The second conditional of the loop body of `wiegand1_task` (lines 820-896):
the dispatch on `wiegandMode`.  `ERROR_NEW_USER_ALREADY_EXISTS` is the constant
of `erro_list.h`; the branch for it and the last branch are both empty. -/
def wiegand1_task_mode (L : labels_t) (ERROR_NEW_USER_ALREADY_EXISTS : Nat) (s : tasks_t)
    (env : frame_env_t) (wiegandResult : Nat) : tasks_t :=
  if s.w.wiegandMode = L.WIEGAND_KEYPAD_MODE_LABEL then
    if s.task1.keyPadIndex < 6 then
      if wiegandResult ≠ 160 then
        { s with
          task1 := { s.task1 with
            keypadCode :=
              s.task1.keypadCode.set s.task1.keyPadIndex (((wiegandResult >>> 4) + 48) % 256)
            written := s.task1.keyPadIndex :: s.task1.written
            keyPadIndex := (s.task1.keyPadIndex + 1) % 256 } }
      else s
    else
      { s with
        timers := s.timers ++ [timer_call.xTimerStop timer_id.xTimer_autoadd_wiegand1]
        task1 := { s.task1 with keypadCode := List.replicate 7 0, keyPadIndex := 0 }
        w := { s.w with keypadCount := 0, wiegandMode := L.WIEGAND_NORMAL_MODE_LABEL } }
  else if s.w.wiegandMode = L.WIEGAND_AUTO_SAVE_MODE_LABEL then
    let addDefault_user_result := env.add_defaultUser_wiegand % 256
    let s := { s with enrolled := s.enrolled ++ [wiegandResult] }
    if addDefault_user_result = 1 then
      if env.xTimerIsTimerActive = false then
        { s with
          w := { clear_autoSave s.w with wiegandMode := L.WIEGAND_NORMAL_MODE_LABEL } }
      else
        let s := { s with
          timers := s.timers ++
            [timer_call.xTimerChangePeriod timer_id.xTimer_autoadd_wiegand1] }
        if env.xTimerChangePeriod = false then
          { s with
            timers := s.timers ++ [timer_call.xTimerStop timer_id.xTimer_autoadd_wiegand1]
            w := clear_autoSave { s.w with wiegandMode := L.WIEGAND_NORMAL_MODE_LABEL } }
        else s
    else if addDefault_user_result = ERROR_NEW_USER_ALREADY_EXISTS then s
    else s
  else if s.w.wiegandMode = L.WIEGAND_NORMAL_MODE_LABEL then
    { s with
      w := wiegand1_action L s.w wiegandResult
      actions := s.actions ++ [action_call.entry wiegandResult] }
  else if s.w.wiegandMode = L.WIEGAND_READ_MODE_LABEL then
    let wiegandNumber := read_mode_text wiegandResult
    let s := { s with
      notified := s.notified ++
        [notify_call.esp_ble_gatts_send_indicate s.w.gattsIF_wiegand_autoSave
          s.w.connID_wiegand_autoSave s.w.handle_table_wiegand_autoSave wiegandNumber]
      w := clear_autoSave s.w
      timers := s.timers ++
        [timer_call.xTimerChangePeriod timer_id.xTimer_autoadd_wiegand1] }
    let s :=
      if env.xTimerChangePeriod = true then
        { s with
          timers := s.timers ++ [timer_call.xTimerStop timer_id.xTimer_autoadd_wiegand1] }
      else s
    { s with
      notified := s.notified ++ [notify_call.send_UDP_Send wiegandNumber]
      w := { s.w with wiegandMode := L.WIEGAND_NORMAL_MODE_LABEL } }
  else s

/-- The loop body of `wiegand1_task` from the decoded value on (lines 792-896). -/
def wiegand1_task_frame (L : labels_t) (ERROR_NEW_USER_ALREADY_EXISTS : Nat) (s : tasks_t)
    (env : frame_env_t) (wiegandResult : Nat) : tasks_t :=
  wiegand1_task_mode L ERROR_NEW_USER_ALREADY_EXISTS
    (wiegand1_task_sentinel L s wiegandResult) env wiegandResult

/-- One iteration of the loop of `wiegand1_task` on a received packet. -/
def wiegand1_task_packet (L : labels_t) (ERROR_NEW_USER_ALREADY_EXISTS : Nat) (s : tasks_t)
    (env : frame_env_t) (p : data_packet_t) : tasks_t :=
  wiegand1_task_frame L ERROR_NEW_USER_ALREADY_EXISTS s env (task_decode p)

/-- The function `timer_autoAdd_Callback`, the expiry of `xTimer_autoadd_wiegand1`. -/
def timer_autoAdd_Callback (L : labels_t) (s : tasks_t) : tasks_t :=
  { s with
    timers := s.timers ++ [timer_call.xTimerStopFromISR timer_id.xTimer_autoadd_wiegand1]
    w := { clear_autoSave { s.w with wiegandMode := L.WIEGAND_NORMAL_MODE_LABEL } with
      keypadCount := 0 } }

/-- The function `timer_autoAdd2_Callback`, the expiry of `xTimer_autoadd_wiegand2`.
Its body is the same text as that of `timer_autoAdd_Callback`: it assigns
`wiegandMode`, not `wiegandMode2`. -/
def timer_autoAdd2_Callback (L : labels_t) (s : tasks_t) : tasks_t :=
  { s with
    timers := s.timers ++ [timer_call.xTimerStopFromISR timer_id.xTimer_autoadd_wiegand2]
    w := { clear_autoSave { s.w with wiegandMode := L.WIEGAND_NORMAL_MODE_LABEL } with
      keypadCount := 0 } }

/-- What the two reader tasks and their timers can do next: a frame decoded by
`wiegand1_task` (with the answers of the environment), a frame decoded by
`wiegand2_task`, and the expiry of either timer. -/
inductive task_event where
  | frame1 (env : frame_env_t) (wiegandResult : Nat)
  | frame2 (wiegandResult : Nat)
  | timeout1
  | timeout2
  deriving DecidableEq, Repr

/-- One event applied to the state of the tasks. -/
def tasks_step (L : labels_t) (ERROR_NEW_USER_ALREADY_EXISTS : Nat) (s : tasks_t) :
    task_event → tasks_t
  | task_event.frame1 env v => wiegand1_task_frame L ERROR_NEW_USER_ALREADY_EXISTS s env v
  | task_event.frame2 v => wiegand2_task_frame L s v
  | task_event.timeout1 => timer_autoAdd_Callback L s
  | task_event.timeout2 => timer_autoAdd2_Callback L s

/-- A sequence of events applied one after the other. -/
def tasks_run (L : labels_t) (ERROR_NEW_USER_ALREADY_EXISTS : Nat) (s : tasks_t)
    (es : List task_event) : tasks_t :=
  es.foldl (tasks_step L ERROR_NEW_USER_ALREADY_EXISTS) s

/-- The state of the tasks when both loops start: `keypadCount = 0`, both indices
0, on the given world; the content of the two arrays is whatever the stack
holds. -/
def tasks_start (w : world_t) (keypadCode1 keypadCode2 : List Nat) (address1 : Nat) :
    tasks_t :=
  { w := { w with keypadCount := 0 }
    task1 := { keypadCode := keypadCode1, keypadCode_address := address1 }
    task2 := { keypadCode := keypadCode2 } }

/-- The events of a sequence of decoded values on reader 2. -/
def frames2 (vs : List Nat) : List task_event := vs.map task_event.frame2

/-- The events of a sequence of frames on reader 1, each with the answers of the
environment and the decoded value. -/
def frames1 (fs : List (frame_env_t × Nat)) : List task_event :=
  fs.map (fun f => task_event.frame1 f.1 f.2)

/-- Decoded values paired with the default answers of the environment. -/
def quiet (vs : List Nat) : List (frame_env_t × Nat) := vs.map (fun v => ({}, v))

/-- A value for the constant `ERROR_NEW_USER_ALREADY_EXISTS`, used in the
worked examples. -/
def example_already_exists : Nat := 2

/-- The state of the tasks at the start of both loops on the default world, with
an address for the array of reader 1. -/
def example_tasks : tasks_t :=
  tasks_start {} (List.replicate 7 0) (List.replicate 7 0) 1073414144

/-- Reader 2 after a keypad start, six digits and the expiry of its timer. -/
def stale_index_tasks2 : tasks_t :=
  tasks_run example_labels example_already_exists example_tasks
    (frames2 [160, 16, 16, 16, 16, 16, 16] ++ [task_event.timeout2])

/-- Reader 1 after a keypad start, six digits and the expiry of its timer. -/
def stale_index_tasks1 : tasks_t :=
  tasks_run example_labels example_already_exists example_tasks
    (frames1 (quiet [160, 16, 16, 16, 16, 16, 16]) ++ [task_event.timeout1])

/-- Reader 1 in AutoEnroll mode. -/
def auto_enroll_tasks : tasks_t :=
  { example_tasks with
    w := { example_tasks.w with wiegandMode := example_labels.WIEGAND_AUTO_SAVE_MODE_LABEL } }

/-- Reader 2 after a keypad start and the digits 1, 2, 3. -/
def three_digit_tasks2 : tasks_t :=
  tasks_run example_labels example_already_exists example_tasks (frames2 [160, 16, 32, 48])

/-- Both readers in a keypad entry: reader 2 starts one, the timer of reader 1
expires, and reader 1 starts one. -/
def keypad_entry_tasks : tasks_t :=
  tasks_run example_labels example_already_exists example_tasks
    (frames2 [160] ++ [task_event.timeout1] ++ frames1 (quiet [160]))

/-- The variables of one task are in range: the keypad index is at most 6, every
recorded element write was at an index inside the 7-byte array, the array has 7
bytes and each of them is below 256. -/
def locals_inv (t : task_locals_t) : Prop :=
  t.keyPadIndex ≤ 6 ∧ (∀ i ∈ t.written, i < 7) ∧ t.keypadCode.length = 7 ∧
  ∀ b ∈ t.keypadCode, b < 256

/-- The variables of both tasks are in range. -/
def tasks_inv (s : tasks_t) : Prop := locals_inv s.task1 ∧ locals_inv s.task2

/-! ## Facility code and card code -/

/-- The bit pattern of a C `int` (32 bits, two's complement). -/
def int32_bits (x : Int) : Nat := (x % 2 ^ 32).toNat

/-- The `int` with the given bit pattern; also the conversion of an unsigned
value to `int`, which keeps the low 32 bits. -/
def int32_of_bits (u : Nat) : Int :=
  if u % 2 ^ 32 < 2 ^ 31 then ((u % 2 ^ 32 : Nat) : Int)
  else ((u % 2 ^ 32 : Nat) : Int) - 2 ^ 32

/-- The operator `&` on two `int` operands. -/
def int32_and (x y : Int) : Int := int32_of_bits (int32_bits x &&& int32_bits y)

/-- The operator `>>` on an `int` by a constant below 32: the arithmetic shift,
which keeps the sign. -/
def int32_shr (x : Int) (n : Nat) : Int := x >>> n

/-- The function `wiegandToFacilityCard`: the values written to `*facilityCode`
and `*cardCode`. -/
def wiegandToFacilityCard (wiegandDecimal wiegandBits : Int) : Int × Int :=
  if wiegandBits = 26 then
    (int32_and (int32_shr wiegandDecimal 16) 0xFF, int32_and wiegandDecimal 0xFFFF)
  else if wiegandBits = 34 then
    (int32_and (int32_shr wiegandDecimal 17) 0x1FFFF, int32_and wiegandDecimal 0x1FFFF)
  else (-1, -1)

/-- The 26-bit frame of the worked example: 26 bits in the four bytes
`02 00 00 01`. -/
def example_frame_26 : data_packet_t := { bits := 26, data := [0x02, 0x00, 0x00, 0x01] }

/-- Reader 1 in ReadOnce mode, with connection values 3, 4 and 5 left by the
command that started the read. -/
def read_once_tasks : tasks_t :=
  { example_tasks with
    w := { example_tasks.w with
      wiegandMode := example_labels.WIEGAND_READ_MODE_LABEL
      gattsIF_wiegand_autoSave := 3
      connID_wiegand_autoSave := 4
      handle_table_wiegand_autoSave := 5 } }

/-- A world whose store holds the antipassback mode 2, as left by
`antipassback_activate` with a payload `2.<quota>`. -/
def persisted_mode_2_world : world_t := { nvs := { mode := some 2 } }

/-- A world whose store holds the antipassback mode 1. -/
def persisted_mode_1_world : world_t := { nvs := { mode := some 1 } }

/-- A world in which the mode variable of reader 2 holds the keypad label. -/
def keypad_mode2_world : world_t :=
  { wiegandMode2 := example_labels.WIEGAND_KEYPAD_MODE_LABEL }

/-- A world with antipassback activated, nobody enrolled, one person counted
inside, and a presence record for credential 22 left behind in the USER
role namespace. -/
def orphan_user_world : world_t :=
  { nvs :=
      { activate := some 1, mode := some 1, people_number := some 1,
        people_counter := some 2, antipassback_USER := [("22", "1")] } }

/-- Two stores hold the same four system values: activation flag, mode, current
count and quota. -/
def same_system (a b : nvs_t) : Prop :=
  a.activate = b.activate ∧ a.mode = b.mode ∧ a.people_number = b.people_number ∧
  a.people_counter = b.people_counter

/-! ## Lemmas on buffers and on the edge handler -/

theorem getD_lt_256 (l : List Nat) (h : ∀ b ∈ l, b < 256) (i : Nat) :
    l.getD i 0 < 256 := by
  rw [List.getD_eq_getElem?_getD]
  cases hi : l[i]? with
  | none => simp
  | some x =>
    simp
    exact h x (List.getElem?_mem hi)

theorem or_lt_256 {a b : Nat} (ha : a < 256) (hb : b < 256) : a ||| b < 256 :=
  Nat.or_lt_two_pow (n := 8) ha hb

theorem getD_set_eq (l : List Nat) (i x : Nat) (h : i < l.length) :
    (l.set i x).getD i 0 = x := by
  simp [List.getElem?_set, h]

theorem getD_set_ne (l : List Nat) (i j x : Nat) (h : i ≠ j) :
    (l.set i x).getD j 0 = l.getD j 0 := by
  simp [List.getElem?_set_ne h]

theorem replicate_wf (n : Nat) : ∀ b ∈ List.replicate n 0, b < 256 := by
  intro b hb
  rw [List.eq_of_mem_replicate hb]
  norm_num

theorem isr_index_lt (r : wiegand_reader_t) (h : r.bits < r.size * 8) :
    isr_index r < r.size := by
  unfold isr_index
  split <;> omega

theorem isr_value_eq (r : wiegand_reader_t) (d0 : Bool) :
    isr_value r d0 =
      if d0 then
        (if r.bit_order = WIEGAND_MSB_FIRST then 0x80 >>> (r.bits % 8)
         else 1 <<< (r.bits % 8))
      else 0 := by
  unfold isr_value
  have hk : r.bits % 8 < 8 := Nat.mod_lt _ (by norm_num)
  generalize r.bits % 8 = k at hk
  interval_cases k <;> cases d0 <;> split <;> simp

theorem isr_value_lt (r : wiegand_reader_t) (d0 : Bool) : isr_value r d0 < 256 := by
  unfold isr_value
  split <;> exact Nat.mod_lt _ (by norm_num)

theorem isr_handler_accept (r : wiegand_reader_t) (l0 l1 : Bool)
    (he : r.enabled = true) (hl : l0 ≠ l1) (hb : r.bits < r.size * 8) :
    isr_handler r l0 l1 =
      { r with
          buf := r.buf.set (isr_index r)
            ((r.buf.getD (isr_index r) 0 ||| isr_value r (!l0)) % 256)
          bits := r.bits + 1
          timer_armed := true } := by
  unfold isr_handler
  have h1 : ¬ ((!l0) = (!l1)) := by cases l0 <;> cases l1 <;> simp_all
  have h2 : ¬ (r.bits ≥ r.size * 8) := by omega
  simp [he, h1, h2]

theorem isr_handler_reject (r : wiegand_reader_t) (l0 l1 : Bool)
    (h : r.enabled = false ∨ l0 = l1 ∨ r.size * 8 ≤ r.bits) :
    isr_handler r l0 l1 = r := by
  unfold isr_handler
  rcases h with h | h | h
  · simp [h]
  · subst h; simp
  · have : r.bits ≥ r.size * 8 := h
    simp [this]

theorem isr_handler_size (r : wiegand_reader_t) (l0 l1 : Bool) :
    (isr_handler r l0 l1).size = r.size := by
  unfold isr_handler
  split
  · rfl
  · simp only
    split
    · rfl
    · split <;> rfl

theorem isr_handler_effect (r : wiegand_reader_t) (l0 l1 : Bool)
    (hwf : reader_wf r) (he : r.enabled = true) (hl : l0 ≠ l1)
    (hb : r.bits < 8 * r.size) :
    let i := if r.byte_order = WIEGAND_MSB_FIRST then r.size - r.bits / 8 - 1
             else r.bits / 8
    let mask := if r.bit_order = WIEGAND_MSB_FIRST then 0x80 >>> (r.bits % 8)
                else 1 <<< (r.bits % 8)
    let r' := isr_handler r l0 l1
    i < r.size ∧
    r'.buf.length = r.buf.length ∧
    r'.buf.getD i 0 = (r.buf.getD i 0 ||| (if l0 = false then mask else 0)) ∧
    (∀ j, j ≠ i → r'.buf.getD j 0 = r.buf.getD j 0) ∧
    (∀ j k, (r.buf.getD j 0).testBit k = true → (r'.buf.getD j 0).testBit k = true) ∧
    reader_wf r' ∧
    r'.bits = r.bits + 1 := by
  intro i mask r'
  have hb' : r.bits < r.size * 8 := by omega
  have hi : i < r.size := isr_index_lt r hb'
  have hidx : isr_index r = i := rfl
  have hr' : r' = _ := isr_handler_accept r l0 l1 he hl hb'
  have hv : isr_value r (!l0) = (if l0 = false then mask else 0) := by
    rw [isr_value_eq]
    cases l0 <;> simp [mask]
  have hlt : (r.buf.getD i 0 ||| isr_value r (!l0)) < 256 :=
    or_lt_256 (getD_lt_256 _ hwf.2 _) (isr_value_lt _ _)
  have hnew : r'.buf.getD i 0 = (r.buf.getD i 0 ||| (if l0 = false then mask else 0)) := by
    rw [hr', hidx]
    show (r.buf.set i _).getD i 0 = _
    rw [getD_set_eq _ _ _ (by rw [hwf.1]; exact hi), Nat.mod_eq_of_lt hlt, hv]
  have hother : ∀ j, j ≠ i → r'.buf.getD j 0 = r.buf.getD j 0 := by
    intro j hj
    rw [hr', hidx]
    show (r.buf.set i _).getD j 0 = _
    exact getD_set_ne _ _ _ _ (Ne.symm hj)
  refine ⟨hi, ?_, hnew, hother, ?_, ?_, ?_⟩
  · rw [hr']; simp
  · intro j k hjk
    by_cases hj : j = i
    · subst hj
      rw [hnew, Nat.testBit_or, hjk]; rfl
    · rw [hother j hj]; exact hjk
  · constructor
    · rw [hr']; simp [hwf.1]
    · intro b hbm
      rw [hr'] at hbm
      rcases List.mem_or_eq_of_mem_set hbm with h | h
      · exact hwf.2 b h
      · rw [h]; exact Nat.mod_lt _ (by norm_num)
  · rw [hr']

theorem mask_testBit (m : Nat) :
    (0x80 >>> (m % 8)).testBit (7 - m % 8) = true ∧
    (1 <<< (m % 8)).testBit (m % 8) = true := by
  have hk : m % 8 < 8 := Nat.mod_lt _ (by norm_num)
  generalize m % 8 = k at hk
  interval_cases k <;> simp <;> decide

theorem isr_handler_wf (r : wiegand_reader_t) (l0 l1 : Bool) (hwf : reader_wf r)
    (hb : r.bits ≤ 8 * r.size) :
    reader_wf (isr_handler r l0 l1) ∧
    (isr_handler r l0 l1).bits ≤ 8 * (isr_handler r l0 l1).size ∧
    (isr_handler r l0 l1).size = r.size := by
  by_cases h : r.enabled = false ∨ l0 = l1 ∨ r.size * 8 ≤ r.bits
  · rw [isr_handler_reject r l0 l1 h]; exact ⟨hwf, hb, rfl⟩
  · have he : r.enabled = true := by
      cases hh : r.enabled
      · exact absurd (Or.inl hh) h
      · rfl
    have hl : l0 ≠ l1 := fun hh => h (Or.inr (Or.inl hh))
    have hlt : r.bits < 8 * r.size := by
      by_contra hh
      exact h (Or.inr (Or.inr (by omega)))
    have h2 := isr_handler_effect r l0 l1 hwf he hl hlt
    simp only at h2
    obtain ⟨_, _, _, _, _, hwf', hbits⟩ := h2
    have hs : (isr_handler r l0 l1).size = r.size := isr_handler_size r l0 l1
    refine ⟨hwf', ?_, hs⟩
    rw [hbits, hs]; omega

/-! ## Lemmas on the decoder -/

theorem task_decode_loop_eq (data : List Nat) (todo i acc : Nat) :
    task_decode_loop data todo i acc =
      (List.range' i todo).foldl
        (fun acc i => ((acc * 2 ^ 8) % 2 ^ 64) ||| data.getD i 0) acc := by
  induction todo generalizing i acc with
  | zero => simp [task_decode_loop]
  | succ n ih =>
    rw [task_decode_loop, ih, List.range'_succ, List.foldl_cons, Nat.shiftLeft_eq]

theorem decode_reads_eq_ceil (p : data_packet_t) : decode_reads p = (p.bits + 7) / 8 := by
  unfold decode_reads
  split <;> omega

theorem task_decode_spec_zero (p : data_packet_t) :
    task_decode p = spec_decode 0 p.bits p.data := by
  have hn : p.bits / 8 + (if p.bits % 8 ≠ 0 then 1 else 0) = (p.bits + 7) / 8 :=
    decode_reads_eq_ceil p
  have h0 : (u64_not 0 + 1) % 2 ^ 64 = 0 := by decide
  unfold task_decode spec_decode
  simp only [hn, h0, task_decode_loop_eq, List.range_eq_range']
  by_cases h26 : p.bits = 26
  · simp [h26, Nat.shiftRight_eq_div_pow]
  · by_cases h34 : p.bits = 34
    · simp [h34, Nat.shiftRight_eq_div_pow]
    · simp [h26, h34]

theorem range_map_getD (l : List Nat) :
    (List.range l.length).map (fun i => l.getD i 0) = l := by
  apply List.ext_getElem
  · simp
  · intro i h1 h2
    simp [List.getElem?_eq_getElem h2]

theorem make_packet_eq (cfg : Nat) (r : wiegand_reader_t) (h : r.buf.length = cfg) :
    make_packet cfg r = { data := r.buf, bits := r.bits } := by
  unfold make_packet
  rw [← h, range_map_getD]

theorem be_value_congr (a b : List Nat) (n : Nat)
    (h : ∀ j, j < n → a.getD j 0 = b.getD j 0) : be_value a n = be_value b n := by
  induction n with
  | zero => rfl
  | succ n ih =>
    rw [be_value, be_value, ih (fun j hj => h j (by omega)), h n (by omega)]

theorem be_value_lt (buf : List Nat) (h : ∀ b ∈ buf, b < 256) (n : Nat) :
    be_value buf n < 256 ^ n := by
  induction n with
  | zero => simp [be_value]
  | succ n ih =>
    have hb := getD_lt_256 buf h n
    rw [be_value, pow_succ]
    omega

theorem or_eq_add (a b : Nat) (hb : b < 256) : (a * 256) ||| b = a * 256 + b := by
  have := Nat.mul_add_lt_is_or (i := 8) (b := b) (by simpa using hb) a
  rw [show (2:Nat) ^ 8 = 256 by norm_num, Nat.mul_comm] at this
  exact this.symm

theorem task_decode_loop_be (data : List Nat) (h : ∀ b ∈ data, b < 256) (todo i : Nat)
    (hle : i + todo ≤ 8) :
    task_decode_loop data todo i (be_value data i) = be_value data (i + todo) := by
  induction todo generalizing i with
  | zero => simp [task_decode_loop]
  | succ n ih =>
    rw [task_decode_loop]
    have hlt := be_value_lt data h i
    have hp : 256 ^ i ≤ 256 ^ 7 := Nat.pow_le_pow_right (by norm_num) (by omega)
    have hsmall : be_value data i * 256 < 2 ^ 64 := by
      have : (256:Nat) ^ 7 * 256 = 2 ^ 64 := by norm_num
      omega
    have hstep : ((be_value data i <<< 8) % 2 ^ 64) ||| data.getD i 0
        = be_value data (i + 1) := by
      rw [Nat.shiftLeft_eq, show (2:Nat) ^ 8 = 256 by norm_num, Nat.mod_eq_of_lt hsmall,
        or_eq_add _ _ (getD_lt_256 data h i), be_value]
    rw [hstep, ih (i + 1) (by omega)]
    congr 1
    omega

theorem val_append (bs : List Bool) (b : Bool) :
    val (bs ++ [b]) = 2 * val bs + (if b then 1 else 0) := by
  simp [val, List.foldl_append]

theorem or_eq_add_of_mod (x v p : Nat) (hx : x % 2 ^ p = 0) (hv : v < 2 ^ p) :
    x ||| v = x + v := by
  have h := Nat.mul_add_lt_is_or hv (x / 2 ^ p)
  have hx' : 2 ^ p * (x / 2 ^ p) = x := by
    have := Nat.div_add_mod x (2 ^ p)
    omega
  rw [hx'] at h
  exact h.symm

/-! ## Packing invariant of the configured readers -/

theorem packed_step (r : wiegand_reader_t) (bs : List Bool) (l0 l1 : Bool)
    (h : packed r bs) (hl : l0 ≠ l1) (hb : r.bits < 8 * r.size) :
    packed (isr_handler r l0 l1) (bs ++ [!l0]) := by
  obtain ⟨hwf, he, hbit, hbyte, hlen, hzero, hclear, hval⟩ := h
  have h2 := isr_handler_effect r l0 l1 hwf he hl hb
  simp only [hbit, hbyte, if_true, if_false, reduceCtorEq] at h2
  obtain ⟨_, _, hnew, hother, _, hwf', hbits'⟩ := h2
  have hacc := isr_handler_accept r l0 l1 he hl (by omega)
  have he' : (isr_handler r l0 l1).enabled = true := by rw [hacc]; exact he
  have hbit' : (isr_handler r l0 l1).bit_order = WIEGAND_MSB_FIRST := by rw [hacc]; exact hbit
  have hbyte' : (isr_handler r l0 l1).byte_order = WIEGAND_LSB_FIRST := by
    rw [hacc]; exact hbyte
  refine ⟨hwf', he', hbit', hbyte', by rw [hbits', hlen]; simp, ?_⟩
  -- the byte that is written and the value OR-ed into it
  have hk : r.bits % 8 < 8 := Nat.mod_lt _ (by norm_num)
  have hx256 := getD_lt_256 r.buf hwf.2 (r.bits / 8)
  set i := r.bits / 8 with hi
  set k := r.bits % 8 with hkdef
  set x := r.buf.getD i 0 with hxdef
  set v : Nat := (if l0 = false then 128 >>> k else 0) with hvdef
  have hv : v = (if (!l0) = true then 1 else 0) * 2 ^ (7 - k) := by
    rw [hvdef]
    interval_cases k <;> cases l0 <;> simp
  have hvlt : v < 2 ^ (8 - k) := by
    rw [hv]
    interval_cases k <;> cases l0 <;> simp
  have hor : x ||| v = x + v := or_eq_add_of_mod x v (8 - k) hclear hvlt
  rw [hor] at hnew
  have hpre : be_value (isr_handler r l0 l1).buf i = be_value r.buf i :=
    be_value_congr _ _ _ (fun j hj => hother j (by omega))
  have hV1 : be_value (isr_handler r l0 l1).buf (i + 1) = be_value r.buf (i + 1) + v := by
    rw [be_value, be_value, hpre, hnew]
    omega
  rw [val_append, hbits']
  by_cases hk7 : k = 7
  · -- the byte is complete: the next byte starts
    have hi' : (r.bits + 1) / 8 = i + 1 := by omega
    have hk' : (r.bits + 1) % 8 = 0 := by omega
    have hnext : (isr_handler r l0 l1).buf.getD (i + 1) 0 = 0 := by
      rw [hother (i + 1) (by omega)]
      exact hzero (i + 1) (by omega)
    rw [hi', hk']
    refine ⟨?_, ?_, ?_⟩
    · intro j hj
      rw [hother j (by omega)]
      exact hzero j (by omega)
    · rw [hnext]; rfl
    · rw [be_value, hV1, hnext, hval, hv, hk7]
      simp only [Nat.sub_self, pow_zero, Nat.sub_zero]
      norm_num
      ring
  · have hi' : (r.bits + 1) / 8 = i := by omega
    have hk' : (r.bits + 1) % 8 = k + 1 := by omega
    rw [hi', hk']
    refine ⟨?_, ?_, ?_⟩
    · intro j hj
      rw [hother j (by omega)]
      exact hzero j hj
    · rw [hnew, hv]
      have e1 : 8 - (k + 1) = 7 - k := by omega
      have e2 : 8 - k = (7 - k) + 1 := by omega
      rw [e1]
      rw [e2, pow_succ] at hclear
      have hx0 : x % 2 ^ (7 - k) = 0 := by
        have hd : 2 ^ (7 - k) ∣ x :=
          Dvd.dvd.trans (Dvd.intro _ rfl) (Nat.dvd_of_mod_eq_zero hclear)
        exact Nat.mod_eq_zero_of_dvd hd
      rw [Nat.add_mod, hx0, Nat.mul_mod_left]
      rfl
    · rw [hV1, hval, hv]
      have e1 : 8 - (k + 1) = 7 - k := by omega
      have e2 : 8 - k = (7 - k) + 1 := by omega
      rw [e1, e2, pow_succ]
      ring

theorem packed_sample (es : List (Bool × Bool)) (r : wiegand_reader_t) (bs : List Bool)
    (h : packed r bs) (hl : ∀ e ∈ es, e.1 ≠ e.2) (hb : r.bits + es.length ≤ 8 * r.size) :
    packed (sample r es) (bs ++ es.map (fun e => !e.1)) := by
  induction es generalizing r bs with
  | nil => simpa [sample] using h
  | cons e es ih =>
    have hstep := packed_step r bs e.1 e.2 h (hl e (List.mem_cons_self _ _))
      (by simp at hb; omega)
    have hbits : (isr_handler r e.1 e.2).bits = r.bits + 1 := by
      rw [isr_handler_accept r e.1 e.2 h.2.1 (hl e (List.mem_cons_self _ _))
        (by simp at hb; omega)]
    have hsize : (isr_handler r e.1 e.2).size = r.size := by
      rw [isr_handler_accept r e.1 e.2 h.2.1 (hl e (List.mem_cons_self _ _))
        (by simp at hb; omega)]
    have := ih (isr_handler r e.1 e.2) (bs ++ [!e.1]) hstep
      (fun e' he' => hl e' (List.mem_cons_of_mem _ he'))
      (by rw [hbits, hsize]; simp at hb; omega)
    simpa [sample] using this

theorem packed_enable (r0 : wiegand_reader_t) (h1 : r0.bit_order = WIEGAND_MSB_FIRST)
    (h2 : r0.byte_order = WIEGAND_LSB_FIRST) : packed (wiegand_reader_enable r0) [] := by
  refine ⟨⟨?_, ?_⟩, rfl, h1, h2, rfl, ?_, ?_, ?_⟩
  · simp [wiegand_reader_enable, isr_enable]
  · exact fun b hb => by
      simp only [wiegand_reader_enable] at hb
      rw [List.eq_of_mem_replicate hb]; norm_num
  · intro j _
    simp only [wiegand_reader_enable, List.getD_eq_getElem?_getD, List.getElem?_replicate]
    split <;> rfl
  · simp only [wiegand_reader_enable, List.getD_eq_getElem?_getD, List.getElem?_replicate]
    split <;> rfl
  · simp only [wiegand_reader_enable, be_value, List.getD_eq_getElem?_getD,
      List.getElem?_replicate, val]
    split <;> rfl

/-! ## Invariant of reader runs -/

theorem decode_reads_le (bits size : Nat) (data : List Nat) (h : bits ≤ 8 * size) :
    decode_reads { data := data, bits := bits } ≤ size := by
  rw [decode_reads_eq_ceil]
  show (bits + 7) / 8 ≤ size
  omega

theorem xQueueSendToBack_mem (q : List data_packet_t) (p x : data_packet_t)
    (h : x ∈ xQueueSendToBack q p) : x ∈ q ∨ x = p := by
  unfold xQueueSendToBack at h
  split at h
  · simpa using h
  · exact Or.inl h

theorem invoke_callback_mem (cfg : Nat) (r : wiegand_reader_t) (qs : queues_t)
    (x : data_packet_t)
    (h : x ∈ (invoke_callback cfg r qs).queue ++ (invoke_callback cfg r qs).queue2) :
    x ∈ qs.queue ++ qs.queue2 ∨ x = make_packet cfg r := by
  unfold invoke_callback at h
  rcases hc : r.callback with _ | cb
  · rw [hc] at h; exact Or.inl h
  · cases cb
    · rw [hc] at h
      simp only [reader_callback, List.mem_append] at h
      rcases h with h | h
      · rcases xQueueSendToBack_mem _ _ _ h with h | h
        · exact Or.inl (List.mem_append_left _ h)
        · exact Or.inr h
      · exact Or.inl (List.mem_append_right _ h)
    · rw [hc] at h
      simp only [reader_callback2, List.mem_append] at h
      rcases h with h | h
      · exact Or.inl (List.mem_append_left _ h)
      · rcases xQueueSendToBack_mem _ _ _ h with h | h
        · exact Or.inl (List.mem_append_right _ h)
        · exact Or.inr h

theorem reader_step_inv (cfg : Nat) (s : wiegand_reader_t × queues_t) (e : reader_event)
    (h : reader_inv cfg s) : reader_inv cfg (reader_step cfg s e) := by
  obtain ⟨hwf, hb, hs, hq⟩ := h
  cases e with
  | edge l0 l1 =>
    obtain ⟨h1, h2, h3⟩ := isr_handler_wf s.1 l0 l1 hwf hb
    exact ⟨h1, h2, by rw [← hs]; exact h3, hq⟩
  | timer_expiry =>
    refine ⟨⟨?_, ?_⟩, ?_, hs, ?_⟩
    · simp [reader_step, timer_handler, isr_enable, wiegand_reader_enable,
        wiegand_reader_disable, isr_disable]
    · simp only [reader_step, timer_handler, isr_enable, wiegand_reader_enable,
        wiegand_reader_disable, isr_disable]
      exact replicate_wf _
    · simp [reader_step, timer_handler, isr_enable, wiegand_reader_enable]
    · intro p hp
      rcases invoke_callback_mem cfg (wiegand_reader_disable s.1) s.2 p hp with h | h
      · exact hq p h
      · have hlen : (wiegand_reader_disable s.1).buf.length = cfg := by
          show s.1.buf.length = cfg
          rw [hwf.1, hs]
        rw [h, make_packet_eq cfg _ hlen]
        refine ⟨?_, ?_⟩
        · exact hlen
        · apply decode_reads_le
          show s.1.bits ≤ 8 * cfg
          rw [← hs]; exact hb
  | enable =>
    refine ⟨⟨?_, ?_⟩, ?_, hs, hq⟩
    · simp [reader_step, isr_enable, wiegand_reader_enable]
    · simp only [reader_step, isr_enable, wiegand_reader_enable]
      exact replicate_wf _
    · simp [reader_step, isr_enable, wiegand_reader_enable]
  | disable => exact ⟨hwf, hb, hs, hq⟩

theorem reader_run_inv (cfg : Nat) (es : List reader_event) (s : wiegand_reader_t × queues_t)
    (h : reader_inv cfg s) : reader_inv cfg (reader_run cfg s es) := by
  induction es generalizing s with
  | nil => exact h
  | cons e es ih => exact ih _ (reader_step_inv cfg s e h)

theorem reader_init_body_ok (drv : driver_t) (r0 r : wiegand_reader_t)
    (gpio_d0 gpio_d1 buf_size : Nat) (cb : wiegand_callback_t)
    (bit_order byte_order : wiegand_order_t)
    (h : reader_init_body drv r0 gpio_d0 gpio_d1 buf_size cb bit_order byte_order = (ESP_OK, r)) :
    r = { gpio_d0 := gpio_d0, gpio_d1 := gpio_d1, size := buf_size,
          buf := List.replicate buf_size 0, bit_order := bit_order,
          byte_order := byte_order, callback := some cb,
          intr_negedge := true, enabled := true } := by
  unfold reader_init_body at h
  simp only [isr_disable, isr_enable] at h
  split_ifs at h <;> simp_all [ESP_OK, Prod.ext_iff]

/-! ## Initialisation and the round trip of the configured readers -/

theorem init_ok_inv (drv : driver_t) (w w' : world_t) (r0 r : wiegand_reader_t)
    (gpio_d0 gpio_d1 : Nat) (pull : Bool) (buf_size : Nat)
    (callback : Option wiegand_callback_t) (bit_order byte_order : wiegand_order_t)
    (hinit :
      wiegand_reader_init1 drv w r0 gpio_d0 gpio_d1 pull buf_size callback bit_order
          byte_order = (ESP_OK, w', r) ∨
      wiegand_reader_init2 drv w r0 gpio_d0 gpio_d1 pull buf_size callback bit_order
          byte_order = (ESP_OK, w', r)) :
    0 < buf_size ∧ reader_inv buf_size (r, {}) := by
  have key : ∀ cb, callback = some cb → buf_size ≠ 0 →
      reader_init_body drv r0 gpio_d0 gpio_d1 buf_size cb bit_order byte_order
        = (ESP_OK, r) → 0 < buf_size ∧ reader_inv buf_size (r, {}) := by
    intro cb _ hne hb
    have hr := reader_init_body_ok _ _ _ _ _ _ _ _ _ hb
    subst hr
    refine ⟨Nat.pos_of_ne_zero hne, ⟨?_, ?_⟩, ?_, rfl, ?_⟩
    · simp
    · exact replicate_wf _
    · simp
    · intro p hp; simp at hp
  rcases hinit with h | h
  · unfold wiegand_reader_init1 at h
    rcases callback with _ | cb
    · simp [ESP_OK, ESP_ERR_INVALID_ARG] at h
    · by_cases hz : buf_size = 0
      · simp [hz, ESP_OK, ESP_ERR_INVALID_ARG] at h
      · simp only [hz, if_false] at h
        apply key cb rfl hz
        simp only [Prod.mk.injEq] at h
        exact Prod.ext h.1 h.2.2
  · unfold wiegand_reader_init2 at h
    rcases callback with _ | cb
    · simp [ESP_OK, ESP_ERR_INVALID_ARG] at h
    · by_cases hz : buf_size = 0
      · simp [hz, ESP_OK, ESP_ERR_INVALID_ARG] at h
      · simp only [hz, if_false] at h
        apply key cb rfl hz
        simp only [Prod.mk.injEq] at h
        exact Prod.ext h.1 h.2.2


theorem packed_be_value (r : wiegand_reader_t) (bs : List Bool) (h : packed r bs) :
    be_value r.buf ((bs.length + 7) / 8)
      = val bs * 2 ^ (8 * ((bs.length + 7) / 8) - bs.length) := by
  obtain ⟨hwf, _, _, _, hlen, _, hclear, hval⟩ := h
  rw [← hlen]
  by_cases hk : r.bits % 8 = 0
  · have hn : (r.bits + 7) / 8 = r.bits / 8 := by omega
    have he : 8 * (r.bits / 8) - r.bits = 0 := by omega
    rw [hk] at hclear hval
    have hx := getD_lt_256 r.buf hwf.2 (r.bits / 8)
    have hx0 : r.buf.getD (r.bits / 8) 0 = 0 := by
      have : (2:Nat) ^ (8 - 0) = 256 := by norm_num
      rw [this] at hclear
      omega
    rw [be_value, hx0] at hval
    rw [hn, he]
    have : (2:Nat) ^ (8 - 0) = 256 := by norm_num
    rw [this] at hval
    simp only [pow_zero, Nat.mul_one]
    omega
  · have hn : (r.bits + 7) / 8 = r.bits / 8 + 1 := by omega
    have he : 8 * (r.bits / 8 + 1) - r.bits = 8 - r.bits % 8 := by omega
    rw [hn, he, hval]

theorem spec_decode_zero_be (bits : Nat) (data : List Nat) (h : ∀ b ∈ data, b < 256)
    (h64 : bits ≤ 64) :
    spec_decode 0 bits data =
      if bits = 26 ∨ bits = 34 then be_value data ((bits + 7) / 8) / 2 ^ 6
      else be_value data ((bits + 7) / 8) := by
  have hloop := task_decode_loop_be data h ((bits + 7) / 8) 0 (by omega)
  rw [task_decode_loop_eq, Nat.zero_add] at hloop
  unfold spec_decode
  simp only [List.range_eq_range']
  rw [show be_value data 0 = 0 from rfl] at hloop
  rw [hloop]

theorem sample_size (es : List (Bool × Bool)) (r : wiegand_reader_t) :
    (sample r es).size = r.size := by
  induction es generalizing r with
  | nil => rfl
  | cons e es ih =>
    show (sample (isr_handler r e.1 e.2) es).size = r.size
    rw [ih, isr_handler_size]

theorem task_decode_packed (cfg : Nat) (r : wiegand_reader_t) (bs : List Bool)
    (h : packed r bs) (hcfg : r.size = cfg) (h64 : bs.length ≤ 64) :
    task_decode (make_packet cfg r) =
      if bs.length = 26 ∨ bs.length = 34 then val bs
      else val bs * 2 ^ (8 * ((bs.length + 7) / 8) - bs.length) := by
  have hwf := h.1
  have hlen : r.bits = bs.length := h.2.2.2.2.1
  rw [make_packet_eq cfg r (by rw [hwf.1, hcfg]), task_decode_spec_zero]
  show spec_decode 0 r.bits r.buf = _
  rw [hlen, spec_decode_zero_be _ _ hwf.2 h64, packed_be_value r bs h]
  by_cases h26 : bs.length = 26
  · simp [h26]
  · by_cases h34 : bs.length = 34
    · simp [h34]
    · simp [h26, h34]

theorem spec_encode_ne (b : Bool) : (spec_encode b).1 ≠ (spec_encode b).2 := by
  cases b <;> decide

theorem sample_decode_edges (cfg : Nat) (r0 : wiegand_reader_t)
    (es : List (Bool × Bool))
    (hbit : r0.bit_order = WIEGAND_MSB_FIRST) (hbyte : r0.byte_order = WIEGAND_LSB_FIRST)
    (hsize : r0.size = cfg) (hl : ∀ e ∈ es, e.1 ≠ e.2) (h64 : es.length ≤ 64)
    (hcap : es.length ≤ 8 * cfg) :
    task_decode (make_packet cfg (sample (wiegand_reader_enable r0) es)) =
      if es.length = 26 ∨ es.length = 34 then val (es.map (fun e => !e.1))
      else val (es.map (fun e => !e.1)) * 2 ^ (8 * ((es.length + 7) / 8) - es.length) := by
  have hp0 := packed_enable r0 hbit hbyte
  have hsz : (wiegand_reader_enable r0).size = cfg := hsize
  have hp := packed_sample es (wiegand_reader_enable r0) [] hp0 hl
    (by rw [hsz]; simpa [wiegand_reader_enable] using hcap)
  rw [List.nil_append] at hp
  have := task_decode_packed cfg _ _ hp (by rw [sample_size]; exact hsz)
    (by simpa using h64)
  simpa using this


/-! ## Lemmas on the store operations -/

theorem pop_fault_nil (w : world_t) (h : w.faults = []) : pop_fault w = (false, w) := by
  unfold pop_fault; rw [h]

theorem get_INT8_ok (w : world_t) (key : nvs_key_t) (h : w.faults = []) :
    get_INT8_Data_From_Storage w key =
      (((w.nvs.get key).getD w.int8_on_error) % 256, w) := by
  unfold get_INT8_Data_From_Storage
  rw [pop_fault_nil w h]
  cases hv : w.nvs.get key <;> simp [hv]

theorem nvs_get_u32_ok (w : world_t) (key : nvs_key_t) (out : Nat) (h : w.faults = []) :
    nvs_get_u32 w key out =
      (if (w.nvs.get key).isSome then ESP_OK else ESP_ERR_NVS_NOT_FOUND,
        ((w.nvs.get key).map (fun v => v % 2 ^ 32)).getD out, w) := by
  unfold nvs_get_u32
  rw [pop_fault_nil w h]
  cases hv : w.nvs.get key <;> simp [hv]

theorem nvs_set_u32_ok (w : world_t) (key : nvs_key_t) (v : Nat) (h : w.faults = []) :
    nvs_set_u32 w key v = (ESP_OK, { w with nvs := w.nvs.put key (v % 2 ^ 32) }) := by
  unfold nvs_set_u32
  rw [pop_fault_nil w h]
  simp

theorem nvs_get_str_ok (w : world_t) (hd : antipassback_handle_t) (key : String)
    (h : w.faults = []) :
    nvs_get_str w hd key =
      (if ((w.nvs.ns hd).lookup key).isSome then ESP_OK else ESP_ERR_NVS_NOT_FOUND, w) := by
  unfold nvs_get_str
  rw [pop_fault_nil w h]
  cases hl : (w.nvs.ns hd).lookup key <;> simp [hl]

theorem nvs_set_str_ok (w : world_t) (hd : antipassback_handle_t) (key value : String)
    (h : w.faults = []) :
    nvs_set_str w hd key value =
      (ESP_OK,
        { w with
            nvs := (w.nvs.set_ns hd
              ((key, value) :: (w.nvs.ns hd).filter (fun e => e.1 ≠ key))) }) := by
  unfold nvs_set_str
  rw [pop_fault_nil w h]
  simp

theorem filter_ne_of_lookup_none (l : List (String × String)) (key : String)
    (h : l.lookup key = none) : l.filter (fun e => e.1 ≠ key) = l := by
  induction l with
  | nil => rfl
  | cons e l ih =>
    obtain ⟨k, v⟩ := e
    rw [List.lookup_cons] at h
    by_cases hk : key = k
    · subst hk; simp at h
    · have hk' : (key == k) = false := by simpa using hk
      rw [hk'] at h
      simp only at h
      rw [List.filter_cons]
      have : decide ((k, v).1 ≠ key) = true := by simpa using fun hh => hk hh.symm
      rw [this, if_pos rfl, ih h]

theorem lookup_filter_ne (l : List (String × String)) (key : String) :
    (l.filter (fun e => e.1 ≠ key)).lookup key = none := by
  induction l with
  | nil => rfl
  | cons e l ih =>
    obtain ⟨k, v⟩ := e
    rw [List.filter_cons]
    by_cases hk : k = key
    · have : decide ((k, v).1 ≠ key) = false := by simpa using hk
      rw [this]; simpa using ih
    · have : decide ((k, v).1 ≠ key) = true := by simpa using hk
      rw [this, if_pos rfl, List.lookup_cons]
      have hk' : (key == k) = false := by simpa using fun hh => hk hh.symm
      rw [hk']
      exact ih

theorem nvs_erase_key_ok (w : world_t) (hd : antipassback_handle_t) (key : String)
    (h : w.faults = []) :
    (nvs_erase_key w hd key).2 =
      { w with nvs := w.nvs.set_ns hd ((w.nvs.ns hd).filter (fun e => e.1 ≠ key)) } := by
  unfold nvs_erase_key
  rw [pop_fault_nil w h]
  cases hl : (w.nvs.ns hd).lookup key with
  | some x => simp [hl]
  | none =>
    simp only [Bool.false_eq_true, if_false, hl]
    rw [filter_ne_of_lookup_none _ _ hl]
    cases hd <;> rfl

theorem get_antipassback_user_ok (w : world_t) (key : String) (h : w.faults = []) :
    get_antipassback_user w key =
      (if ((w.nvs.ns antipassback_handle_t.USER).lookup key).isSome ∨
          ((w.nvs.ns antipassback_handle_t.ADMIN).lookup key).isSome ∨
          ((w.nvs.ns antipassback_handle_t.OWNER).lookup key).isSome then 0 else 1, w) := by
  unfold get_antipassback_user
  simp only [nvs_get_str_ok _ _ _ h]
  cases (w.nvs.ns antipassback_handle_t.USER).lookup key <;>
    cases (w.nvs.ns antipassback_handle_t.ADMIN).lookup key <;>
    cases (w.nvs.ns antipassback_handle_t.OWNER).lookup key <;>
    simp [ESP_OK, ESP_ERR_NVS_NOT_FOUND]

theorem marked_present_iff (n : nvs_t) (key : String) :
    marked_present n key ↔
      (((n.ns antipassback_handle_t.USER).lookup key).isSome ∨
        ((n.ns antipassback_handle_t.ADMIN).lookup key).isSome ∨
        ((n.ns antipassback_handle_t.OWNER).lookup key).isSome) := by
  constructor
  · rintro ⟨h, hh⟩
    cases h
    · exact Or.inl hh
    · exact Or.inr (Or.inl hh)
    · exact Or.inr (Or.inr hh)
  · rintro (h | h | h)
    · exact ⟨_, h⟩
    · exact ⟨_, h⟩
    · exact ⟨_, h⟩

theorem set_antipassback_user_ok (w : world_t) (key : String) (c : Char)
    (h : w.faults = []) (hc : c = '0' ∨ c = '1' ∨ c = '2') :
    set_antipassback_user w key c =
      (0, { w with
            nvs := (w.nvs.set_ns (role_namespace c)
              ((key, "1") :: (w.nvs.ns (role_namespace c)).filter (fun e => e.1 ≠ key))) }) := by
  unfold set_antipassback_user
  rcases hc with rfl | rfl | rfl
  · simp [nvs_set_str_ok _ _ _ _ h, role_namespace, to_uint8, ESP_OK]
  · simp [nvs_set_str_ok _ _ _ _ h, role_namespace, to_uint8, ESP_OK]
  · simp [nvs_set_str_ok _ _ _ _ h, role_namespace, to_uint8, ESP_OK]

theorem wiegand_parse_getData_log (L : labels_t) (w : world_t) (v : Nat)
    (kp : Option String) (mode relay reader : Nat) :
    (wiegand_parse_getData L w v kp mode relay reader).2.dispatched
        = w.dispatched ++ [⟨v, mode, relay, reader⟩] ∧
    (wiegand_parse_getData L w v kp mode relay reader).2.nvs = w.nvs ∧
    (wiegand_parse_getData L w v kp mode relay reader).2.faults = w.faults := by
  unfold wiegand_parse_getData
  simp only
  split
  · split <;> exact ⟨rfl, rfl, rfl⟩
  · exact ⟨rfl, rfl, rfl⟩

theorem ns_put (n : nvs_t) (k : nvs_key_t) (v : Nat) (h : antipassback_handle_t) :
    (n.put k v).ns h = n.ns h := by
  cases k <;> cases h <;> rfl

theorem lookup_none_of_not_marked (n : nvs_t) (key : String)
    (h : ¬ marked_present n key) (hd : antipassback_handle_t) :
    (n.ns hd).lookup key = none := by
  cases hl : (n.ns hd).lookup key with
  | none => rfl
  | some x => exact absurd ⟨hd, by rw [hl]; rfl⟩ h

theorem erase_antipassback_user_ok (w : world_t) (key : String) (h : w.faults = []) :
    (erase_antipassback_user w key).2 =
      { w with
          nvs :=
            { w.nvs with
                antipassback_USER := w.nvs.antipassback_USER.filter (fun e => e.1 ≠ key)
                antipassback_ADMIN := w.nvs.antipassback_ADMIN.filter (fun e => e.1 ≠ key)
                antipassback_OWNER := w.nvs.antipassback_OWNER.filter (fun e => e.1 ≠ key) } } := by
  unfold erase_antipassback_user
  have e1 := nvs_erase_key_ok w antipassback_handle_t.USER key h
  have e2 := nvs_erase_key_ok (nvs_erase_key w antipassback_handle_t.USER key).2
    antipassback_handle_t.ADMIN key (by rw [e1]; exact h)
  have e3 := nvs_erase_key_ok
    (nvs_erase_key (nvs_erase_key w antipassback_handle_t.USER key).2
      antipassback_handle_t.ADMIN key).2
    antipassback_handle_t.OWNER key (by rw [e2, e1]; exact h)
  show (nvs_erase_key (nvs_erase_key (nvs_erase_key w antipassback_handle_t.USER key).2
      antipassback_handle_t.ADMIN key).2 antipassback_handle_t.OWNER key).2 = _
  rw [e3, e2, e1]
  rfl


/-! ## The claims on the edge sampler, the frame timer and the decoder -/

/-- C1 (amended): for the configured readers (bits MSB-first, bytes LSB-first) and
every bit sequence `b` of length `N` with `1 <= N <= min 64 (8 * size)`, sampling
the `N` edges from a freshly enabled reader and decoding the frame yields the
value of the COMPLEMENTED sequence when every bit is sent as the specification
says (a 0 as a pulse on data-0, a 1 as a pulse on data-1): that value itself for
`N = 26` or `34`, and shifted left by `8 * ceil(N / 8) - N` for every other `N`.
The value `val b` of the claim is obtained when a 1 is sent as a low `gpio_d0` and a
0 as a low `gpio_d1` (second part). -/
theorem sample_decode_round_trip (cfg : Nat) (r0 : wiegand_reader_t) (bs : List Bool)
    (hbit : r0.bit_order = WIEGAND_MSB_FIRST) (hbyte : r0.byte_order = WIEGAND_LSB_FIRST)
    (hsize : r0.size = cfg) (_h1 : 1 ≤ bs.length) (h64 : bs.length ≤ min 64 (8 * cfg)) :
    (task_decode (make_packet cfg
        (sample (wiegand_reader_enable r0) (bs.map spec_encode))) =
      if bs.length = 26 ∨ bs.length = 34 then val (bs.map (fun b => !b))
      else val (bs.map (fun b => !b)) * 2 ^ (8 * ((bs.length + 7) / 8) - bs.length)) ∧
    (task_decode (make_packet cfg
        (sample (wiegand_reader_enable r0) (bs.map (fun b => (!b, b))))) =
      if bs.length = 26 ∨ bs.length = 34 then val bs
      else val bs * 2 ^ (8 * ((bs.length + 7) / 8) - bs.length)) := by
  have h64' : bs.length ≤ 64 := le_trans h64 (min_le_left _ _)
  have hcap : bs.length ≤ 8 * cfg := le_trans h64 (min_le_right _ _)
  constructor
  · have h := sample_decode_edges cfg r0 (bs.map spec_encode) hbit hbyte hsize
      (by
        intro e he
        obtain ⟨b, _, rfl⟩ := List.mem_map.mp he
        exact spec_encode_ne b)
      (by simpa using h64') (by simpa using hcap)
    have hmap : (bs.map spec_encode).map (fun e => !e.1) = bs.map (fun b => !b) := by
      rw [List.map_map]
      apply List.map_congr_left
      intro b _
      cases b <;> rfl
    rw [hmap, List.length_map] at h
    exact h
  · have h := sample_decode_edges cfg r0 (bs.map (fun b => (!b, b))) hbit hbyte hsize
      (by
        intro e he
        obtain ⟨b, _, rfl⟩ := List.mem_map.mp he
        cases b <;> decide)
      (by simpa using h64') (by simpa using hcap)
    have hmap : (bs.map (fun b => (!b, b))).map (fun e => !e.1) = bs := by
      rw [List.map_map]
      conv_rhs => rw [← List.map_id bs]
      apply List.map_congr_left
      intro b _
      cases b <;> rfl
    rw [hmap, List.length_map] at h
    exact h


/-- C1 (counterexample): the one-bit sequence `1`, sent as a pulse on data-1 to a
freshly enabled reader of `wiegand1_task`, decodes to 0 where the claim says
`1 * 2 ^ 7 = 128`; the one-bit sequence `0`, sent on data-0, decodes to 128 where
the claim says 0. -/
theorem sample_decode_round_trip_counterexample :
    task_decode (make_packet 4
        (sample (wiegand_reader_enable (wiegand1_task_init 4 {} {} {}).2.2)
          ([true].map spec_encode))) = 0 ∧
    val [true] * 2 ^ (8 * (([true].length + 7) / 8) - [true].length) = 128 ∧
    task_decode (make_packet 4
        (sample (wiegand_reader_enable (wiegand1_task_init 4 {} {} {}).2.2)
          ([false].map spec_encode))) = 128 ∧
    val [false] * 2 ^ (8 * (([false].length + 7) / 8) - [false].length) = 0 := by
  decide

/-- C1 (witness): the keypad nibble `1010` sent with a 1 as a low `gpio_d0` decodes
to `10 * 16 = 160`, and sent as the specification says to the complement
`0101`, that is `5 * 16 = 80`. -/
theorem sample_decode_round_trip_witness :
    (1 ≤ [true, false, true, false].length ∧
      [true, false, true, false].length ≤ min 64 (8 * 4)) ∧
    task_decode (make_packet 4
        (sample (wiegand_reader_enable (wiegand1_task_init 4 {} {} {}).2.2)
          ([true, false, true, false].map spec_encode))) = 5 * 16 ∧
    task_decode (make_packet 4
        (sample (wiegand_reader_enable (wiegand1_task_init 4 {} {} {}).2.2)
          ([true, false, true, false].map (fun b => (!b, b))))) = 10 * 16 :=
  ⟨⟨by decide, by decide⟩,
    sample_decode_round_trip 4 (wiegand1_task_init 4 {} {} {}).2.2
      [true, false, true, false] (by decide) (by decide) (by decide) (by decide)
      (by decide)⟩

/-- C2: one accepted edge packs one bit.  For an enabled reader with
`bits < 8 * size` and exactly one line low, `isr_handler` ORs into the byte at
index `size - bits / 8 - 1` (bytes MSB-first) or `bits / 8` (bytes LSB-first) the
mask `0x80 >> (bits mod 8)` (bits MSB-first) or `1 << (bits mod 8)` (bits
LSB-first) when the bit value it computed is 1 (`gpio_d0` low) and nothing
otherwise; it clears no bit, leaves every other byte as it was and increments the
bit count by exactly 1. -/
theorem isr_handler_packs_one_bit (r : wiegand_reader_t) (l0 l1 : Bool)
    (hwf : reader_wf r) (he : r.enabled = true) (hl : l0 ≠ l1)
    (hb : r.bits < 8 * r.size) :
    let i := if r.byte_order = WIEGAND_MSB_FIRST then r.size - r.bits / 8 - 1
             else r.bits / 8
    let mask := if r.bit_order = WIEGAND_MSB_FIRST then 0x80 >>> (r.bits % 8)
                else 1 <<< (r.bits % 8)
    let r' := isr_handler r l0 l1
    i < r.size ∧
    r'.buf.length = r.buf.length ∧
    r'.buf.getD i 0 = (r.buf.getD i 0 ||| (if l0 = false then mask else 0)) ∧
    (∀ j, j ≠ i → r'.buf.getD j 0 = r.buf.getD j 0) ∧
    (∀ j k, (r.buf.getD j 0).testBit k = true → (r'.buf.getD j 0).testBit k = true) ∧
    reader_wf r' ∧
    r'.bits = r.bits + 1 :=
  isr_handler_effect r l0 l1 hwf he hl hb

/-- C2 (witness): the first edge into an empty one-byte reader. -/
theorem isr_handler_packs_one_bit_witness :
    (reader_wf one_byte_reader ∧ one_byte_reader.enabled = true ∧ false ≠ true ∧
      one_byte_reader.bits < 8 * one_byte_reader.size) ∧
    (isr_handler one_byte_reader false true).buf.getD 0 0 = 0x80 ∧
    (isr_handler one_byte_reader false true).bits = one_byte_reader.bits + 1 :=
  ⟨⟨⟨rfl, by decide⟩, rfl, by decide, by decide⟩,
    (isr_handler_packs_one_bit one_byte_reader false true ⟨rfl, by decide⟩ rfl
      (by decide) (by decide)).2.2.1,
    (isr_handler_packs_one_bit one_byte_reader false true ⟨rfl, by decide⟩ rfl
      (by decide) (by decide)).2.2.2.2.2.2⟩

/-! ## Frame positions above the bit count stay clear -/

theorem frame_bit_zero_buf (r : wiegand_reader_t) (n : Nat)
    (h : r.buf = List.replicate r.size 0) : frame_bit r n = false := by
  have hz : ∀ i, (List.replicate r.size 0).getD i 0 = 0 := by
    intro i
    rw [List.getD_eq_getElem?_getD, List.getElem?_replicate]
    split <;> rfl
  unfold frame_bit
  simp only [h, hz, Nat.zero_testBit]

theorem mask_testBit_ne (a b : Nat) (ha : a < 8) (hb : b < 8) (hab : a ≠ b) :
    (0x80 >>> a).testBit (7 - b) = false ∧ (1 <<< a).testBit b = false := by
  interval_cases a <;> interval_cases b <;> first | exact absurd rfl hab | decide

theorem isr_handler_frame_bit_other (r : wiegand_reader_t) (l0 l1 : Bool)
    (hwf : reader_wf r) (he : r.enabled = true) (hl : l0 ≠ l1)
    (hb : r.bits < 8 * r.size) (n : Nat) (hn : n ≠ r.bits) (hlt : n < 8 * r.size) :
    frame_bit (isr_handler r l0 l1) n = frame_bit r n := by
  have h := isr_handler_effect r l0 l1 hwf he hl hb
  simp only at h
  obtain ⟨_, _, hnew, hother, _, _, _⟩ := h
  have hb' : r.bits < r.size * 8 := by omega
  have hacc := isr_handler_accept r l0 l1 he hl hb'
  have hs : (isr_handler r l0 l1).size = r.size := by rw [hacc]
  have hbo : (isr_handler r l0 l1).byte_order = r.byte_order := by rw [hacc]
  have hbi : (isr_handler r l0 l1).bit_order = r.bit_order := by rw [hacc]
  unfold frame_bit
  simp only [hs, hbo, hbi]
  by_cases hi : (if r.byte_order = WIEGAND_MSB_FIRST then r.size - n / 8 - 1 else n / 8)
      = (if r.byte_order = WIEGAND_MSB_FIRST then r.size - r.bits / 8 - 1 else r.bits / 8)
  · have hdiv : n / 8 = r.bits / 8 := by
      split at hi <;> omega
    have hmod : r.bits % 8 ≠ n % 8 := by omega
    have hm := mask_testBit_ne (r.bits % 8) (n % 8) (Nat.mod_lt _ (by norm_num))
      (Nat.mod_lt _ (by norm_num)) hmod
    rw [hi, hnew, Nat.testBit_or]
    cases l0
    · simp only [if_true]
      by_cases hmsb : r.bit_order = WIEGAND_MSB_FIRST
      · simp only [hmsb, if_true, hm.1, Bool.or_false]
      · simp only [hmsb, if_false, hm.2, Bool.or_false]
    · simp
  · rw [hother _ hi]

theorem isr_handler_clear_from (r : wiegand_reader_t) (l0 l1 : Bool)
    (hwf : reader_wf r) (hc : clear_from r) : clear_from (isr_handler r l0 l1) := by
  by_cases h : r.enabled = false ∨ l0 = l1 ∨ r.size * 8 ≤ r.bits
  · rw [isr_handler_reject r l0 l1 h]; exact hc
  · have he : r.enabled = true := by
      cases hen : r.enabled
      · exact absurd (Or.inl hen) h
      · rfl
    have hl : l0 ≠ l1 := fun e => h (Or.inr (Or.inl e))
    have hb : r.bits < 8 * r.size := by
      by_contra hnb
      exact h (Or.inr (Or.inr (by omega)))
    have hacc := isr_handler_accept r l0 l1 he hl (by omega)
    have hs : (isr_handler r l0 l1).size = r.size := by rw [hacc]
    have hbits : (isr_handler r l0 l1).bits = r.bits + 1 := by rw [hacc]
    intro n hn hlt
    rw [hbits] at hn
    rw [hs] at hlt
    rw [isr_handler_frame_bit_other r l0 l1 hwf he hl hb n (by omega) hlt]
    exact hc n (by omega) hlt

theorem reader_step_clear (cfg : Nat) (s : wiegand_reader_t × queues_t) (e : reader_event)
    (h : reader_inv cfg s) (hc : clear_from s.1) : clear_from (reader_step cfg s e).1 := by
  cases e with
  | edge l0 l1 => exact isr_handler_clear_from s.1 l0 l1 h.1 hc
  | timer_expiry =>
    intro n _ _
    apply frame_bit_zero_buf
    simp [reader_step, timer_handler, isr_enable, wiegand_reader_enable,
      wiegand_reader_disable, isr_disable]
  | enable =>
    intro n _ _
    apply frame_bit_zero_buf
    simp [reader_step, isr_enable, wiegand_reader_enable]
  | disable =>
    intro n hn hlt
    exact hc n hn hlt

theorem reader_run_clear (cfg : Nat) (es : List reader_event)
    (s : wiegand_reader_t × queues_t) (h : reader_inv cfg s) (hc : clear_from s.1) :
    clear_from (reader_run cfg s es).1 := by
  induction es generalizing s with
  | nil => exact hc
  | cons e es ih => exact ih _ (reader_step_inv cfg s e h) (reader_step_clear cfg s e h hc)

theorem init_ok_clear (drv : driver_t) (w w' : world_t) (r0 r : wiegand_reader_t)
    (gpio_d0 gpio_d1 : Nat) (pull : Bool) (buf_size : Nat)
    (callback : Option wiegand_callback_t) (bit_order byte_order : wiegand_order_t)
    (hinit :
      wiegand_reader_init1 drv w r0 gpio_d0 gpio_d1 pull buf_size callback bit_order
          byte_order = (ESP_OK, w', r) ∨
      wiegand_reader_init2 drv w r0 gpio_d0 gpio_d1 pull buf_size callback bit_order
          byte_order = (ESP_OK, w', r)) :
    clear_from r := by
  have key : ∀ cb,
      reader_init_body drv r0 gpio_d0 gpio_d1 buf_size cb bit_order byte_order
        = (ESP_OK, r) → clear_from r := by
    intro cb hb
    have hr := reader_init_body_ok _ _ _ _ _ _ _ _ _ hb
    subst hr
    intro n _ _
    exact frame_bit_zero_buf _ n rfl
  rcases hinit with h | h
  · unfold wiegand_reader_init1 at h
    rcases callback with _ | cb
    · simp [ESP_OK, ESP_ERR_INVALID_ARG] at h
    · by_cases hz : buf_size = 0
      · simp [hz, ESP_OK, ESP_ERR_INVALID_ARG] at h
      · simp only [hz, if_false] at h
        apply key cb
        simp only [Prod.mk.injEq] at h
        exact Prod.ext h.1 h.2.2
  · unfold wiegand_reader_init2 at h
    rcases callback with _ | cb
    · simp [ESP_OK, ESP_ERR_INVALID_ARG] at h
    · by_cases hz : buf_size = 0
      · simp [hz, ESP_OK, ESP_ERR_INVALID_ARG] at h
      · simp only [hz, if_false] at h
        apply key cb
        simp only [Prod.mk.injEq] at h
        exact Prod.ext h.1 h.2.2

theorem isr_handler_stores (r : wiegand_reader_t) (l0 l1 : Bool)
    (hwf : reader_wf r) (he : r.enabled = true) (hl : l0 ≠ l1)
    (hb : r.bits < 8 * r.size) :
    frame_bit (isr_handler r l0 l1) r.bits = (frame_bit r r.bits || !l0) := by
  have h := isr_handler_effect r l0 l1 hwf he hl hb
  simp only at h
  obtain ⟨_, _, hnew, _, _, _, _⟩ := h
  have hb' : r.bits < r.size * 8 := by omega
  have hacc := isr_handler_accept r l0 l1 he hl hb'
  have hs : (isr_handler r l0 l1).size = r.size := by rw [hacc]
  have hbo : (isr_handler r l0 l1).byte_order = r.byte_order := by rw [hacc]
  have hbi : (isr_handler r l0 l1).bit_order = r.bit_order := by rw [hacc]
  unfold frame_bit
  simp only [hs, hbo, hbi]
  rw [hnew, Nat.testBit_or]
  cases l0
  · simp only [if_true, Bool.not_false, Bool.or_true]
    by_cases hm : r.bit_order = WIEGAND_MSB_FIRST
    · simp only [hm, if_true]; rw [(mask_testBit r.bits).1]; simp
    · simp only [hm, if_false]; rw [(mask_testBit r.bits).2]; simp
  · simp

/-! ## The claims on polarity, capacity, the frame timer and the decoder -/

/-- C3 (amended): bit polarity.  For every edge that `isr_handler` accepts
(reader enabled, the two levels differ, bit count below the capacity) the bit
value it ORs into the frame position of the bit count is 1 when `gpio_d0` (the
data-0 line) is the line that is low and 0 when `gpio_d1` (the data-1 line) is
the line that is low.  In every state reached from a successfully initialised
reader (either init function) by any sequence of edges, timer expiries, enable
and disable calls, that position is clear beforehand, so the bit read back at
it afterwards is 1 when `gpio_d0` is low and 0 when `gpio_d1` is low. -/
theorem isr_handler_polarity (drv : driver_t) (w w' : world_t)
    (r0 r : wiegand_reader_t) (gpio_d0 gpio_d1 : Nat) (pull : Bool) (buf_size : Nat)
    (callback : Option wiegand_callback_t) (bit_order byte_order : wiegand_order_t)
    (hinit :
      wiegand_reader_init1 drv w r0 gpio_d0 gpio_d1 pull buf_size callback bit_order
          byte_order = (ESP_OK, w', r) ∨
      wiegand_reader_init2 drv w r0 gpio_d0 gpio_d1 pull buf_size callback bit_order
          byte_order = (ESP_OK, w', r))
    (es : List reader_event) (l0 l1 : Bool) :
    (∀ q : wiegand_reader_t, reader_wf q → q.enabled = true → l0 ≠ l1 →
      q.bits < 8 * q.size →
      frame_bit (isr_handler q l0 l1) q.bits = (frame_bit q q.bits || !l0)) ∧
    (let s := (reader_run buf_size (r, {}) es).1
     s.enabled = true → l0 ≠ l1 → s.bits < 8 * s.size →
      frame_bit s s.bits = false ∧
      frame_bit (isr_handler s l0 l1) s.bits = !l0 ∧
      (l0 = false → frame_bit (isr_handler s l0 l1) s.bits = true) ∧
      (l1 = false → frame_bit (isr_handler s l0 l1) s.bits = false)) := by
  refine ⟨fun q hwf he hl hb => isr_handler_stores q l0 l1 hwf he hl hb, ?_⟩
  intro s he hl hb
  obtain ⟨_, hinv0⟩ := init_ok_inv drv w w' r0 r gpio_d0 gpio_d1 pull buf_size callback
    bit_order byte_order hinit
  have hc0 := init_ok_clear drv w w' r0 r gpio_d0 gpio_d1 pull buf_size callback
    bit_order byte_order hinit
  have hinv := reader_run_inv buf_size es (r, {}) hinv0
  have hc : clear_from s := reader_run_clear buf_size es (r, {}) hinv0 hc0
  have hwf : reader_wf s := hinv.1
  have hclear : frame_bit s s.bits = false := hc s.bits (Nat.le_refl _) hb
  have hst := isr_handler_stores s l0 l1 hwf he hl hb
  rw [hclear, Bool.false_or] at hst
  refine ⟨hclear, hst, ?_, ?_⟩
  · intro h0
    rw [hst, h0]
    rfl
  · intro h1
    rw [hst]
    cases l0
    · exact absurd h1.symm hl
    · rfl

/-- C3 (counterexample): with the data-0 line low and the data-1 line high the
edge is accepted and the stored bit is 1, not 0; with the data-1 line low the
stored bit is 0, not 1. -/
theorem isr_handler_polarity_counterexample :
    (isr_handler one_byte_reader false true).bits = 1 ∧
    frame_bit one_byte_reader 0 = false ∧
    frame_bit (isr_handler one_byte_reader false true) 0 = true ∧
    (isr_handler one_byte_reader true false).bits = 1 ∧
    frame_bit (isr_handler one_byte_reader true false) 0 = false := by
  decide

/-- C3 (witness): the reader of `wiegand1_task` with a one-byte buffer after one
accepted edge; the next edge, with the data-1 line low, stores 0 at position 1,
and one with the data-0 line low stores 1 there. -/
theorem isr_handler_polarity_witness :
    wiegand_reader_init1 {} {} {} 7 6 true 1 (some wiegand_callback_t.reader_callback)
        WIEGAND_MSB_FIRST WIEGAND_LSB_FIRST
      = (ESP_OK, (wiegand1_task_init 1 {} {} {}).2.1, (wiegand1_task_init 1 {} {} {}).2.2) ∧
    (reader_run 1 ((wiegand1_task_init 1 {} {} {}).2.2, {})
      [reader_event.edge false true]).1.bits = 1 ∧
    frame_bit
      (isr_handler
        (reader_run 1 ((wiegand1_task_init 1 {} {} {}).2.2, {})
          [reader_event.edge false true]).1 true false)
      (reader_run 1 ((wiegand1_task_init 1 {} {} {}).2.2, {})
        [reader_event.edge false true]).1.bits = false ∧
    frame_bit
      (isr_handler
        (reader_run 1 ((wiegand1_task_init 1 {} {} {}).2.2, {})
          [reader_event.edge false true]).1 false true)
      (reader_run 1 ((wiegand1_task_init 1 {} {} {}).2.2, {})
        [reader_event.edge false true]).1.bits = true :=
  ⟨by decide, by decide,
    ((isr_handler_polarity {} {} (wiegand1_task_init 1 {} {} {}).2.1 {}
      (wiegand1_task_init 1 {} {} {}).2.2 7 6 true 1
      (some wiegand_callback_t.reader_callback) WIEGAND_MSB_FIRST WIEGAND_LSB_FIRST
      (Or.inl (by decide)) [reader_event.edge false true] true false).2
      (by decide) (by decide) (by decide)).2.2.2 rfl,
    ((isr_handler_polarity {} {} (wiegand1_task_init 1 {} {} {}).2.1 {}
      (wiegand1_task_init 1 {} {} {}).2.2 7 6 true 1
      (some wiegand_callback_t.reader_callback) WIEGAND_MSB_FIRST WIEGAND_LSB_FIRST
      (Or.inl (by decide)) [reader_event.edge false true] false true).2
      (by decide) (by decide) (by decide)).2.2.1 rfl⟩

/-- C4: `isr_handler` leaves the whole reader state unchanged whenever the reader is
disabled, or both lines read the same level, or the bit count has reached
`8 * size`; in every other case it increments the bit count by exactly 1. -/
theorem isr_handler_frame (r : wiegand_reader_t) (l0 l1 : Bool) :
    ((r.enabled = false ∨ l0 = l1 ∨ 8 * r.size ≤ r.bits) → isr_handler r l0 l1 = r) ∧
    (¬ (r.enabled = false ∨ l0 = l1 ∨ 8 * r.size ≤ r.bits) →
      (isr_handler r l0 l1).bits = r.bits + 1) := by
  constructor
  · intro h
    apply isr_handler_reject
    rcases h with h | h | h
    · exact Or.inl h
    · exact Or.inr (Or.inl h)
    · exact Or.inr (Or.inr (by omega))
  · intro h
    have he : r.enabled = true := by
      cases hh : r.enabled
      · exact absurd (Or.inl hh) h
      · rfl
    have hl : l0 ≠ l1 := fun hh => h (Or.inr (Or.inl hh))
    have hb : r.bits < r.size * 8 := by
      by_contra hh
      exact h (Or.inr (Or.inr (by omega)))
    rw [isr_handler_accept r l0 l1 he hl hb]


/-- C5: capacity and bounds.  In every state reached from a successfully
initialised reader (either init function) by any sequence of edges, timer
expiries, enable and disable calls, with the packet buffer as large as the reader
buffer: the bit count is at most `8 * size`; whenever `isr_handler` writes, its
byte index is below `size`; every queued frame, and the frame a timer expiry
would queue now, makes the decoder loop read `ceil(bits / 8) <= size` bytes of a
`size`-byte packet; no edge clears a stored bit, and at full capacity an edge
changes nothing. -/
theorem reader_capacity_and_bounds (drv : driver_t) (w w' : world_t)
    (r0 r : wiegand_reader_t) (gpio_d0 gpio_d1 : Nat) (pull : Bool) (buf_size : Nat)
    (callback : Option wiegand_callback_t) (bit_order byte_order : wiegand_order_t)
    (hinit :
      wiegand_reader_init1 drv w r0 gpio_d0 gpio_d1 pull buf_size callback bit_order
          byte_order = (ESP_OK, w', r) ∨
      wiegand_reader_init2 drv w r0 gpio_d0 gpio_d1 pull buf_size callback bit_order
          byte_order = (ESP_OK, w', r))
    (es : List reader_event) :
    let s := reader_run buf_size (r, {}) es
    s.1.size = buf_size ∧ s.1.buf.length = s.1.size ∧
    s.1.bits ≤ 8 * s.1.size ∧
    (∀ l0 l1, isr_handler s.1 l0 l1 ≠ s.1 → isr_index s.1 < s.1.size) ∧
    (∀ p ∈ s.2.queue ++ s.2.queue2,
      decode_reads p = (p.bits + 7) / 8 ∧ decode_reads p ≤ s.1.size ∧
      p.data.length = s.1.size) ∧
    (decode_reads (make_packet buf_size s.1) = (s.1.bits + 7) / 8 ∧
      decode_reads (make_packet buf_size s.1) ≤ s.1.size ∧
      (make_packet buf_size s.1).data.length = s.1.size) ∧
    (∀ l0 l1 j k, (s.1.buf.getD j 0).testBit k = true →
      ((isr_handler s.1 l0 l1).buf.getD j 0).testBit k = true) ∧
    (s.1.bits = 8 * s.1.size → ∀ l0 l1, isr_handler s.1 l0 l1 = s.1) := by
  intro s
  obtain ⟨_, hinv0⟩ := init_ok_inv drv w w' r0 r gpio_d0 gpio_d1 pull buf_size callback
    bit_order byte_order hinit
  obtain ⟨hwf, hb, hs, hq⟩ := reader_run_inv buf_size es (r, {}) hinv0
  change reader_wf s.1 at hwf
  change s.1.bits ≤ 8 * s.1.size at hb
  change s.1.size = buf_size at hs
  change ∀ p ∈ s.2.queue ++ s.2.queue2, _ at hq
  have hrej : ∀ l0 l1, (s.1.enabled = false ∨ l0 = l1 ∨ s.1.size * 8 ≤ s.1.bits) →
      isr_handler s.1 l0 l1 = s.1 := fun l0 l1 => isr_handler_reject s.1 l0 l1
  refine ⟨hs, hwf.1, hb, ?_, ?_, ?_, ?_, ?_⟩
  · intro l0 l1 hne
    apply isr_index_lt
    by_contra hh
    exact hne (hrej l0 l1 (Or.inr (Or.inr (by omega))))
  · intro p hp
    obtain ⟨h1, h2⟩ := hq p hp
    exact ⟨decode_reads_eq_ceil p, by rw [hs]; exact h2, by rw [hs]; exact h1⟩
  · have hlen : s.1.buf.length = buf_size := by rw [hwf.1, hs]
    rw [make_packet_eq buf_size s.1 hlen]
    refine ⟨decode_reads_eq_ceil _, decode_reads_le _ _ _ hb, ?_⟩
    show s.1.buf.length = s.1.size
    exact hwf.1
  · intro l0 l1 j k hjk
    by_cases h : s.1.enabled = false ∨ l0 = l1 ∨ s.1.size * 8 ≤ s.1.bits
    · rw [hrej l0 l1 h]; exact hjk
    · have he : s.1.enabled = true := by
        cases hh : s.1.enabled
        · exact absurd (Or.inl hh) h
        · rfl
      have hl : l0 ≠ l1 := fun hh => h (Or.inr (Or.inl hh))
      have hlt : s.1.bits < 8 * s.1.size := by
        by_contra hh
        exact h (Or.inr (Or.inr (by omega)))
      have h2 := isr_handler_effect s.1 l0 l1 hwf he hl hlt
      simp only at h2
      exact h2.2.2.2.2.1 j k hjk
  · intro hfull l0 l1
    exact hrej l0 l1 (Or.inr (Or.inr (by omega)))


/-- C5 (witness): the reader of `wiegand1_task` with a one-byte buffer, nine edges,
a timer expiry and one more edge. -/
theorem reader_capacity_and_bounds_witness :
    wiegand_reader_init1 {} {} {} 7 6 true 1 (some wiegand_callback_t.reader_callback)
        WIEGAND_MSB_FIRST WIEGAND_LSB_FIRST
      = (ESP_OK, (wiegand1_task_init 1 {} {} {}).2.1, (wiegand1_task_init 1 {} {} {}).2.2) ∧
    (reader_run 1 ((wiegand1_task_init 1 {} {} {}).2.2, {})
      [reader_event.edge false true, reader_event.edge true false,
       reader_event.edge false true, reader_event.edge false true,
       reader_event.edge false true, reader_event.edge false true,
       reader_event.edge false true, reader_event.edge false true,
       reader_event.edge false true, reader_event.timer_expiry,
       reader_event.edge false true]).1.size = 1 :=
  ⟨by decide,
    (reader_capacity_and_bounds {} {} (wiegand1_task_init 1 {} {} {}).2.1 {}
      (wiegand1_task_init 1 {} {} {}).2.2 7 6 true 1
      (some wiegand_callback_t.reader_callback) WIEGAND_MSB_FIRST WIEGAND_LSB_FIRST
      (Or.inl (by decide))
      [reader_event.edge false true, reader_event.edge true false,
       reader_event.edge false true, reader_event.edge false true,
       reader_event.edge false true, reader_event.edge false true,
       reader_event.edge false true, reader_event.edge false true,
       reader_event.edge false true, reader_event.timer_expiry,
       reader_event.edge false true]).1⟩

/-- C6: on timer expiry (`timer_handler` and `timer_handler2`) the frame-complete
callback is run once, on a reader with `enabled = false` whose bit count and
buffer are those accumulated before the expiry; the packet it queues (when the
queue has room) carries that bit count and those bytes; when the handler returns
the reader has bit count 0, an all-zero buffer and `enabled = true`. -/
theorem timer_handler_frame_complete (cfg : Nat) (r : wiegand_reader_t) (qs : queues_t)
    (cb : wiegand_callback_t) (hcb : r.callback = some cb) (hlen : r.buf.length = cfg) :
    let seen := wiegand_reader_disable r
    let p : data_packet_t := { data := r.buf, bits := r.bits }
    seen.enabled = false ∧ seen.bits = r.bits ∧ seen.buf = r.buf ∧
    (timer_handler cfg r qs).2 = invoke_callback cfg seen qs ∧
    (timer_handler2 cfg r qs).2 = invoke_callback cfg seen qs ∧
    (cb = wiegand_callback_t.reader_callback →
      invoke_callback cfg seen qs = { qs with queue := xQueueSendToBack qs.queue p }) ∧
    (cb = wiegand_callback_t.reader_callback2 →
      invoke_callback cfg seen qs = { qs with queue2 := xQueueSendToBack qs.queue2 p }) ∧
    (∀ q : List data_packet_t, q.length < QUEUE_LENGTH → xQueueSendToBack q p = q ++ [p]) ∧
    (timer_handler cfg r qs).1.bits = 0 ∧
    (timer_handler cfg r qs).1.buf = List.replicate r.size 0 ∧
    (timer_handler cfg r qs).1.enabled = true ∧
    (timer_handler2 cfg r qs).1 = (timer_handler cfg r qs).1 := by
  intro seen p
  have hseen : make_packet cfg seen = p := make_packet_eq cfg seen hlen
  refine ⟨rfl, rfl, rfl, rfl, rfl, ?_, ?_, ?_, rfl, rfl, rfl, rfl⟩
  · intro h
    have : seen.callback = some wiegand_callback_t.reader_callback := by rw [← h]; exact hcb
    simp only [invoke_callback, this, reader_callback, hseen]
  · intro h
    have : seen.callback = some wiegand_callback_t.reader_callback2 := by rw [← h]; exact hcb
    simp only [invoke_callback, this, reader_callback2, hseen]
  · intro q hq
    simp [xQueueSendToBack, hq]


/-- C6 (witness): a ten-bit frame in a two-byte reader of reader 1. -/
theorem timer_handler_frame_complete_witness :
    (ten_bit_reader.callback = some wiegand_callback_t.reader_callback ∧
      ten_bit_reader.buf.length = 2) ∧
    (timer_handler 2 ten_bit_reader {}).2
      = invoke_callback 2 (wiegand_reader_disable ten_bit_reader) {} ∧
    (timer_handler 2 ten_bit_reader {}).2.queue = [{ data := [0x80, 0x40], bits := 10 }] ∧
    (timer_handler 2 ten_bit_reader {}).1.bits = 0 :=
  ⟨⟨rfl, rfl⟩,
    (timer_handler_frame_complete 2 ten_bit_reader {}
      wiegand_callback_t.reader_callback rfl rfl).2.2.2.1,
    by decide,
    (timer_handler_frame_complete 2 ten_bit_reader {}
      wiegand_callback_t.reader_callback rfl rfl).2.2.2.2.2.2.2.2.1⟩

/-- C7 (amended): for every frame the value the reader task decodes equals the
algorithm of the specification started from the accumulator 0 (the source
computes `~0 + 1`, which is 0 in 64 bits) instead of the all-ones accumulator: for
each of the `ceil(bitCount / 8)` occupied bytes in storage order shift left by 8
modulo `2 ^ 64` and OR in the byte, then shift right by 6 when the bit count is 26
or 34 and not at all otherwise. -/
theorem task_decode_eq_spec_decode_zero (p : data_packet_t) :
    task_decode p = spec_decode 0 p.bits p.data := by
  have hn : p.bits / 8 + (if p.bits % 8 ≠ 0 then 1 else 0) = (p.bits + 7) / 8 := by
    split <;> omega
  have hstart : (u64_not 0 + 1) % 2 ^ 64 = 0 := by decide
  unfold task_decode spec_decode
  simp only [hn, hstart, task_decode_loop_eq, List.range_eq_range']
  by_cases h26 : p.bits = 26
  · simp [h26, Nat.shiftRight_eq_div_pow]
  · by_cases h34 : p.bits = 34
    · simp [h34, Nat.shiftRight_eq_div_pow]
    · simp [h26, h34]

/-- C7 (counterexample): the 8-bit frame with the single byte 5 decodes to 5, while
the algorithm started from the all-ones accumulator gives
`0xFFFFFFFFFFFFFF05`. -/
theorem task_decode_not_all_ones_start :
    task_decode { bits := 8, data := [5] } = 5 ∧
    spec_decode all_ones_64 8 [5] = 18446744073709551365 ∧
    task_decode { bits := 8, data := [5] } ≠ spec_decode all_ones_64 8 [5] := by
  decide

/-! ## The claims on the antipassback dispatch path -/

theorem ns_set_ns_same (n : nvs_t) (h : antipassback_handle_t) (l : List (String × String)) :
    (n.set_ns h l).ns h = l := by
  cases h <;> rfl

/-- C8: entry quota.  With antipassback activated, for a credential found in the
user database with role tag `'0'`, `'1'` or `'2'` that is not marked present, and
every store operation succeeding, `wiegand1_action` dispatches if and only if the
persisted current count is below the persisted quota.  When it does, the count
grows by exactly 1, the credential is marked present in the namespace of its role
(nothing else in the store changes) and it is dispatched exactly once with relay
directive 1 for reader 1; when the count has reached the quota nothing is
dispatched and no persisted value changes.  Worked case: quota 2, two entries
succeed, the third is denied, and succeeds after an exit has freed a slot. -/
theorem wiegand1_action_entry_quota (L : labels_t) (w : world_t) (v : Nat) (id : String)
    (n q : Nat)
    (hact : w.nvs.activate = some 1) (hfaults : w.faults = [])
    (hdb : checkIf_wiegandExist w ("$" ++ lld v) = some id)
    (hrole : (search_and_parse w id).permition = '0' ∨
      (search_and_parse w id).permition = '1' ∨ (search_and_parse w id).permition = '2')
    (habsent : ¬ marked_present w.nvs (lld v))
    (hn : w.nvs.people_number = some n) (hq : w.nvs.people_counter = some q)
    (hn32 : n < 2 ^ 32) (hq32 : q < 2 ^ 32) :
    (n < q →
      (wiegand1_action L w v).dispatched
        = w.dispatched ++ [⟨v, L.WIEGAND_NORMAL_MODE_LABEL, 1, 1⟩] ∧
      (wiegand1_action L w v).nvs.people_number = some (n + 1) ∧
      ((wiegand1_action L w v).nvs.ns
          (role_namespace (search_and_parse w id).permition)).lookup (lld v) = some "1" ∧
      (wiegand1_action L w v).nvs =
        (w.nvs.put NVS_ANTIPASSBACK_PEOPLE_NUMBER (n + 1)).set_ns
          (role_namespace (search_and_parse w id).permition)
          ((lld v, "1") :: w.nvs.ns (role_namespace (search_and_parse w id).permition))) ∧
    (q ≤ n →
      (wiegand1_action L w v).dispatched = w.dispatched ∧
      (wiegand1_action L w v).nvs = w.nvs) ∧
    (let w2 := wiegand1_action example_labels quota_world_inside 22
     let w3 := wiegand1_action example_labels w2 33
     let w4 := wiegand2_action example_labels w3 11
     let w5 := wiegand1_action example_labels w4 33
     w2.dispatched = [⟨11, 0, 1, 1⟩, ⟨22, 0, 1, 1⟩] ∧
     w2.nvs.people_number = some 2 ∧
     w3.dispatched = w2.dispatched ∧ w3.nvs = w2.nvs ∧
     w4.nvs.people_number = some 1 ∧
     w5.dispatched = w4.dispatched ++ [⟨33, 0, 1, 1⟩] ∧
     w5.nvs.people_number = some 2) := by
  have h :
      (n < q →
        (wiegand1_action L w v).dispatched
          = w.dispatched ++ [⟨v, L.WIEGAND_NORMAL_MODE_LABEL, 1, 1⟩] ∧
        (wiegand1_action L w v).nvs.people_number = some (n + 1) ∧
        (wiegand1_action L w v).nvs =
          (w.nvs.put NVS_ANTIPASSBACK_PEOPLE_NUMBER (n + 1)).set_ns
            (role_namespace (search_and_parse w id).permition)
            ((lld v, "1") :: w.nvs.ns (role_namespace (search_and_parse w id).permition))) ∧
      (q ≤ n →
        (wiegand1_action L w v).dispatched = w.dispatched ∧
        (wiegand1_action L w v).nvs = w.nvs) := by
    have hab := (marked_present_iff w.nvs (lld v)).not.mp habsent
    unfold wiegand1_action
    have hdb' : List.lookup ("$" ++ lld v) w.wiegand_codes = some id := hdb
    simp only [get_INT8_ok, hfaults, nvs_t.get, hact, hdb', checkIf_wiegandExist,
      get_antipassback_user_ok, nvs_get_u32_ok, nvs_set_u32_ok, hab, hn, hq,
      Option.getD_some, Option.map_some', Option.isSome_some, if_true, if_false,
      Nat.mod_eq_of_lt hn32, Nat.mod_eq_of_lt hq32, Nat.one_mod, ne_eq, one_ne_zero,
      not_false_eq_true, ge_iff_le, search_and_parse]
    simp only [search_and_parse] at hrole
    constructor
    · intro hnq
      have hnq' : ¬ q ≤ n := by omega
      have hmod : (n + 1) % 2 ^ 32 = n + 1 := Nat.mod_eq_of_lt (by omega)
      simp only [hnq', if_false, hmod]
      rw [set_antipassback_user_ok _ _ _ rfl hrole]
      simp only [if_true]
      refine ⟨(wiegand_parse_getData_log _ _ _ _ _ _ _).1, ?_, ?_⟩
      · rw [(wiegand_parse_getData_log _ _ _ _ _ _ _).2.1]
        cases role_namespace ((List.lookup id w.user_records).getD {}).permition <;> rfl
      · rw [(wiegand_parse_getData_log _ _ _ _ _ _ _).2.1]
        show nvs_t.set_ns _ _ _ = _
        rw [ns_put, filter_ne_of_lookup_none _ _ (lookup_none_of_not_marked _ _ habsent _)]
    · intro hqn
      simp [hqn]
  refine ⟨?_, h.2, by decide⟩
  intro hnq
  obtain ⟨h1, h2, h3⟩ := h.1 hnq
  refine ⟨h1, h2, ?_, h3⟩
  rw [h3, ns_set_ns_same]
  simp

/-- C8 (witness): the first entry into `quota_world` (quota 2, count 0). -/
theorem wiegand1_action_entry_quota_witness :
    (quota_world.nvs.activate = some 1 ∧ quota_world.faults = [] ∧
      checkIf_wiegandExist quota_world ("$" ++ lld 11) = some "a" ∧
      (search_and_parse quota_world "a").permition = '0' ∧
      quota_world.nvs.people_number = some 0 ∧
      quota_world.nvs.people_counter = some 2) ∧
    (wiegand1_action example_labels quota_world 11).dispatched
      = quota_world.dispatched ++ [⟨11, example_labels.WIEGAND_NORMAL_MODE_LABEL, 1, 1⟩] ∧
    (wiegand1_action example_labels quota_world 11).nvs.people_number = some (0 + 1) :=
  ⟨⟨by decide, by decide, by decide, by decide, by decide, by decide⟩,
    ((wiegand1_action_entry_quota example_labels quota_world 11 "a" 0 2 (by decide)
      (by decide) (by decide) (Or.inl (by decide))
      (by rintro ⟨h, hh⟩; cases h <;> exact absurd hh (by decide))
      (by decide) (by decide) (by decide) (by decide)).1 (by decide)).1,
    ((wiegand1_action_entry_quota example_labels quota_world 11 "a" 0 2 (by decide)
      (by decide) (by decide) (Or.inl (by decide))
      (by rintro ⟨h, hh⟩; cases h <;> exact absurd hh (by decide))
      (by decide) (by decide) (by decide) (by decide)).1 (by decide)).2.1⟩

/-- No second entry before an exit when the store answers: with antipassback
activated and the store operations of the call succeeding, when a credential that
is in the user database is already marked present in any of the three
role namespaces, `wiegand1_action` does not dispatch it and changes no
persisted value. -/
theorem wiegand1_action_no_second_entry (L : labels_t) (w : world_t) (v : Nat) (id : String)
    (hact : w.nvs.activate = some 1) (hfaults : w.faults = [])
    (hdb : checkIf_wiegandExist w ("$" ++ lld v) = some id)
    (hpresent : marked_present w.nvs (lld v)) :
    (wiegand1_action L w v).dispatched = w.dispatched ∧
    (wiegand1_action L w v).nvs = w.nvs := by
  have hp := (marked_present_iff w.nvs (lld v)).mp hpresent
  have hdb' : List.lookup ("$" ++ lld v) w.wiegand_codes = some id := hdb
  unfold wiegand1_action
  simp only [get_INT8_ok, hfaults, nvs_t.get, hact, hdb', checkIf_wiegandExist,
    get_antipassback_user_ok, hp, Option.getD_some, if_true, Nat.one_mod, ne_eq,
    not_true_eq_false, if_false, and_self]

/-- Credential 11 presented again after it has entered, the store operations
succeeding: nothing is dispatched and the store is unchanged. -/
theorem wiegand1_action_no_second_entry_witness :
    (quota_world_inside.nvs.activate = some 1 ∧ quota_world_inside.faults = [] ∧
      checkIf_wiegandExist quota_world_inside ("$" ++ lld 11) = some "a" ∧
      (quota_world_inside.nvs.ns antipassback_handle_t.USER).lookup (lld 11) = some "1") ∧
    (wiegand1_action example_labels quota_world_inside 11).dispatched
      = quota_world_inside.dispatched ∧
    (wiegand1_action example_labels quota_world_inside 11).nvs = quota_world_inside.nvs :=
  ⟨⟨by decide, by decide, by decide, by decide⟩,
    wiegand1_action_no_second_entry example_labels quota_world_inside 11 "a"
      (by decide) (by decide) (by decide) ⟨antipassback_handle_t.USER, by decide⟩⟩

/-- C9 (failing input): no second entry before an exit.  In
`presence_read_fails_world` antipassback is activated, credential 11 is in the
user database and is marked present in the USER role namespace, the count is 1
and the quota 2; the lookup of its presence record fails.
`get_antipassback_user` reports the failed lookup as not found, and
`wiegand1_action` dispatches the credential a second time and persists the
count 2. -/
theorem wiegand1_action_second_entry_after_failed_lookup :
    presence_read_fails_world.nvs.activate = some 1 ∧
    checkIf_wiegandExist presence_read_fails_world ("$" ++ lld 11) = some "a" ∧
    (presence_read_fails_world.nvs.ns antipassback_handle_t.USER).lookup (lld 11)
      = some "1" ∧
    presence_read_fails_world.nvs.people_number = some 1 ∧
    (wiegand1_action example_labels presence_read_fails_world 11).dispatched =
      presence_read_fails_world.dispatched ++
        [⟨11, example_labels.WIEGAND_NORMAL_MODE_LABEL, 1, 1⟩] ∧
    (wiegand1_action example_labels presence_read_fails_world 11).nvs.people_number =
      some 2 ∧
    (wiegand1_action example_labels presence_read_fails_world 11).faults = [] := by
  decide

/-- C10: authorized exit.  With antipassback activated, for a credential in the
user database that is marked present under the key the exit reader checks (the
stored `wiegand_code` of the user record), with persisted current count above 0
and every store operation succeeding, `wiegand2_action` decreases the persisted
current count by exactly 1, erases the credential (the decimal text of its value)
from all three role namespaces, and dispatches it exactly once for reader 2, with
relay directive 2 if the persisted antipassback mode is 2 and 1 otherwise. -/
theorem wiegand2_action_authorized_exit (L : labels_t) (w : world_t) (v : Nat) (id : String)
    (n m : Nat)
    (hact : w.nvs.activate = some 1) (hfaults : w.faults = [])
    (hdb : checkIf_wiegandExist w ("$" ++ lld v) = some id)
    (hpresent : marked_present w.nvs (search_and_parse w id).wiegand_code)
    (hn : w.nvs.people_number = some n) (hpos : 0 < n) (hn32 : n < 2 ^ 32)
    (hmode : w.nvs.mode = some m) (hm : m < 256) :
    (wiegand2_action L w v).nvs.people_number = some (n - 1) ∧
    (∀ h : antipassback_handle_t,
      ((wiegand2_action L w v).nvs.ns h).lookup (lld v) = none ∧
      (wiegand2_action L w v).nvs.ns h = (w.nvs.ns h).filter (fun e => e.1 ≠ lld v)) ∧
    (wiegand2_action L w v).dispatched =
      w.dispatched ++
        [⟨v, L.WIEGAND_NORMAL_MODE_LABEL, if m = 2 then 2 else 1, 2⟩] ∧
    (wiegand2_action L w v).nvs.activate = w.nvs.activate ∧
    (wiegand2_action L w v).nvs.mode = w.nvs.mode ∧
    (wiegand2_action L w v).nvs.people_counter = w.nvs.people_counter := by
  have hp := (marked_present_iff w.nvs _).mp hpresent
  have hdb' : List.lookup ("$" ++ lld v) w.wiegand_codes = some id := hdb
  simp only [search_and_parse] at hp
  have hne : n ≠ 0 := by omega
  have hmod : (n - 1) % 2 ^ 32 = n - 1 := Nat.mod_eq_of_lt (by omega)
  unfold wiegand2_action
  simp only [get_INT8_ok, hfaults, nvs_t.get, hact, hdb', checkIf_wiegandExist,
    get_antipassback_user_ok, nvs_get_u32_ok, nvs_set_u32_ok, hp, hn,
    Option.getD_some, Option.map_some', Option.isSome_some, if_true, if_false,
    Nat.mod_eq_of_lt hn32, Nat.one_mod, search_and_parse, hne, hmod, nvs_t.put, hmode,
    Nat.mod_eq_of_lt hm, erase_antipassback_user_ok, wiegand_parse_getData_log]
  refine ⟨trivial, ?_, trivial, trivial, trivial, trivial⟩
  intro h
  cases h
  · exact ⟨lookup_filter_ne _ _, rfl⟩
  · exact ⟨lookup_filter_ne _ _, rfl⟩
  · exact ⟨lookup_filter_ne _ _, rfl⟩

/-- C10 (witness): credential 11 leaves after it has entered; the mode is 1, so the
relay directive is 1. -/
theorem wiegand2_action_authorized_exit_witness :
    (quota_world_inside.nvs.activate = some 1 ∧ quota_world_inside.faults = [] ∧
      checkIf_wiegandExist quota_world_inside ("$" ++ lld 11) = some "a" ∧
      quota_world_inside.nvs.people_number = some 1 ∧
      quota_world_inside.nvs.mode = some 1) ∧
    (wiegand2_action example_labels quota_world_inside 11).nvs.people_number
      = some (1 - 1) ∧
    (wiegand2_action example_labels quota_world_inside 11).dispatched =
      quota_world_inside.dispatched ++
        [⟨11, example_labels.WIEGAND_NORMAL_MODE_LABEL, if 1 = 2 then 2 else 1, 2⟩] :=
  ⟨⟨by decide, by decide, by decide, by decide, by decide⟩,
    (wiegand2_action_authorized_exit example_labels quota_world_inside 11 "a" 1 1
      (by decide) (by decide) (by decide) ⟨antipassback_handle_t.USER, by decide⟩
      (by decide) (by decide) (by decide) (by decide) (by decide)).1,
    (wiegand2_action_authorized_exit example_labels quota_world_inside 11 "a" 1 1
      (by decide) (by decide) (by decide) ⟨antipassback_handle_t.USER, by decide⟩
      (by decide) (by decide) (by decide) (by decide) (by decide)).2.2.1⟩

/-! ## The antipassback ledger under store failures -/

theorem same_but_faults_refl (w : world_t) : same_but_faults w w := rfl

theorem same_but_faults_trans {a b c : world_t} (h1 : same_but_faults a b)
    (h2 : same_but_faults b c) : same_but_faults a c := by
  unfold same_but_faults at *
  rw [h2, h1]

theorem same_but_faults_nvs {w w' : world_t} (h : same_but_faults w w') :
    w'.nvs = w.nvs := by
  unfold same_but_faults at h
  rw [h]

theorem same_but_faults_dispatched {w w' : world_t} (h : same_but_faults w w') :
    w'.dispatched = w.dispatched := by
  unfold same_but_faults at h
  rw [h]

theorem pop_fault_same (w : world_t) :
    same_but_faults w (pop_fault w).2 ∧ (pop_fault w).2.faults = w.faults.tail := by
  unfold pop_fault same_but_faults
  cases h : w.faults with
  | nil => exact ⟨rfl, h⟩
  | cons f fs => exact ⟨rfl, rfl⟩

theorem get_INT8_same (w : world_t) (key : nvs_key_t) :
    same_but_faults w (get_INT8_Data_From_Storage w key).2 ∧
    (get_INT8_Data_From_Storage w key).2.faults = w.faults.tail := by
  unfold get_INT8_Data_From_Storage
  have h := pop_fault_same w
  rcases hp : pop_fault w with ⟨f, w1⟩
  rw [hp] at h
  simp only at h ⊢
  split
  · exact h
  · split <;> exact h

theorem nvs_get_str_same (w : world_t) (hd : antipassback_handle_t) (key : String) :
    same_but_faults w (nvs_get_str w hd key).2 ∧
    ((w.nvs.ns hd).lookup key = none → (nvs_get_str w hd key).1 ≠ ESP_OK) := by
  unfold nvs_get_str
  have h := (pop_fault_same w).1
  rcases hp : pop_fault w with ⟨f, w1⟩
  rw [hp] at h
  simp only at h
  have hn : w1.nvs = w.nvs := same_but_faults_nvs h
  simp only
  split
  · exact ⟨h, fun _ => (by decide : ESP_FAIL ≠ ESP_OK)⟩
  · rw [hn]
    split
    · rename_i x hx
      exact ⟨h, fun hl => by rw [hl] at hx; cases hx⟩
    · exact ⟨h, fun _ => (by decide : ESP_ERR_NVS_NOT_FOUND ≠ ESP_OK)⟩

theorem get_antipassback_user_same (w : world_t) (key : String) :
    same_but_faults w (get_antipassback_user w key).2 ∧
    (¬ marked_present w.nvs key → (get_antipassback_user w key).1 = 1) := by
  unfold get_antipassback_user
  have h1 := nvs_get_str_same w antipassback_handle_t.USER key
  rcases hp1 : nvs_get_str w antipassback_handle_t.USER key with ⟨r1, w1⟩
  rw [hp1] at h1
  have h2 := nvs_get_str_same w1 antipassback_handle_t.ADMIN key
  rcases hp2 : nvs_get_str w1 antipassback_handle_t.ADMIN key with ⟨r2, w2⟩
  rw [hp2] at h2
  have h3 := nvs_get_str_same w2 antipassback_handle_t.OWNER key
  rcases hp3 : nvs_get_str w2 antipassback_handle_t.OWNER key with ⟨r3, w3⟩
  rw [hp3] at h3
  simp only at h1 h2 h3
  have e1 : w1.nvs = w.nvs := same_but_faults_nvs h1.1
  have e2 : w2.nvs = w.nvs := (same_but_faults_nvs h2.1).trans e1
  simp only [hp2, hp3]
  by_cases c1 : r1 = ESP_OK
  · simp only [c1, if_true]
    exact ⟨h1.1, fun hn => absurd c1 (h1.2 (lookup_none_of_not_marked _ _ hn _))⟩
  · simp only [c1, if_false]
    by_cases c2 : r2 = ESP_OK
    · simp only [c2, if_true]
      exact ⟨same_but_faults_trans h1.1 h2.1,
        fun hn => absurd c2 (h2.2 (by rw [e1]; exact lookup_none_of_not_marked _ _ hn _))⟩
    · simp only [c2, if_false]
      by_cases c3 : r3 = ESP_OK
      · simp only [c3, if_true]
        exact ⟨same_but_faults_trans (same_but_faults_trans h1.1 h2.1) h3.1,
          fun hn => absurd c3 (h3.2 (by rw [e2]; exact lookup_none_of_not_marked _ _ hn _))⟩
      · simp only [c3, if_false]
        exact ⟨same_but_faults_trans (same_but_faults_trans h1.1 h2.1) h3.1, fun _ => trivial⟩

theorem same_but_faults_codes {w w' : world_t} (h : same_but_faults w w') :
    w'.wiegand_codes = w.wiegand_codes ∧ w'.user_records = w.user_records := by
  unfold same_but_faults at h
  rw [h]
  exact ⟨rfl, rfl⟩

theorem wiegand_actions_when_inactive (L : labels_t) (w : world_t) (v : Nat)
    (h : (get_INT8_Data_From_Storage w NVS_ANTIPASSBACK_ACTIVATE_LABEL).1 ≠ 1) :
    ((wiegand1_action L w v).dispatched
        = w.dispatched ++ [⟨v, L.WIEGAND_NORMAL_MODE_LABEL, 1, 1⟩] ∧
      (wiegand1_action L w v).nvs = w.nvs ∧
      (wiegand1_action L w v).faults = w.faults.tail) ∧
    ((wiegand2_action L w v).dispatched
        = w.dispatched ++ [⟨v, L.WIEGAND_NORMAL_MODE_LABEL, 2, 2⟩] ∧
      (wiegand2_action L w v).nvs = w.nvs ∧
      (wiegand2_action L w v).faults = w.faults.tail) := by
  have hs := get_INT8_same w NVS_ANTIPASSBACK_ACTIVATE_LABEL
  rcases hg : get_INT8_Data_From_Storage w NVS_ANTIPASSBACK_ACTIVATE_LABEL with ⟨act, w1⟩
  rw [hg] at h hs
  simp only at h hs
  have hd := same_but_faults_dispatched hs.1
  have hn := same_but_faults_nvs hs.1
  constructor
  · unfold wiegand1_action
    simp only [hg, h, if_false, Nat.zero_ne_one]
    obtain ⟨l1, l2, l3⟩ := wiegand_parse_getData_log L
      { w1 with anti_passback_activation := 0 } v none L.WIEGAND_NORMAL_MODE_LABEL 1 1
    exact ⟨by rw [l1]; show w1.dispatched ++ _ = _; rw [hd],
      by rw [l2]; exact hn, by rw [l3]; exact hs.2⟩
  · unfold wiegand2_action
    simp only [hg, h, if_false, Nat.zero_ne_one]
    obtain ⟨l1, l2, l3⟩ := wiegand_parse_getData_log L
      { w1 with anti_passback_activation := 0 } v none L.WIEGAND_NORMAL_MODE_LABEL 2 2
    exact ⟨by rw [l1]; show w1.dispatched ++ _ = _; rw [hd],
      by rw [l2]; exact hn, by rw [l3]; exact hs.2⟩

/-- Denied exit: with the activation flag read as 1 and the credential in
the user database, when the credential is not marked present in any of the
three role namespaces under the key the exit reader checks (the stored
`wiegand_code` of the user record), whatever the store operations return, or
when every store operation succeeds and the persisted current count is 0,
`wiegand2_action` dispatches nothing and leaves the whole persisted store, the
current count and every presence record included, unchanged. -/
theorem wiegand2_action_denied_exit (L : labels_t) (w : world_t) (v : Nat) (id : String)
    (hact : (get_INT8_Data_From_Storage w NVS_ANTIPASSBACK_ACTIVATE_LABEL).1 = 1)
    (hdb : checkIf_wiegandExist w ("$" ++ lld v) = some id) :
    (¬ marked_present w.nvs (search_and_parse w id).wiegand_code →
      (wiegand2_action L w v).dispatched = w.dispatched ∧
      (wiegand2_action L w v).nvs = w.nvs) ∧
    (w.faults = [] → w.nvs.people_number = some 0 →
      (wiegand2_action L w v).dispatched = w.dispatched ∧
      (wiegand2_action L w v).nvs = w.nvs) := by
  constructor
  · intro hnot
    have hs := get_INT8_same w NVS_ANTIPASSBACK_ACTIVATE_LABEL
    rcases hg : get_INT8_Data_From_Storage w NVS_ANTIPASSBACK_ACTIVATE_LABEL with ⟨act, w1⟩
    rw [hg] at hact hs
    simp only at hact hs
    subst hact
    have hc := same_but_faults_codes hs.1
    have hn := same_but_faults_nvs hs.1
    have hdb' : List.lookup ("$" ++ lld v) w1.wiegand_codes = some id := by
      rw [hc.1]; exact hdb
    unfold wiegand2_action
    simp only [hg, if_true, checkIf_wiegandExist, hdb', search_and_parse]
    generalize hga : get_antipassback_user _ _ = res
    have hu := get_antipassback_user_same { w1 with anti_passback_activation := 1 }
      ((List.lookup id w1.user_records).getD {}).wiegand_code
    rw [hga] at hu
    have hack : res.1 = 1 := hu.2 (by
      show ¬ marked_present w1.nvs _
      rw [hn, hc.2]; exact hnot)
    simp only [hack, one_ne_zero, if_false]
    have hd : w1.dispatched = w.dispatched := same_but_faults_dispatched hs.1
    exact ⟨(same_but_faults_dispatched hu.1).trans hd, (same_but_faults_nvs hu.1).trans hn⟩
  · intro hf hzero
    have hg : get_INT8_Data_From_Storage w NVS_ANTIPASSBACK_ACTIVATE_LABEL = (1, w) := by
      rw [get_INT8_ok _ _ hf] at hact ⊢
      simp only at hact
      rw [hact]
    have hdb' : List.lookup ("$" ++ lld v) w.wiegand_codes = some id := hdb
    unfold wiegand2_action
    simp only [hg, hdb', checkIf_wiegandExist, if_true]
    simp only [get_antipassback_user_ok, hf]
    split
    · simp only [nvs_get_u32_ok, hf, nvs_t.get, hzero, Option.map_some', Option.getD_some,
        Option.isSome_some, Nat.zero_mod, if_true, and_self]
    · exact ⟨rfl, rfl⟩

/-- Credential 11 is enrolled but nobody is inside `quota_world`, and the current
count is 0: with the store operations succeeding the exit is denied. -/
theorem wiegand2_action_denied_exit_witness :
    ((get_INT8_Data_From_Storage quota_world NVS_ANTIPASSBACK_ACTIVATE_LABEL).1 = 1 ∧
      checkIf_wiegandExist quota_world ("$" ++ lld 11) = some "a" ∧
      quota_world.faults = [] ∧ quota_world.nvs.people_number = some 0) ∧
    (wiegand2_action example_labels quota_world 11).dispatched = quota_world.dispatched ∧
    (wiegand2_action example_labels quota_world 11).nvs = quota_world.nvs :=
  ⟨⟨by decide, by decide, by decide, by decide⟩,
    (wiegand2_action_denied_exit example_labels quota_world 11 "a" (by decide)
      (by decide)).2 (by decide) (by decide)⟩

/-- C11 (failing input): denied exit at the persisted count 0.  In
`count_read_fails_world` antipassback is activated, credential 11 is in the user
database and marked present, the persisted current count is 0 and the variable
`anti_passback_people_number` still holds 1; the read of the current count
fails.  `wiegand2_action` does not test the result of the read: it decrements
the stale variable, dispatches the credential for reader 2 and erases its
presence record. -/
theorem wiegand2_action_exit_after_failed_count_read :
    count_read_fails_world.nvs.activate = some 1 ∧
    checkIf_wiegandExist count_read_fails_world ("$" ++ lld 11) = some "a" ∧
    (count_read_fails_world.nvs.ns antipassback_handle_t.USER).lookup
      (search_and_parse count_read_fails_world "a").wiegand_code = some "1" ∧
    count_read_fails_world.nvs.people_number = some 0 ∧
    count_read_fails_world.anti_passback_people_number = 1 ∧
    (wiegand2_action example_labels count_read_fails_world 11).dispatched =
      count_read_fails_world.dispatched ++
        [⟨11, example_labels.WIEGAND_NORMAL_MODE_LABEL, 1, 2⟩] ∧
    (wiegand2_action example_labels count_read_fails_world 11).nvs.people_number =
      some 0 ∧
    ((wiegand2_action example_labels count_read_fails_world 11).nvs.ns
      antipassback_handle_t.USER).lookup (lld 11) = none ∧
    (wiegand2_action example_labels count_read_fails_world 11).faults = [] := by
  decide

theorem same_but_faults_counts {w w' : world_t} (h : same_but_faults w w') :
    w'.anti_passback_people_number = w.anti_passback_people_number ∧
    w'.antipassback_peopleCounter = w.antipassback_peopleCounter := by
  unfold same_but_faults at h
  rw [h]
  exact ⟨rfl, rfl⟩

theorem wiegand_parse_getData_counts (L : labels_t) (w : world_t) (v : Nat)
    (kp : Option String) (mode relay reader : Nat) :
    (wiegand_parse_getData L w v kp mode relay reader).2.anti_passback_people_number
        = w.anti_passback_people_number ∧
    (wiegand_parse_getData L w v kp mode relay reader).2.antipassback_peopleCounter
        = w.antipassback_peopleCounter := by
  unfold wiegand_parse_getData
  simp only
  split
  · split <;> exact ⟨rfl, rfl⟩
  · exact ⟨rfl, rfl⟩

theorem action_run_take_succ (L : labels_t) (w : world_t) (calls : List action_call)
    (k : Nat) (c : action_call) (hc : calls.get? k = some c) :
    action_run L w (calls.take (k + 1)) = action_step L (action_run L w (calls.take k)) c := by
  unfold action_run
  rw [List.take_succ, List.foldl_append]
  rw [List.get?_eq_getElem?] at hc
  rw [hc]
  rfl

/-- C12. Antipassback inactive: when the activation flag read from the store at
the start of the call is not 1, `wiegand1_action` dispatches the credential value
exactly once with relay directive 1 for reader 1 and `wiegand2_action` dispatches
it exactly once with relay directive 2 for reader 2; the persisted store (quota,
current count, mode, flag, presence records) is unchanged, the read of the flag
is the only store operation of the call, and the in-memory copies of the current
count and of the quota keep their values (neither is read). -/
theorem wiegand_actions_inactive (L : labels_t) (w : world_t) (v : Nat)
    (h : (get_INT8_Data_From_Storage w NVS_ANTIPASSBACK_ACTIVATE_LABEL).1 ≠ 1) :
    ((wiegand1_action L w v).dispatched
        = w.dispatched ++ [⟨v, L.WIEGAND_NORMAL_MODE_LABEL, 1, 1⟩] ∧
      (wiegand1_action L w v).nvs = w.nvs ∧
      (wiegand1_action L w v).faults = w.faults.tail ∧
      (wiegand1_action L w v).anti_passback_people_number = w.anti_passback_people_number ∧
      (wiegand1_action L w v).antipassback_peopleCounter = w.antipassback_peopleCounter) ∧
    ((wiegand2_action L w v).dispatched
        = w.dispatched ++ [⟨v, L.WIEGAND_NORMAL_MODE_LABEL, 2, 2⟩] ∧
      (wiegand2_action L w v).nvs = w.nvs ∧
      (wiegand2_action L w v).faults = w.faults.tail ∧
      (wiegand2_action L w v).anti_passback_people_number = w.anti_passback_people_number ∧
      (wiegand2_action L w v).antipassback_peopleCounter = w.antipassback_peopleCounter) := by
  have hs := get_INT8_same w NVS_ANTIPASSBACK_ACTIVATE_LABEL
  obtain ⟨⟨a1, a2, a3⟩, b1, b2, b3⟩ := wiegand_actions_when_inactive L w v h
  rcases hg : get_INT8_Data_From_Storage w NVS_ANTIPASSBACK_ACTIVATE_LABEL with ⟨act, w1⟩
  rw [hg] at h hs
  simp only at h hs
  obtain ⟨c1, c2⟩ := same_but_faults_counts hs.1
  refine ⟨⟨a1, a2, a3, ?_⟩, b1, b2, b3, ?_⟩
  · unfold wiegand1_action
    simp only [hg, h, if_false, Nat.zero_ne_one]
    obtain ⟨l1, l2⟩ := wiegand_parse_getData_counts L
      { w1 with anti_passback_activation := 0 } v none L.WIEGAND_NORMAL_MODE_LABEL 1 1
    exact ⟨l1.trans c1, l2.trans c2⟩
  · unfold wiegand2_action
    simp only [hg, h, if_false, Nat.zero_ne_one]
    obtain ⟨l1, l2⟩ := wiegand_parse_getData_counts L
      { w1 with anti_passback_activation := 0 } v none L.WIEGAND_NORMAL_MODE_LABEL 2 2
    exact ⟨l1.trans c1, l2.trans c2⟩

/-- C12 (witness): credential 7 at both readers of a store that was never
activated. -/
theorem wiegand_actions_inactive_witness :
    (get_INT8_Data_From_Storage {} NVS_ANTIPASSBACK_ACTIVATE_LABEL).1 ≠ 1 ∧
    (wiegand1_action example_labels {} 7).dispatched
      = [] ++ [⟨7, example_labels.WIEGAND_NORMAL_MODE_LABEL, 1, 1⟩] ∧
    (wiegand2_action example_labels {} 7).dispatched
      = [] ++ [⟨7, example_labels.WIEGAND_NORMAL_MODE_LABEL, 2, 2⟩] :=
  ⟨by decide,
    (wiegand_actions_inactive example_labels {} 7 (by decide)).1.1,
    (wiegand_actions_inactive example_labels {} 7 (by decide)).2.1⟩

/-- C13 (failing input): the store operations of the two action functions are not
all checked.  In `count_write_fails_world` the write of the new current count
fails during the entry of credential 11: `wiegand1_action` still dispatches the
credential, and the persisted count stays 0.  In `exit_write_fails_world` the
write of the new current count fails during its exit: `wiegand2_action` still
dispatches the credential, and the persisted count stays 1. -/
theorem wiegand_actions_fail_open :
    ((wiegand1_action example_labels count_write_fails_world 11).dispatched =
        [⟨11, example_labels.WIEGAND_NORMAL_MODE_LABEL, 1, 1⟩] ∧
      (wiegand1_action example_labels count_write_fails_world 11).nvs.people_number =
        some 0 ∧
      (wiegand1_action example_labels count_write_fails_world 11).faults = []) ∧
    ((wiegand2_action example_labels exit_write_fails_world 11).dispatched =
        exit_write_fails_world.dispatched ++
          [⟨11, example_labels.WIEGAND_NORMAL_MODE_LABEL, 1, 2⟩] ∧
      (wiegand2_action example_labels exit_write_fails_world 11).nvs.people_number =
        some 1 ∧
      (wiegand2_action example_labels exit_write_fails_world 11).faults = []) := by
  decide

/-- C14 (failing input): `wiegand1_action` persists the incremented count before
it writes the presence record.  For credential 11 with the role tag `'3'`, and
for credential 11 with the role tag `'0'` when the write of the presence record
fails, nothing is dispatched and the persisted current count has gone from 0 to
1. -/
theorem wiegand1_action_denial_keeps_increment :
    (unknown_role_world.nvs.people_number = some 0 ∧
      (wiegand1_action example_labels unknown_role_world 11).dispatched = [] ∧
      (wiegand1_action example_labels unknown_role_world 11).nvs.people_number = some 1) ∧
    (presence_write_fails_world.nvs.people_number = some 0 ∧
      (wiegand1_action example_labels presence_write_fails_world 11).dispatched = [] ∧
      (wiegand1_action example_labels presence_write_fails_world 11).nvs.people_number =
        some 1) := by
  decide

/-- C15 (failing input): credential 22 is not in the user database and has a
presence record in the ADMIN namespace.  Both action functions dispatch nothing;
after `wiegand1_action`, which erases the key from the USER namespace only, the
record is still there and `get_antipassback_user` finds it (result 0); after
`wiegand2_action`, which calls `erase_antipassback_user`, it is gone. -/
theorem wiegand1_action_orphan_left_behind :
    checkIf_wiegandExist orphan_world ("$" ++ lld 22) = none ∧
    orphan_world.faults = [] ∧
    (wiegand1_action example_labels orphan_world 22).dispatched = [] ∧
    (wiegand1_action example_labels orphan_world 22).nvs.antipassback_ADMIN = [("22", "1")] ∧
    (get_antipassback_user (wiegand1_action example_labels orphan_world 22) (lld 22)).1 = 0 ∧
    (wiegand2_action example_labels orphan_world 22).dispatched = [] ∧
    (wiegand2_action example_labels orphan_world 22).nvs.antipassback_ADMIN = [] ∧
    (get_antipassback_user (wiegand2_action example_labels orphan_world 22) (lld 22)).1 = 1 := by
  decide

/-! ## The counter invariant over sequences of calls -/

theorem set_ns_system (n : nvs_t) (h : antipassback_handle_t) (l : List (String × String)) :
    (n.set_ns h l).people_number = n.people_number ∧
    (n.set_ns h l).people_counter = n.people_counter ∧
    (n.set_ns h l).activate = n.activate ∧ (n.set_ns h l).mode = n.mode := by
  cases h <;> exact ⟨rfl, rfl, rfl, rfl⟩

theorem set_antipassback_user_frame (w : world_t) (key : String) (c : Char)
    (hf : w.faults = []) :
    (set_antipassback_user w key c).2.faults = [] ∧
    (set_antipassback_user w key c).2.nvs.people_number = w.nvs.people_number ∧
    (set_antipassback_user w key c).2.nvs.people_counter = w.nvs.people_counter ∧
    (set_antipassback_user w key c).2.dispatched = w.dispatched := by
  unfold set_antipassback_user
  simp only [nvs_set_str_ok _ _ _ _ hf]
  split
  · exact ⟨hf, (set_ns_system _ _ _).1, (set_ns_system _ _ _).2.1, rfl⟩
  · split
    · exact ⟨hf, (set_ns_system _ _ _).1, (set_ns_system _ _ _).2.1, rfl⟩
    · split
      · exact ⟨hf, (set_ns_system _ _ _).1, (set_ns_system _ _ _).2.1, rfl⟩
      · exact ⟨hf, rfl, rfl, rfl⟩

theorem get_INT8_fst_snd (w : world_t) (key : nvs_key_t) (hf : w.faults = []) :
    get_INT8_Data_From_Storage w key = ((get_INT8_Data_From_Storage w key).1, w) := by
  rw [get_INT8_ok _ _ hf]

theorem wiegand1_action_counter (L : labels_t) (w : world_t) (v q n : Nat)
    (hf : w.faults = []) (hq : w.nvs.people_counter = some q)
    (hn : w.nvs.people_number = some n) (hq32 : q < 2 ^ 32) (hle : n ≤ q) :
    (wiegand1_action L w v).faults = [] ∧
    (wiegand1_action L w v).nvs.people_counter = some q ∧
    ((wiegand1_action L w v).nvs.people_number = some n ∨
      (n < q ∧ (wiegand1_action L w v).nvs.people_number = some (n + 1))) := by
  have hn32 : n < 2 ^ 32 := by omega
  by_cases ha : (get_INT8_Data_From_Storage w NVS_ANTIPASSBACK_ACTIVATE_LABEL).1 = 1
  · have hg := get_INT8_fst_snd w NVS_ANTIPASSBACK_ACTIVATE_LABEL hf
    rw [ha] at hg
    unfold wiegand1_action
    simp only [hg, if_true, checkIf_wiegandExist]
    cases hdb : List.lookup ("$" ++ lld v) w.wiegand_codes with
    | none =>
      simp only
      rw [nvs_erase_key_ok _ _ _ (by exact hf)]
      exact ⟨hf, by rw [← hq]; exact (set_ns_system _ _ _).2.1,
        Or.inl (by rw [← hn]; exact (set_ns_system _ _ _).1)⟩
    | some id =>
      simp only [get_antipassback_user_ok, hf]
      split
      · simp only [ne_eq, not_true_eq_false, if_false]
        exact ⟨trivial, hq, Or.inl hn⟩
      · simp only [ne_eq, one_ne_zero, not_false_eq_true, if_true, nvs_get_u32_ok, hf,
          nvs_t.get, hn, hq, Option.map_some', Option.getD_some, Option.isSome_some,
          Nat.mod_eq_of_lt hn32, Nat.mod_eq_of_lt hq32, ge_iff_le]
        by_cases hqn : q ≤ n
        · simp only [hqn, if_true]
          exact ⟨trivial, hq, Or.inl hn⟩
        · have hmod : (n + 1) % 2 ^ 32 = n + 1 := Nat.mod_eq_of_lt (by omega)
          simp only [hqn, if_false, hmod, nvs_set_u32_ok, hf]
          generalize hs : set_antipassback_user _ _ _ = res
          have hfr : res.2.faults = [] ∧ res.2.nvs.people_number = some (n + 1) ∧
              res.2.nvs.people_counter = some q := by
            rw [← hs]
            refine ⟨(set_antipassback_user_frame _ _ _ rfl).1,
              (set_antipassback_user_frame _ _ _ rfl).2.1.trans ?_,
              (set_antipassback_user_frame _ _ _ rfl).2.2.1.trans ?_⟩
            · rfl
            · exact hq
          have hlt : n < q := by omega
          split
          · obtain ⟨_, l2, l3⟩ := wiegand_parse_getData_log L res.2 v none
              L.WIEGAND_NORMAL_MODE_LABEL 1 1
            rw [l2, l3]
            exact ⟨hfr.1, hfr.2.2, Or.inr ⟨hlt, hfr.2.1⟩⟩
          · exact ⟨hfr.1, hfr.2.2, Or.inr ⟨hlt, hfr.2.1⟩⟩
  · obtain ⟨h1, _⟩ := wiegand_actions_when_inactive L w v ha
    rw [h1.2.1, h1.2.2, hf]
    exact ⟨rfl, hq, Or.inl hn⟩

theorem wiegand2_action_counter (L : labels_t) (w : world_t) (v q n : Nat)
    (hf : w.faults = []) (hq : w.nvs.people_counter = some q)
    (hn : w.nvs.people_number = some n) (hq32 : q < 2 ^ 32) (hle : n ≤ q) :
    (wiegand2_action L w v).faults = [] ∧
    (wiegand2_action L w v).nvs.people_counter = some q ∧
    ((wiegand2_action L w v).nvs.people_number = some n ∨
      (0 < n ∧ (wiegand2_action L w v).nvs.people_number = some (n - 1))) := by
  have hn32 : n < 2 ^ 32 := by omega
  by_cases ha : (get_INT8_Data_From_Storage w NVS_ANTIPASSBACK_ACTIVATE_LABEL).1 = 1
  · have hg := get_INT8_fst_snd w NVS_ANTIPASSBACK_ACTIVATE_LABEL hf
    rw [ha] at hg
    unfold wiegand2_action
    simp only [hg, if_true, checkIf_wiegandExist]
    cases hdb : List.lookup ("$" ++ lld v) w.wiegand_codes with
    | none =>
      simp only
      rw [erase_antipassback_user_ok _ _ (by exact hf)]
      exact ⟨hf, hq, Or.inl hn⟩
    | some id =>
      simp only [get_antipassback_user_ok, hf]
      split
      · simp only [if_true, nvs_get_u32_ok, hf,
          nvs_t.get, hn, hq, Option.map_some', Option.getD_some, Option.isSome_some,
          Nat.mod_eq_of_lt hn32, Nat.mod_eq_of_lt hq32]
        by_cases hz : n = 0
        · simp only [hz, if_true]
          subst hz
          exact ⟨trivial, hq, Or.inl hn⟩
        · have hmod : (n - 1) % 2 ^ 32 = n - 1 := Nat.mod_eq_of_lt (by omega)
          simp only [hz, if_false, hmod, nvs_set_u32_ok, hf, get_INT8_ok,
            erase_antipassback_user_ok, wiegand_parse_getData_log]
          exact ⟨trivial, hq, Or.inr ⟨by omega, rfl⟩⟩
      · simp only [one_ne_zero, if_false]
        exact ⟨trivial, hq, Or.inl hn⟩
  · obtain ⟨_, h2⟩ := wiegand_actions_when_inactive L w v ha
    rw [h2.2.1, h2.2.2, hf]
    exact ⟨rfl, hq, Or.inl hn⟩

theorem action_step_counter (L : labels_t) (q : Nat) (hq32 : q < 2 ^ 32) (w : world_t)
    (c : action_call) (h : counter_inv q w) : counter_inv q (action_step L w c) := by
  obtain ⟨hf, hq, n, hn, hle⟩ := h
  cases c with
  | entry v =>
    obtain ⟨h1, h2, h3⟩ := wiegand1_action_counter L w v q n hf hq hn hq32 hle
    refine ⟨h1, h2, ?_⟩
    rcases h3 with h3 | ⟨hlt, h3⟩
    · exact ⟨n, h3, hle⟩
    · exact ⟨n + 1, h3, hlt⟩
  | exit v =>
    obtain ⟨h1, h2, h3⟩ := wiegand2_action_counter L w v q n hf hq hn hq32 hle
    refine ⟨h1, h2, ?_⟩
    rcases h3 with h3 | ⟨_, h3⟩
    · exact ⟨n, h3, hle⟩
    · exact ⟨n - 1, h3, by omega⟩

theorem action_run_counter (L : labels_t) (q : Nat) (hq32 : q < 2 ^ 32)
    (calls : List action_call) (w : world_t) (h : counter_inv q w) :
    counter_inv q (action_run L w calls) := by
  induction calls generalizing w with
  | nil => exact h
  | cons c cs ih => exact ih _ (action_step_counter L q hq32 w c h)

/-- C16. Counter invariant for sequential calls: starting from a store whose
operations all succeed and whose persisted current count is between 0 and the
persisted quota `q`, after every call of a sequence of `wiegand1_action` and
`wiegand2_action` calls the operations still succeed, the quota is still `q` and
the current count is still between 0 and `q`; each call leaves the count as it
was, or is an entry made below the quota that adds one, or is an exit made above
0 that subtracts one. -/
theorem action_run_counter_invariant (L : labels_t) (q : Nat) (hq32 : q < 2 ^ 32)
    (calls : List action_call) (w : world_t) (h : counter_inv q w) :
    (∀ k, counter_inv q (action_run L w (calls.take k))) ∧
    (∀ (k n : Nat) (c : action_call), calls.get? k = some c →
      (action_run L w (calls.take k)).nvs.people_number = some n →
      (action_run L w (calls.take (k + 1))).nvs.people_number = some n ∨
      (∃ v, c = action_call.entry v ∧ n < q ∧
        (action_run L w (calls.take (k + 1))).nvs.people_number = some (n + 1)) ∨
      (∃ v, c = action_call.exit v ∧ 0 < n ∧
        (action_run L w (calls.take (k + 1))).nvs.people_number = some (n - 1))) := by
  have hall : ∀ k, counter_inv q (action_run L w (calls.take k)) :=
    fun k => action_run_counter L q hq32 (calls.take k) w h
  refine ⟨hall, ?_⟩
  intro k n c hc hn
  obtain ⟨hf, hq, n0, hn0, hle⟩ := hall k
  have hnn : n0 = n := by
    rw [hn0] at hn
    exact Option.some.inj hn
  subst hnn
  rw [action_run_take_succ L w calls k c hc]
  cases c with
  | entry v =>
    rcases (wiegand1_action_counter L _ v q n0 hf hq hn0 hq32 hle).2.2 with h3 | ⟨hlt, h3⟩
    · exact Or.inl h3
    · exact Or.inr (Or.inl ⟨v, rfl, hlt, h3⟩)
  | exit v =>
    rcases (wiegand2_action_counter L _ v q n0 hf hq hn0 hq32 hle).2.2 with h3 | ⟨hlt, h3⟩
    · exact Or.inl h3
    · exact Or.inr (Or.inr ⟨v, rfl, hlt, h3⟩)

/-- C16 (witness): three entries against the quota 2 followed by two exits of the
same credential. -/
theorem action_run_counter_invariant_witness :
    counter_inv 2 quota_world ∧
    counter_inv 2 (action_run example_labels quota_world
      (List.take 5 [action_call.entry 11, action_call.entry 22, action_call.entry 33,
        action_call.exit 11, action_call.exit 11])) :=
  ⟨⟨by decide, by decide, 0, by decide, by decide⟩,
    (action_run_counter_invariant example_labels 2 (by decide)
      [action_call.entry 11, action_call.entry 22, action_call.entry 33,
        action_call.exit 11, action_call.exit 11] quota_world
      ⟨by decide, by decide, 0, by decide, by decide⟩).1 5⟩

/-! ## Activation and deactivation -/

theorem digit_bounds (c : Char) (h : c.isDigit = true) : 48 ≤ c.toNat ∧ c.toNat ≤ 57 := by
  unfold Char.isDigit at h
  simp only [Bool.and_eq_true, decide_eq_true_eq] at h
  obtain ⟨h1, h2⟩ := h
  constructor
  · exact h1
  · exact h2

theorem digit_facts (c : Char) (h : c.isDigit = true) :
    c ≠ '.' ∧ c ≠ '-' ∧ c ≠ '+' ∧ c ≠ NUL ∧ c_isspace c = false := by
  have hb := digit_bounds c h
  refine ⟨?_, ?_, ?_, ?_, ?_⟩
  · rintro rfl; exact absurd h (by decide)
  · rintro rfl; exact absurd h (by decide)
  · rintro rfl; exact absurd h (by decide)
  · rintro rfl; exact absurd h (by decide)
  · unfold c_isspace
    have : c ≠ ' ' := by rintro rfl; exact absurd h (by decide)
    simp [this]
    omega



theorem nvs_set_u8_ok (w : world_t) (key : nvs_key_t) (v : Nat) (h : w.faults = []) :
    nvs_set_u8 w key v = (ESP_OK, { w with nvs := w.nvs.put key (v % 2 ^ 8) }) := by
  unfold nvs_set_u8
  rw [pop_fault_nil w h]
  simp

theorem takeWhile_not_NUL (cs : List Char) (h : ∀ c ∈ cs, c ≠ NUL) :
    cs.takeWhile (fun c => c ≠ NUL) = cs := by
  induction cs with
  | nil => rfl
  | cons c cs ih =>
    have hc : c ≠ NUL := h c (List.mem_cons_self _ _)
    rw [List.takeWhile_cons, ih (fun x hx => h x (List.mem_cons_of_mem _ hx))]
    simp [hc]

theorem activate_parse_digits (mode0 : Nat) (m : Char) (qs : List Char)
    (hm : m.isDigit = true) (hqs : ∀ c ∈ qs, c.isDigit = true) (h4 : qs.length ≤ 4) :
    activate_parse (m :: '.' :: qs) { wiegand_antipassback_mode := mode0 } =
      activate_parse_end.finished
        { aux := 1
          strIndex := qs.length
          wiegand_antipassback_mode := m.toNat - 48
          peopleCounter := qs ++ List.replicate (5 - qs.length) NUL
          written := (List.range qs.length).reverse } := by
  obtain ⟨m1, _, _, _, _⟩ := digit_facts m hm
  have hmb := digit_bounds m hm
  have hmode : (m.toNat + 208) % 256 = m.toNat - 48 := by omega
  have hdot : ∀ c ∈ qs, c ≠ '.' := fun c hc => (digit_facts c (hqs c hc)).1
  rcases qs with _ | ⟨c1, _ | ⟨c2, _ | ⟨c3, _ | ⟨c4, _ | ⟨c5, qs⟩⟩⟩⟩⟩
  · simp [activate_parse, m1, hmode]
  · have a1 := hdot c1 (by simp)
    simp [activate_parse, m1, hmode, a1, List.range_succ]
  · have a1 := hdot c1 (by simp)
    have a2 := hdot c2 (by simp)
    simp [activate_parse, m1, hmode, a1, a2, List.range_succ]
  · have a1 := hdot c1 (by simp)
    have a2 := hdot c2 (by simp)
    have a3 := hdot c3 (by simp)
    simp [activate_parse, m1, hmode, a1, a2, a3, List.range_succ]
  · have a1 := hdot c1 (by simp)
    have a2 := hdot c2 (by simp)
    have a3 := hdot c3 (by simp)
    have a4 := hdot c4 (by simp)
    simp [activate_parse, m1, hmode, a1, a2, a3, a4, List.range_succ]
  · simp at h4

theorem atoi_digits_text (qs : List Char) (hqs : ∀ c ∈ qs, c.isDigit = true)
    (h1 : 1 ≤ qs.length) (h4 : qs.length ≤ 4) :
    atoi (qs ++ List.replicate (5 - qs.length) NUL) = some (decimal_value qs : Int) := by
  have hnd : NUL.isDigit = false := by decide
  have hf : ∀ c ∈ qs, c ≠ '-' ∧ c ≠ '+' ∧ c_isspace c = false ∧ 48 ≤ c.toNat :=
    fun c hc => ⟨(digit_facts c (hqs c hc)).2.1, (digit_facts c (hqs c hc)).2.2.1,
      (digit_facts c (hqs c hc)).2.2.2.2, (digit_bounds c (hqs c hc)).1⟩
  rcases qs with _ | ⟨c1, _ | ⟨c2, _ | ⟨c3, _ | ⟨c4, _ | ⟨c5, qs⟩⟩⟩⟩⟩
  · simp at h1
  · obtain ⟨x1, x2, x3, x4⟩ := hf c1 (by simp)
    have d1 := hqs c1 (by simp)
    simp only [List.length_singleton, List.replicate, List.cons_append, List.nil_append,
      atoi, atoi_sign, atoi_digits, x1, x2, x3, d1, hnd, if_true, if_false,
      Bool.false_eq_true, decimal_value, List.foldl, Nat.reduceSub, Option.some.injEq]
    omega
  · obtain ⟨x1, x2, x3, x4⟩ := hf c1 (by simp)
    obtain ⟨_, _, _, y4⟩ := hf c2 (by simp)
    have d1 := hqs c1 (by simp)
    have d2 := hqs c2 (by simp)
    simp only [List.length_cons, List.length_nil, List.replicate, List.cons_append,
      List.nil_append, atoi, atoi_sign, atoi_digits, x1, x2, x3, d1, d2, hnd, if_true,
      if_false, Bool.false_eq_true, decimal_value, List.foldl, Nat.reduceSub,
      Nat.reduceAdd, Option.some.injEq]
    omega
  · obtain ⟨x1, x2, x3, x4⟩ := hf c1 (by simp)
    obtain ⟨_, _, _, y4⟩ := hf c2 (by simp)
    obtain ⟨_, _, _, z4⟩ := hf c3 (by simp)
    have d1 := hqs c1 (by simp)
    have d2 := hqs c2 (by simp)
    have d3 := hqs c3 (by simp)
    simp only [List.length_cons, List.length_nil, List.replicate, List.cons_append,
      List.nil_append, atoi, atoi_sign, atoi_digits, x1, x2, x3, d1, d2, d3, hnd, if_true,
      if_false, Bool.false_eq_true, decimal_value, List.foldl, Nat.reduceSub,
      Nat.reduceAdd, Option.some.injEq]
    omega
  · obtain ⟨x1, x2, x3, x4⟩ := hf c1 (by simp)
    obtain ⟨_, _, _, y4⟩ := hf c2 (by simp)
    obtain ⟨_, _, _, z4⟩ := hf c3 (by simp)
    obtain ⟨_, _, _, u4⟩ := hf c4 (by simp)
    have d1 := hqs c1 (by simp)
    have d2 := hqs c2 (by simp)
    have d3 := hqs c3 (by simp)
    have d4 := hqs c4 (by simp)
    simp only [List.length_cons, List.length_nil, List.replicate, List.cons_append,
      List.nil_append, atoi, atoi_sign, atoi_digits, x1, x2, x3, d1, d2, d3, d4, hnd,
      if_true, if_false, Bool.false_eq_true, decimal_value, List.foldl, Nat.reduceSub,
      Nat.reduceAdd, Option.some.injEq]
    omega
  · simp at h4

theorem pop_fault_head (w : world_t) (h : w.faults.head? ≠ some true) :
    pop_fault w = (false, { w with faults := w.faults.tail }) := by
  unfold pop_fault
  rcases hfl : w.faults with _ | ⟨b, fs⟩
  · have hw : w = { w with faults := [] } := by rw [← hfl]
    simp only [List.tail_nil]
    rw [← hw]
  · rw [hfl] at h
    cases b
    · rfl
    · exact absurd rfl h

theorem nvs_set_u32_head (w : world_t) (key : nvs_key_t) (v : Nat)
    (h : w.faults.head? ≠ some true) :
    nvs_set_u32 w key v =
      (ESP_OK, { w with faults := w.faults.tail, nvs := w.nvs.put key (v % 2 ^ 32) }) := by
  unfold nvs_set_u32
  rw [pop_fault_head w h]
  simp

theorem nvs_set_u8_head (w : world_t) (key : nvs_key_t) (v : Nat)
    (h : w.faults.head? ≠ some true) :
    nvs_set_u8 w key v =
      (ESP_OK, { w with faults := w.faults.tail, nvs := w.nvs.put key (v % 2 ^ 8) }) := by
  unfold nvs_set_u8
  rw [pop_fault_head w h]
  simp

theorem take_three_heads (fs : List Bool) (h : ∀ b ∈ fs.take 3, b = false) :
    fs.head? ≠ some true ∧ fs.tail.head? ≠ some true ∧ fs.tail.tail.head? ≠ some true := by
  rcases fs with _ | ⟨a, _ | ⟨b, _ | ⟨c, fs⟩⟩⟩
  · simp
  · have := h a (by simp)
    simp [this]
  · have h1 := h a (by simp)
    have h2 := h b (by simp)
    simp [h1, h2]
  · have h1 := h a (by simp)
    have h2 := h b (by simp)
    have h3 := h c (by simp)
    simp [h1, h2, h3]

theorem antipassback_activate_finished (w : world_t) (payload : String)
    (s : activate_parse_t) (x : Int) (q : Nat)
    (hp : activate_parse (payload.toList.takeWhile (fun c => c ≠ NUL))
            { wiegand_antipassback_mode := w.wiegand_antipassback_mode } =
          activate_parse_end.finished s)
    (ha : atoi s.peopleCounter = some x) (hx : (x % 2 ^ 32).toNat = q) (hq : q ≤ 2000)
    (hf : ∀ b ∈ w.faults.take 3, b = false) :
    ∃ w', antipassback_activate w payload = some (1, w') ∧
      w'.nvs.people_counter = some q ∧
      w'.nvs.mode = some (s.wiegand_antipassback_mode % 2 ^ 8) ∧
      w'.nvs.activate = some 1 ∧
      w'.anti_passback_activation = 1 := by
  obtain ⟨f1, f2, f3⟩ := take_three_heads w.faults hf
  have hnot : ¬ (q > 2000) := by omega
  unfold antipassback_activate
  simp only [hp, ha, hx, hnot, false_and, if_false]
  rw [nvs_set_u32_head _ _ _ (by exact f1)]
  simp only [if_true]
  rw [nvs_set_u8_head _ _ _ (by exact f2)]
  simp only [if_true]
  rw [nvs_set_u8_head _ _ _ (by exact f3)]
  simp only [if_true]
  refine ⟨_, rfl, ?_, ?_, ?_, ?_⟩
  · simp [nvs_t.put]
    omega
  · simp [nvs_t.put]
  · simp [nvs_t.put]
  · rfl

/-- C17. Activation success: for a payload `m.q` with `m` one decimal digit and
`q` one to four decimal digits denoting a number of at most 2000, when the three
store writes succeed `antipassback_activate` returns 1, and afterwards the
persisted quota is the number `q`, the persisted mode is the digit value of `m`
and the persisted activation flag is 1; the parsing loop runs to the end of the
payload, every write into the 5-byte quota text is at an index of at most 3, and
the text is the digits of `q` followed by NUL bytes, so it stays terminated. -/
theorem antipassback_activate_success (w : world_t) (m : Char) (qs : List Char)
    (hm : m.isDigit = true) (hqs : ∀ c ∈ qs, c.isDigit = true)
    (h1 : 1 ≤ qs.length) (h4 : qs.length ≤ 4) (hval : decimal_value qs ≤ 2000)
    (hf : ∀ b ∈ w.faults.take 3, b = false) :
    (∃ w', antipassback_activate w (String.mk (m :: '.' :: qs)) = some (1, w') ∧
        w'.nvs.people_counter = some (decimal_value qs) ∧
        w'.nvs.mode = some (m.toNat - 48) ∧
        w'.nvs.activate = some 1) ∧
    (∃ s, activate_parse (m :: '.' :: qs)
            { wiegand_antipassback_mode := w.wiegand_antipassback_mode } =
          activate_parse_end.finished s ∧
        (∀ i ∈ s.written, i ≤ 3) ∧
        s.written.length = qs.length ∧
        s.peopleCounter = qs ++ List.replicate (5 - qs.length) NUL ∧
        s.peopleCounter.length = 5 ∧
        s.peopleCounter.getD 4 'x' = NUL) := by
  have hparse := activate_parse_digits w.wiegand_antipassback_mode m qs hm hqs h4
  have hnul : ∀ c ∈ m :: '.' :: qs, c ≠ NUL := by
    intro c hc
    rcases List.mem_cons.mp hc with rfl | hc
    · exact (digit_facts c hm).2.2.2.1
    · rcases List.mem_cons.mp hc with rfl | hc
      · decide
      · exact (digit_facts c (hqs c hc)).2.2.2.1
  have hmb := digit_bounds m hm
  constructor
  · have hp := hparse
    rw [← takeWhile_not_NUL _ hnul] at hp
    obtain ⟨w', e, a, b, c, _⟩ := antipassback_activate_finished w (String.mk (m :: '.' :: qs)) _
      (decimal_value qs : Int) (decimal_value qs) hp (atoi_digits_text qs hqs h1 h4)
      (by omega) hval hf
    refine ⟨w', e, a, ?_, c⟩
    rw [b]
    congr 1
    show (m.toNat - 48) % 2 ^ 8 = m.toNat - 48
    omega
  · refine ⟨_, hparse, ?_, ?_, rfl, ?_, ?_⟩
    · intro i hi
      simp only [List.mem_reverse, List.mem_range] at hi
      omega
    · simp
    · simp
      omega
    · rcases qs with _ | ⟨c1, _ | ⟨c2, _ | ⟨c3, _ | ⟨c4, _ | ⟨c5, qs⟩⟩⟩⟩⟩
      · simp at h1
      · rfl
      · rfl
      · rfl
      · rfl
      · simp at h4

/-- C17 (witness): the payload `2.150` on a fresh store. -/
theorem antipassback_activate_success_witness :
    ('2'.isDigit = true ∧ (∀ c ∈ ['1', '5', '0'], c.isDigit = true) ∧
      decimal_value ['1', '5', '0'] ≤ 2000) ∧
    ∃ w', antipassback_activate {} (String.mk ('2' :: '.' :: ['1', '5', '0'])) = some (1, w') ∧
      w'.nvs.people_counter = some (decimal_value ['1', '5', '0']) ∧
      w'.nvs.mode = some ('2'.toNat - 48) ∧
      w'.nvs.activate = some 1 :=
  ⟨⟨by decide, by decide, by decide⟩,
    (antipassback_activate_success {} '2' ['1', '5', '0'] (by decide) (by decide)
      (by decide) (by decide) (by decide) (by decide)).1⟩

/-- C18 (failing input): for the payload `3.2001` (mode 3, quota 2001) on a store
whose writes succeed, the test `wiegand_antipassback_mode - '0' > 2` is made on a
mode from which `'0'` was already subtracted, so it is false;
`antipassback_activate` returns 1 and persists the quota 2001, the mode 3 and
the activation flag 1. -/
theorem antipassback_activate_accepts_3_2001 :
    (antipassback_activate {} "3.2001").map (fun r => r.1) = some 1 ∧
    (antipassback_activate {} "3.2001").map (fun r => r.2.nvs.people_counter) =
      some (some 2001) ∧
    (antipassback_activate {} "3.2001").map (fun r => r.2.nvs.mode) = some (some 3) ∧
    (antipassback_activate {} "3.2001").map (fun r => r.2.nvs.activate) = some (some 1) := by
  decide

/-- C19 (failing input): for the payload `1.5` on a store that was never
activated, when the third write (the mode) fails `antipassback_activate` returns
0 and sets the in-memory flag back to 0, but the persisted activation flag, which
the second write set, stays 1, and that is the value `wiegand1_action` and
`wiegand2_action` read. -/
theorem antipassback_activate_failed_mode_write :
    (antipassback_activate mode_write_fails_world "1.5").map (fun r => r.1) = some 0 ∧
    (antipassback_activate mode_write_fails_world "1.5").map
      (fun r => r.2.nvs.activate) = some (some 1) ∧
    (antipassback_activate mode_write_fails_world "1.5").map
      (fun r => r.2.anti_passback_activation) = some 0 ∧
    (antipassback_activate mode_write_fails_world "1.5").map
      (fun r => (get_INT8_Data_From_Storage r.2 NVS_ANTIPASSBACK_ACTIVATE_LABEL).1) =
      some 1 ∧
    mode_write_fails_world.nvs.activate = none := by
  decide

theorem same_ledger_refl (a : nvs_t) : same_ledger a a := ⟨rfl, rfl, rfl, rfl⟩

theorem same_ledger_trans (a b c : nvs_t) (h1 : same_ledger a b) (h2 : same_ledger b c) :
    same_ledger a c :=
  ⟨h1.1.trans h2.1, h1.2.1.trans h2.2.1, h1.2.2.1.trans h2.2.2.1, h1.2.2.2.trans h2.2.2.2⟩

theorem put_ledger (n : nvs_t) (k : nvs_key_t) (v : Nat)
    (hk : k ≠ NVS_ANTIPASSBACK_PEOPLE_NUMBER) : same_ledger (n.put k v) n := by
  cases k
  · exact ⟨rfl, rfl, rfl, rfl⟩
  · exact ⟨rfl, rfl, rfl, rfl⟩
  · exact absurd rfl hk
  · exact ⟨rfl, rfl, rfl, rfl⟩

theorem nvs_set_u32_ledger (w : world_t) (k : nvs_key_t) (v : Nat)
    (hk : k ≠ NVS_ANTIPASSBACK_PEOPLE_NUMBER) :
    same_ledger (nvs_set_u32 w k v).2.nvs w.nvs := by
  unfold nvs_set_u32 pop_fault
  rcases w.faults with _ | ⟨b, fs⟩
  · exact put_ledger _ _ _ hk
  · cases b
    · exact put_ledger _ _ _ hk
    · exact same_ledger_refl _

theorem nvs_set_u8_ledger (w : world_t) (k : nvs_key_t) (v : Nat)
    (hk : k ≠ NVS_ANTIPASSBACK_PEOPLE_NUMBER) :
    same_ledger (nvs_set_u8 w k v).2.nvs w.nvs := by
  unfold nvs_set_u8 pop_fault
  rcases w.faults with _ | ⟨b, fs⟩
  · exact put_ledger _ _ _ hk
  · cases b
    · exact put_ledger _ _ _ hk
    · exact same_ledger_refl _

theorem antipassback_deactivate_frame (w : world_t) :
    (antipassback_deactivate w).2.nvs =
      { w.nvs with activate := (antipassback_deactivate w).2.nvs.activate } ∧
    ((antipassback_deactivate w).2.nvs.activate = w.nvs.activate ∨
      (antipassback_deactivate w).2.nvs.activate = some 0) := by
  unfold antipassback_deactivate save_INT8_Data_In_Storage nvs_set_u8 pop_fault
  rcases w.faults with _ | ⟨b, fs⟩
  · exact ⟨rfl, Or.inr rfl⟩
  · cases b
    · exact ⟨rfl, Or.inr rfl⟩
    · exact ⟨rfl, Or.inl rfl⟩

theorem antipassback_activate_ledger (w : world_t) (payload : String) (r : Nat)
    (w' : world_t) (h : antipassback_activate w payload = some (r, w')) :
    same_ledger w'.nvs w.nvs := by
  unfold antipassback_activate at h
  simp only at h
  split at h
  · exact absurd h (by simp)
  · simp only [Option.some.injEq, Prod.mk.injEq] at h
    rw [← h.2]
    exact same_ledger_refl _
  · split at h
    · exact absurd h (by simp)
    · split at h
      · simp only [Option.some.injEq, Prod.mk.injEq] at h
        rw [← h.2]
        exact same_ledger_refl _
      · generalize hA : nvs_set_u32 _ NVS_ANTIPASSBACK_PEOPLE_COUNTER _ = A at h
        have lA : same_ledger A.2.nvs w.nvs := by
          rw [← hA]
          exact nvs_set_u32_ledger _ _ _ (by decide)
        generalize hB : nvs_set_u8 A.2 NVS_ANTIPASSBACK_ACTIVATE_LABEL 1 = B at h
        have lB : same_ledger B.2.nvs w.nvs := by
          rw [← hB]
          exact same_ledger_trans _ _ _ (nvs_set_u8_ledger _ _ _ (by decide)) lA
        generalize hC : nvs_set_u8 _ NVS_ANTIPASSBACK_MODE_LABEL _ = C at h
        have lC : same_ledger C.2.nvs w.nvs := by
          rw [← hC]
          exact same_ledger_trans _ _ _ (nvs_set_u8_ledger _ _ _ (by decide)) lB
        split at h
        · split at h
          · split at h
            · simp only [Option.some.injEq, Prod.mk.injEq] at h
              rw [← h.2]
              exact lC
            · simp only [Option.some.injEq, Prod.mk.injEq] at h
              rw [← h.2]
              exact lC
          · simp only [Option.some.injEq, Prod.mk.injEq] at h
            rw [← h.2]
            exact lB
        · simp only [Option.some.injEq, Prod.mk.injEq] at h
          rw [← h.2]
          exact lA

theorem same_ledger_marked (a b : nvs_t) (h : same_ledger a b) (key : String) :
    marked_present a key ↔ marked_present b key := by
  obtain ⟨_, hu, ha, ho⟩ := h
  have hns : ∀ hd : antipassback_handle_t, a.ns hd = b.ns hd := by
    intro hd
    cases hd
    · exact hu
    · exact ha
    · exact ho
  unfold marked_present
  constructor
  · rintro ⟨hd, hh⟩
    exact ⟨hd, by rw [← hns hd]; exact hh⟩
  · rintro ⟨hd, hh⟩
    exact ⟨hd, by rw [hns hd]; exact hh⟩

/-- C20. `antipassback_deactivate` changes no persisted value other than the
activation flag (quota, mode, current count and the three presence namespaces are
as before), whatever the store operation returns; every call of
`antipassback_activate` that returns leaves the persisted current count and the
three presence namespaces as they were; hence after deactivating and then
activating again, with any payload, the current count and the presence records
are exactly those from before the deactivation. -/
theorem antipassback_toggle_keeps_ledger (w : world_t) (payload : String) (r : Nat)
    (w' : world_t)
    (h : antipassback_activate (antipassback_deactivate w).2 payload = some (r, w')) :
    ((antipassback_deactivate w).2.nvs =
        { w.nvs with activate := (antipassback_deactivate w).2.nvs.activate } ∧
      ((antipassback_deactivate w).2.nvs.activate = w.nvs.activate ∨
        (antipassback_deactivate w).2.nvs.activate = some 0)) ∧
    (∀ (v : world_t) (p : String) (r1 : Nat) (v' : world_t),
      antipassback_activate v p = some (r1, v') →
        v'.nvs.people_number = v.nvs.people_number ∧
        ∀ hd : antipassback_handle_t, v'.nvs.ns hd = v.nvs.ns hd) ∧
    w'.nvs.people_number = w.nvs.people_number ∧
    (∀ hd : antipassback_handle_t, w'.nvs.ns hd = w.nvs.ns hd) ∧
    (∀ key : String, marked_present w'.nvs key ↔ marked_present w.nvs key) := by
  have hd := antipassback_deactivate_frame w
  have hl := antipassback_activate_ledger _ _ _ _ h
  have hdl : same_ledger (antipassback_deactivate w).2.nvs w.nvs := by
    rw [hd.1]
    exact ⟨rfl, rfl, rfl, rfl⟩
  have hall := same_ledger_trans _ _ _ hl hdl
  have hns : ∀ (a b : nvs_t), same_ledger a b →
      ∀ hd : antipassback_handle_t, a.ns hd = b.ns hd := by
    intro a b hab k
    cases k
    · exact hab.2.1
    · exact hab.2.2.1
    · exact hab.2.2.2
  refine ⟨hd, ?_, hall.1, hns _ _ hall, same_ledger_marked _ _ hall⟩
  intro v p r1 v' hv
  have hv' := antipassback_activate_ledger _ _ _ _ hv
  exact ⟨hv'.1, hns _ _ hv'⟩

/-- C20 (witness): with credential 11 inside and the count at 1, deactivating and
activating again with the quota 2 keeps the count 1 and the presence record. -/
theorem antipassback_toggle_keeps_ledger_witness :
    antipassback_activate (antipassback_deactivate quota_world_inside).2 "1.2" =
      some (1, toggled_world) ∧
    toggled_world.nvs.people_number = quota_world_inside.nvs.people_number ∧
    toggled_world.nvs.people_number = some 1 ∧
    toggled_world.nvs.antipassback_USER = [("11", "1")] ∧
    (marked_present toggled_world.nvs "11" ↔ marked_present quota_world_inside.nvs "11") :=
  ⟨by decide,
    (antipassback_toggle_keeps_ledger quota_world_inside "1.2" 1 toggled_world
      (by decide)).2.2.1,
    by decide, by decide,
    (antipassback_toggle_keeps_ledger quota_world_inside "1.2" 1 toggled_world
      (by decide)).2.2.2.2 "11"⟩

/-! ## The action functions leave the variables of the mode logic alone -/

theorem pop_fault_globals (w : world_t) :
    (pop_fault w).2.wiegandMode = w.wiegandMode ∧
    (pop_fault w).2.wiegandMode2 = w.wiegandMode2 ∧
    (pop_fault w).2.keypadCount = w.keypadCount := by
  unfold pop_fault
  rcases w.faults with _ | ⟨b, fs⟩ <;> exact ⟨rfl, rfl, rfl⟩

theorem nvs_get_u32_globals (w : world_t) (key : nvs_key_t) (out : Nat) :
    (nvs_get_u32 w key out).2.2.wiegandMode = w.wiegandMode ∧
    (nvs_get_u32 w key out).2.2.wiegandMode2 = w.wiegandMode2 ∧
    (nvs_get_u32 w key out).2.2.keypadCount = w.keypadCount := by
  unfold nvs_get_u32
  simp only
  split <;> [skip; split] <;> simp only [pop_fault_globals, and_self]

theorem nvs_set_u32_globals (w : world_t) (key : nvs_key_t) (v : Nat) :
    (nvs_set_u32 w key v).2.wiegandMode = w.wiegandMode ∧
    (nvs_set_u32 w key v).2.wiegandMode2 = w.wiegandMode2 ∧
    (nvs_set_u32 w key v).2.keypadCount = w.keypadCount := by
  unfold nvs_set_u32
  simp only
  split <;> simp only [pop_fault_globals, and_self]

theorem nvs_get_str_globals (w : world_t) (h : antipassback_handle_t) (key : String) :
    (nvs_get_str w h key).2.wiegandMode = w.wiegandMode ∧
    (nvs_get_str w h key).2.wiegandMode2 = w.wiegandMode2 ∧
    (nvs_get_str w h key).2.keypadCount = w.keypadCount := by
  unfold nvs_get_str
  simp only
  split <;> [skip; split] <;> simp only [pop_fault_globals, and_self]

theorem nvs_set_str_globals (w : world_t) (h : antipassback_handle_t) (key v : String) :
    (nvs_set_str w h key v).2.wiegandMode = w.wiegandMode ∧
    (nvs_set_str w h key v).2.wiegandMode2 = w.wiegandMode2 ∧
    (nvs_set_str w h key v).2.keypadCount = w.keypadCount := by
  unfold nvs_set_str
  simp only
  split <;> simp only [pop_fault_globals, and_self]

theorem nvs_erase_key_globals (w : world_t) (h : antipassback_handle_t) (key : String) :
    (nvs_erase_key w h key).2.wiegandMode = w.wiegandMode ∧
    (nvs_erase_key w h key).2.wiegandMode2 = w.wiegandMode2 ∧
    (nvs_erase_key w h key).2.keypadCount = w.keypadCount := by
  unfold nvs_erase_key
  simp only
  split <;> [skip; split] <;> simp only [pop_fault_globals, and_self]

theorem get_INT8_globals (w : world_t) (key : nvs_key_t) :
    (get_INT8_Data_From_Storage w key).2.wiegandMode = w.wiegandMode ∧
    (get_INT8_Data_From_Storage w key).2.wiegandMode2 = w.wiegandMode2 ∧
    (get_INT8_Data_From_Storage w key).2.keypadCount = w.keypadCount := by
  unfold get_INT8_Data_From_Storage
  simp only
  split <;> [skip; split] <;> simp only [pop_fault_globals, and_self]

theorem get_antipassback_user_globals (w : world_t) (key : String) :
    (get_antipassback_user w key).2.wiegandMode = w.wiegandMode ∧
    (get_antipassback_user w key).2.wiegandMode2 = w.wiegandMode2 ∧
    (get_antipassback_user w key).2.keypadCount = w.keypadCount := by
  unfold get_antipassback_user
  simp only
  split <;> [skip; (split <;> [skip; split])] <;>
    simp only [nvs_get_str_globals, and_self]

theorem set_antipassback_user_globals (w : world_t) (key : String) (c : Char) :
    (set_antipassback_user w key c).2.wiegandMode = w.wiegandMode ∧
    (set_antipassback_user w key c).2.wiegandMode2 = w.wiegandMode2 ∧
    (set_antipassback_user w key c).2.keypadCount = w.keypadCount := by
  unfold set_antipassback_user
  simp only
  split <;> [skip; (split <;> [skip; split])] <;>
    simp only [nvs_set_str_globals, and_self]

theorem erase_antipassback_user_globals (w : world_t) (key : String) :
    (erase_antipassback_user w key).2.wiegandMode = w.wiegandMode ∧
    (erase_antipassback_user w key).2.wiegandMode2 = w.wiegandMode2 ∧
    (erase_antipassback_user w key).2.keypadCount = w.keypadCount := by
  unfold erase_antipassback_user
  simp only [nvs_erase_key_globals, and_self]

theorem wiegand_parse_getData_globals (L : labels_t) (w : world_t) (v : Nat)
    (kp : Option String) (mode relay reader : Nat) :
    (wiegand_parse_getData L w v kp mode relay reader).2.wiegandMode = w.wiegandMode ∧
    (wiegand_parse_getData L w v kp mode relay reader).2.wiegandMode2 = w.wiegandMode2 ∧
    (wiegand_parse_getData L w v kp mode relay reader).2.keypadCount = w.keypadCount := by
  unfold wiegand_parse_getData
  simp only
  split
  · split <;> exact ⟨rfl, rfl, rfl⟩
  · exact ⟨rfl, rfl, rfl⟩

theorem wiegand2_action_globals (L : labels_t) (w : world_t) (v : Nat) :
    (wiegand2_action L w v).wiegandMode = w.wiegandMode ∧
    (wiegand2_action L w v).wiegandMode2 = w.wiegandMode2 ∧
    (wiegand2_action L w v).keypadCount = w.keypadCount := by
  unfold wiegand2_action
  simp only
  repeat' split
  all_goals
    simp only [wiegand_parse_getData_globals, erase_antipassback_user_globals,
      get_INT8_globals, nvs_set_u32_globals, nvs_get_u32_globals,
      get_antipassback_user_globals, and_self]

theorem wiegand1_action_globals (L : labels_t) (w : world_t) (v : Nat) :
    (wiegand1_action L w v).wiegandMode = w.wiegandMode ∧
    (wiegand1_action L w v).wiegandMode2 = w.wiegandMode2 ∧
    (wiegand1_action L w v).keypadCount = w.keypadCount := by
  unfold wiegand1_action
  simp only
  repeat' split
  all_goals
    simp only [wiegand_parse_getData_globals, set_antipassback_user_globals,
      nvs_erase_key_globals, get_INT8_globals, nvs_set_u32_globals, nvs_get_u32_globals,
      get_antipassback_user_globals, and_self]

/-! ## The keypad value -/

theorem keyPadValue_eq_sum (c : List Nat) (h : ∀ b ∈ c, b < 256) :
    keyPadValue c =
      c.getD 0 0 + c.getD 1 0 * 2 ^ 8 + c.getD 2 0 * 2 ^ 16 + c.getD 3 0 * 2 ^ 24 +
        c.getD 4 0 * 2 ^ 32 + c.getD 5 0 * 2 ^ 40 ∧
    keyPadValue c < 2 ^ 48 := by
  have h0 := getD_lt_256 c h 0
  have h1 := getD_lt_256 c h 1
  have h2 := getD_lt_256 c h 2
  have h3 := getD_lt_256 c h 3
  have h4 := getD_lt_256 c h 4
  have h5 := getD_lt_256 c h 5
  unfold keyPadValue
  simp only [Nat.shiftLeft_eq]
  rw [or_eq_add_of_mod (c.getD 5 0 * 2 ^ 40) (c.getD 4 0 * 2 ^ 32) 40 (by omega) (by omega),
    or_eq_add_of_mod _ (c.getD 3 0 * 2 ^ 24) 32 (by omega) (by omega),
    or_eq_add_of_mod _ (c.getD 2 0 * 2 ^ 16) 24 (by omega) (by omega),
    or_eq_add_of_mod _ (c.getD 1 0 * 2 ^ 8) 16 (by omega) (by omega),
    or_eq_add_of_mod _ (c.getD 0 0) 8 (by omega) (by omega)]
  constructor
  · omega
  · omega

/-! ## One frame of reader 2 -/

theorem wiegand2_task_frame_start (L : labels_t) (s : tasks_t)
    (hc : s.w.keypadCount = 0) (hi : s.task2.keyPadIndex < 6) :
    wiegand2_task_frame L s 160 =
      { s with
        w := { s.w with keypadCount := 1, wiegandMode2 := L.WIEGAND_KEYPAD_MODE_LABEL }
        timers := s.timers ++ [timer_call.xTimerChangePeriod timer_id.xTimer_autoadd_wiegand2]
        task2 := { s.task2 with keypadCode := List.replicate 7 0 } } := by
  unfold wiegand2_task_frame wiegand2_task_sentinel wiegand2_task_mode
  simp [hc, hi]

theorem wiegand2_task_frame_digit (L : labels_t) (s : tasks_t) (v : Nat)
    (hm : s.w.wiegandMode2 = L.WIEGAND_KEYPAD_MODE_LABEL) (hi : s.task2.keyPadIndex < 6)
    (hv : v ≠ 160) (ht : ¬ (v = 176 ∧ s.w.keypadCount = 1)) :
    wiegand2_task_frame L s v =
      { s with
        task2 := { s.task2 with
          keypadCode := s.task2.keypadCode.set s.task2.keyPadIndex (((v >>> 4) + 48) % 256)
          written := s.task2.keyPadIndex :: s.task2.written
          keyPadIndex := s.task2.keyPadIndex + 1 } } := by
  have hmod : (s.task2.keyPadIndex + 1) % 256 = s.task2.keyPadIndex + 1 := by omega
  unfold wiegand2_task_frame wiegand2_task_sentinel wiegand2_task_mode
  simp only [hv, false_and, if_false, ht, hm, hi, if_true, ne_eq, not_false_eq_true, hmod]

theorem wiegand2_task_frame_overflow (L : labels_t) (s : tasks_t) (v : Nat)
    (hm : s.w.wiegandMode2 = L.WIEGAND_KEYPAD_MODE_LABEL) (hi : ¬ s.task2.keyPadIndex < 6)
    (hs : ¬ (v = 160 ∧ s.w.keypadCount = 0)) (ht : ¬ (v = 176 ∧ s.w.keypadCount = 1)) :
    wiegand2_task_frame L s v =
      { s with
        timers := s.timers ++ [timer_call.xTimerStop timer_id.xTimer_autoadd_wiegand2]
        task2 := { s.task2 with keypadCode := List.replicate 7 0, keyPadIndex := 0 }
        w := { s.w with keypadCount := 0, wiegandMode2 := L.WIEGAND_NORMAL_MODE_LABEL } } := by
  unfold wiegand2_task_frame wiegand2_task_sentinel wiegand2_task_mode
  simp only [hs, if_false, ht, hm, hi, if_true]

theorem wiegand2_task_frame_terminator (L : labels_t) (s : tasks_t)
    (hc : s.w.keypadCount = 1)
    (hL : L.WIEGAND_NORMAL_MODE_LABEL ≠ L.WIEGAND_KEYPAD_MODE_LABEL) :
    wiegand2_task_frame L s 176 =
      { s with
        w := wiegand2_action L
          { wiegand2_action L s.w (keyPadValue s.task2.keypadCode) with
            keypadCount := 0, wiegandMode2 := L.WIEGAND_NORMAL_MODE_LABEL } 176
        actions := s.actions ++
          [action_call.exit (keyPadValue s.task2.keypadCode), action_call.exit 176]
        task2 := { s.task2 with
          keypadCode := s.task2.keypadCode.set s.task2.keyPadIndex 34
          written := s.task2.keyPadIndex :: s.task2.written
          keyPadIndex := 0 } } := by
  unfold wiegand2_task_frame wiegand2_task_sentinel wiegand2_task_mode
  simp [hc, hL]

/-! ## One frame of reader 1 -/

theorem wiegand1_task_frame_start (L : labels_t) (E : Nat) (s : tasks_t) (env : frame_env_t)
    (hc : s.w.keypadCount = 0) (hi : s.task1.keyPadIndex < 6) :
    wiegand1_task_frame L E s env 160 =
      { s with
        w := { s.w with keypadCount := 1, wiegandMode := L.WIEGAND_KEYPAD_MODE_LABEL }
        timers := s.timers ++ [timer_call.xTimerChangePeriod timer_id.xTimer_autoadd_wiegand1]
        task1 := { s.task1 with keypadCode := List.replicate 7 0 } } := by
  unfold wiegand1_task_frame wiegand1_task_sentinel wiegand1_task_mode
  simp [hc, hi]

theorem wiegand1_task_frame_digit (L : labels_t) (E : Nat) (s : tasks_t) (env : frame_env_t)
    (v : Nat)
    (hm : s.w.wiegandMode = L.WIEGAND_KEYPAD_MODE_LABEL) (hi : s.task1.keyPadIndex < 6)
    (hv : v ≠ 160) (ht : ¬ (v = 176 ∧ s.w.keypadCount = 1)) :
    wiegand1_task_frame L E s env v =
      { s with
        task1 := { s.task1 with
          keypadCode := s.task1.keypadCode.set s.task1.keyPadIndex (((v >>> 4) + 48) % 256)
          written := s.task1.keyPadIndex :: s.task1.written
          keyPadIndex := s.task1.keyPadIndex + 1 } } := by
  have hmod : (s.task1.keyPadIndex + 1) % 256 = s.task1.keyPadIndex + 1 := by omega
  unfold wiegand1_task_frame wiegand1_task_sentinel wiegand1_task_mode
  simp only [hv, false_and, if_false, ht, hm, hi, if_true, ne_eq, not_false_eq_true, hmod]

theorem wiegand1_task_frame_overflow (L : labels_t) (E : Nat) (s : tasks_t)
    (env : frame_env_t) (v : Nat)
    (hm : s.w.wiegandMode = L.WIEGAND_KEYPAD_MODE_LABEL) (hi : ¬ s.task1.keyPadIndex < 6)
    (hs : ¬ (v = 160 ∧ s.w.keypadCount = 0)) (ht : ¬ (v = 176 ∧ s.w.keypadCount = 1)) :
    wiegand1_task_frame L E s env v =
      { s with
        timers := s.timers ++ [timer_call.xTimerStop timer_id.xTimer_autoadd_wiegand1]
        task1 := { s.task1 with keypadCode := List.replicate 7 0, keyPadIndex := 0 }
        w := { s.w with keypadCount := 0, wiegandMode := L.WIEGAND_NORMAL_MODE_LABEL } } := by
  unfold wiegand1_task_frame wiegand1_task_sentinel wiegand1_task_mode
  simp only [hs, if_false, ht, hm, hi, if_true]

theorem wiegand1_task_frame_terminator (L : labels_t) (E : Nat) (s : tasks_t)
    (env : frame_env_t) (hc : s.w.keypadCount = 1)
    (hk : L.WIEGAND_NORMAL_MODE_LABEL ≠ L.WIEGAND_KEYPAD_MODE_LABEL)
    (ha : L.WIEGAND_NORMAL_MODE_LABEL ≠ L.WIEGAND_AUTO_SAVE_MODE_LABEL) :
    wiegand1_task_frame L E s env 176 =
      { s with
        w := wiegand1_action L
          { wiegand1_action L s.w (s.task1.keypadCode_address % 2 ^ 64) with
            keypadCount := 0, wiegandMode := L.WIEGAND_NORMAL_MODE_LABEL } 176
        actions := s.actions ++
          [action_call.entry (s.task1.keypadCode_address % 2 ^ 64), action_call.entry 176]
        task1 := { s.task1 with
          keypadCode := s.task1.keypadCode.set s.task1.keyPadIndex 34
          written := s.task1.keyPadIndex :: s.task1.written
          keyPadIndex := 0 } } := by
  unfold wiegand1_task_frame wiegand1_task_sentinel wiegand1_task_mode
  simp [hc, hk, ha]

/-! ## The keypad index stays in range -/

theorem locals_inv_memset (t : task_locals_t) (h : locals_inv t) :
    locals_inv { t with keypadCode := List.replicate 7 0 } := by
  obtain ⟨h1, h2, _, _⟩ := h
  refine ⟨h1, h2, by simp, ?_⟩
  intro b hb
  simp only [List.mem_replicate] at hb
  omega

theorem locals_inv_reset (t : task_locals_t) (h : locals_inv t) :
    locals_inv { t with keypadCode := List.replicate 7 0, keyPadIndex := 0 } := by
  obtain ⟨_, h2, _, _⟩ := h
  refine ⟨Nat.zero_le _, h2, by simp, ?_⟩
  intro b hb
  simp only [List.mem_replicate] at hb
  omega

theorem locals_inv_set (t : task_locals_t) (h : locals_inv t) (x j : Nat) (hx : x < 256)
    (hj : j ≤ 6) :
    locals_inv { t with
      keypadCode := t.keypadCode.set t.keyPadIndex x
      written := t.keyPadIndex :: t.written
      keyPadIndex := j } := by
  obtain ⟨h1, h2, h3, h4⟩ := h
  refine ⟨hj, ?_, by simp [h3], ?_⟩
  · intro i hi
    rcases List.mem_cons.mp hi with rfl | hi
    · show t.keyPadIndex < 7
      omega
    · exact h2 i hi
  · intro b hb
    rcases List.mem_or_eq_of_mem_set hb with hb | rfl
    · exact h4 b hb
    · exact hx

theorem wiegand2_task_sentinel_inv (L : labels_t) (s : tasks_t) (v : Nat) (h : tasks_inv s) :
    tasks_inv (wiegand2_task_sentinel L s v) := by
  unfold wiegand2_task_sentinel
  split
  · exact ⟨h.1, locals_inv_memset _ h.2⟩
  · split
    · exact ⟨h.1, locals_inv_set _ h.2 34 0 (by omega) (by omega)⟩
    · exact h

theorem wiegand2_task_mode_inv (L : labels_t) (s : tasks_t) (v : Nat) (h : tasks_inv s) :
    tasks_inv (wiegand2_task_mode L s v) := by
  unfold wiegand2_task_mode
  split
  · split
    · rename_i hlt
      split
      · have hmod : (s.task2.keyPadIndex + 1) % 256 ≤ 6 := by omega
        exact ⟨h.1, locals_inv_set _ h.2 _ _ (Nat.mod_lt _ (by omega)) hmod⟩
      · exact h
    · exact ⟨h.1, locals_inv_reset _ h.2⟩
  · split
    · exact h
    · exact h

theorem wiegand1_task_sentinel_inv (L : labels_t) (s : tasks_t) (v : Nat) (h : tasks_inv s) :
    tasks_inv (wiegand1_task_sentinel L s v) := by
  unfold wiegand1_task_sentinel
  split
  · exact ⟨locals_inv_memset _ h.1, h.2⟩
  · split
    · exact ⟨locals_inv_set _ h.1 34 0 (by omega) (by omega), h.2⟩
    · exact h

theorem wiegand1_task_mode_inv (L : labels_t) (E : Nat) (s : tasks_t) (env : frame_env_t)
    (v : Nat) (h : tasks_inv s) : tasks_inv (wiegand1_task_mode L E s env v) := by
  unfold wiegand1_task_mode
  split
  · split
    · rename_i hlt
      split
      · have hmod : (s.task1.keyPadIndex + 1) % 256 ≤ 6 := by omega
        exact ⟨locals_inv_set _ h.1 _ _ (Nat.mod_lt _ (by omega)) hmod, h.2⟩
      · exact h
    · exact ⟨locals_inv_reset _ h.1, h.2⟩
  · split
    · simp only
      split
      · split
        · exact h
        · split
          · exact h
          · exact h
      · split
        · exact h
        · exact h
    · split
      · exact h
      · split
        · simp only
          split
          · exact h
          · exact h
        · exact h

theorem tasks_step_inv (L : labels_t) (E : Nat) (s : tasks_t) (e : task_event)
    (h : tasks_inv s) : tasks_inv (tasks_step L E s e) := by
  cases e with
  | frame1 env v =>
    exact wiegand1_task_mode_inv L E _ env v (wiegand1_task_sentinel_inv L s v h)
  | frame2 v => exact wiegand2_task_mode_inv L _ v (wiegand2_task_sentinel_inv L s v h)
  | timeout1 => exact h
  | timeout2 => exact h

theorem tasks_run_inv (L : labels_t) (E : Nat) (es : List task_event) (s : tasks_t)
    (h : tasks_inv s) : tasks_inv (tasks_run L E s es) := by
  induction es generalizing s with
  | nil => exact h
  | cons e es ih => exact ih _ (tasks_step_inv L E s e h)

/-! ## Runs of frames -/

theorem tasks_run_append (L : labels_t) (E : Nat) (s : tasks_t) (es fs : List task_event) :
    tasks_run L E s (es ++ fs) = tasks_run L E (tasks_run L E s es) fs := by
  unfold tasks_run
  rw [List.foldl_append]

theorem frames2_digits (L : labels_t) (E : Nat) (ds : List Nat) (s : tasks_t)
    (hm : s.w.wiegandMode2 = L.WIEGAND_KEYPAD_MODE_LABEL)
    (hd : ∀ d ∈ ds, d ≠ 160 ∧ d ≠ 176) (hi : s.task2.keyPadIndex + ds.length ≤ 6) :
    (tasks_run L E s (frames2 ds)).w = s.w ∧
    (tasks_run L E s (frames2 ds)).actions = s.actions ∧
    (tasks_run L E s (frames2 ds)).enrolled = s.enrolled ∧
    (tasks_run L E s (frames2 ds)).notified = s.notified ∧
    (tasks_run L E s (frames2 ds)).task1 = s.task1 ∧
    (tasks_run L E s (frames2 ds)).task2.keyPadIndex = s.task2.keyPadIndex + ds.length := by
  induction ds generalizing s with
  | nil => exact ⟨rfl, rfl, rfl, rfl, rfl, rfl⟩
  | cons d ds ih =>
    have hd0 := hd d (List.mem_cons_self _ _)
    simp only [List.length_cons] at hi
    have hstep : tasks_run L E s (frames2 (d :: ds)) =
        tasks_run L E (wiegand2_task_frame L s d) (frames2 ds) := rfl
    have e1 := wiegand2_task_frame_digit L s d hm (by omega) hd0.1 (fun h => hd0.2 h.1)
    have hw : (wiegand2_task_frame L s d).w = s.w := by rw [e1]
    have ha : (wiegand2_task_frame L s d).actions = s.actions := by rw [e1]
    have he : (wiegand2_task_frame L s d).enrolled = s.enrolled := by rw [e1]
    have hn : (wiegand2_task_frame L s d).notified = s.notified := by rw [e1]
    have ht : (wiegand2_task_frame L s d).task1 = s.task1 := by rw [e1]
    have hk : (wiegand2_task_frame L s d).task2.keyPadIndex = s.task2.keyPadIndex + 1 := by
      rw [e1]
    obtain ⟨a, b, c, e, f, g⟩ := ih (wiegand2_task_frame L s d) (by rw [hw]; exact hm)
      (fun x hx => hd x (List.mem_cons_of_mem _ hx)) (by rw [hk]; omega)
    rw [hstep]
    refine ⟨a.trans hw, b.trans ha, c.trans he, e.trans hn, f.trans ht, ?_⟩
    rw [g, hk]
    simp only [List.length_cons]
    omega

theorem frames1_digits (L : labels_t) (E : Nat) (fs : List (frame_env_t × Nat))
    (s : tasks_t)
    (hm : s.w.wiegandMode = L.WIEGAND_KEYPAD_MODE_LABEL)
    (hd : ∀ f ∈ fs, f.2 ≠ 160 ∧ f.2 ≠ 176) (hi : s.task1.keyPadIndex + fs.length ≤ 6) :
    (tasks_run L E s (frames1 fs)).w = s.w ∧
    (tasks_run L E s (frames1 fs)).actions = s.actions ∧
    (tasks_run L E s (frames1 fs)).enrolled = s.enrolled ∧
    (tasks_run L E s (frames1 fs)).notified = s.notified ∧
    (tasks_run L E s (frames1 fs)).task2 = s.task2 ∧
    (tasks_run L E s (frames1 fs)).task1.keyPadIndex = s.task1.keyPadIndex + fs.length := by
  induction fs generalizing s with
  | nil => exact ⟨rfl, rfl, rfl, rfl, rfl, rfl⟩
  | cons d ds ih =>
    have hd0 := hd d (List.mem_cons_self _ _)
    simp only [List.length_cons] at hi
    have hstep : tasks_run L E s (frames1 (d :: ds)) =
        tasks_run L E (wiegand1_task_frame L E s d.1 d.2) (frames1 ds) := rfl
    have e1 := wiegand1_task_frame_digit L E s d.1 d.2 hm (by omega) hd0.1
      (fun h => hd0.2 h.1)
    have hw : (wiegand1_task_frame L E s d.1 d.2).w = s.w := by rw [e1]
    have ha : (wiegand1_task_frame L E s d.1 d.2).actions = s.actions := by rw [e1]
    have he : (wiegand1_task_frame L E s d.1 d.2).enrolled = s.enrolled := by rw [e1]
    have hn : (wiegand1_task_frame L E s d.1 d.2).notified = s.notified := by rw [e1]
    have ht : (wiegand1_task_frame L E s d.1 d.2).task2 = s.task2 := by rw [e1]
    have hk : (wiegand1_task_frame L E s d.1 d.2).task1.keyPadIndex =
        s.task1.keyPadIndex + 1 := by
      rw [e1]
    obtain ⟨a, b, c, e, f, g⟩ := ih (wiegand1_task_frame L E s d.1 d.2)
      (by rw [hw]; exact hm) (fun x hx => hd x (List.mem_cons_of_mem _ hx))
      (by rw [hk]; omega)
    rw [hstep]
    refine ⟨a.trans hw, b.trans ha, c.trans he, e.trans hn, f.trans ht, ?_⟩
    rw [g, hk]
    simp only [List.length_cons]
    omega

/-! ## The claims on the mode logic of the reader tasks -/

/-- C21 (failing input): the keypad session `[160, 16, 32, 48, 176]` from the
start of the task, in Normal mode, with antipassback inactive.  On reader 2 the
terminator frame calls `wiegand2_action` with the keypad value 3355185 and then,
the mode being Normal again when the second conditional is reached, once more
with the terminator code 176: two calls and two dispatches.  On reader 1 the two
calls of `wiegand1_action` are with the address of the array and with 176.  Both
sessions end in Normal mode with keypad index 0 and no entry in progress. -/
theorem keypad_session_calls_twice :
    (example_tasks.w.wiegandMode2 = example_labels.WIEGAND_NORMAL_MODE_LABEL ∧
      example_tasks.w.wiegandMode = example_labels.WIEGAND_NORMAL_MODE_LABEL ∧
      example_tasks.w.keypadCount = 0 ∧
      example_tasks.task1.keyPadIndex = 0 ∧ example_tasks.task2.keyPadIndex = 0) ∧
    ((tasks_run example_labels example_already_exists example_tasks
        (frames2 [160, 16, 32, 48, 176])).actions =
        [action_call.exit 3355185, action_call.exit 176] ∧
      (tasks_run example_labels example_already_exists example_tasks
        (frames2 [160, 16, 32, 48, 176])).w.dispatched =
        [⟨3355185, example_labels.WIEGAND_NORMAL_MODE_LABEL, 2, 2⟩,
          ⟨176, example_labels.WIEGAND_NORMAL_MODE_LABEL, 2, 2⟩] ∧
      (tasks_run example_labels example_already_exists example_tasks
        (frames2 [160, 16, 32, 48, 176])).w.wiegandMode2 =
        example_labels.WIEGAND_NORMAL_MODE_LABEL ∧
      (tasks_run example_labels example_already_exists example_tasks
        (frames2 [160, 16, 32, 48, 176])).task2.keyPadIndex = 0 ∧
      (tasks_run example_labels example_already_exists example_tasks
        (frames2 [160, 16, 32, 48, 176])).w.keypadCount = 0) ∧
    ((tasks_run example_labels example_already_exists example_tasks
        (frames1 (quiet [160, 16, 32, 48, 176]))).actions =
        [action_call.entry 1073414144, action_call.entry 176] ∧
      (tasks_run example_labels example_already_exists example_tasks
        (frames1 (quiet [160, 16, 32, 48, 176]))).w.dispatched =
        [⟨1073414144, example_labels.WIEGAND_NORMAL_MODE_LABEL, 1, 1⟩,
          ⟨176, example_labels.WIEGAND_NORMAL_MODE_LABEL, 1, 1⟩]) := by
  decide

/-- C22. Keypad terminator on reader 2: when a keypad entry is in progress and the
decoded value is 176, `wiegand2_action` is called with
`keypadCode[0] + keypadCode[1]*2^8 + ... + keypadCode[5]*2^40`, a value below
`2^48` taken from the array as it is before the marker 34 is written at the
current keypad index, whatever that index is; the same frame then calls
`wiegand2_action` with 176, and afterwards the mode of reader 2 is Normal, the
keypad index is 0 and no entry is in progress. -/
theorem wiegand2_task_terminator (L : labels_t) (s : tasks_t)
    (hc : s.w.keypadCount = 1)
    (hL : L.WIEGAND_NORMAL_MODE_LABEL ≠ L.WIEGAND_KEYPAD_MODE_LABEL)
    (hb : ∀ b ∈ s.task2.keypadCode, b < 256) :
    (wiegand2_task_frame L s 176).actions =
      s.actions ++
        [action_call.exit
            (s.task2.keypadCode.getD 0 0 + s.task2.keypadCode.getD 1 0 * 2 ^ 8 +
              s.task2.keypadCode.getD 2 0 * 2 ^ 16 + s.task2.keypadCode.getD 3 0 * 2 ^ 24 +
              s.task2.keypadCode.getD 4 0 * 2 ^ 32 + s.task2.keypadCode.getD 5 0 * 2 ^ 40),
          action_call.exit 176] ∧
    s.task2.keypadCode.getD 0 0 + s.task2.keypadCode.getD 1 0 * 2 ^ 8 +
        s.task2.keypadCode.getD 2 0 * 2 ^ 16 + s.task2.keypadCode.getD 3 0 * 2 ^ 24 +
        s.task2.keypadCode.getD 4 0 * 2 ^ 32 + s.task2.keypadCode.getD 5 0 * 2 ^ 40 < 2 ^ 48 ∧
    (wiegand2_task_frame L s 176).task2.keypadCode =
      s.task2.keypadCode.set s.task2.keyPadIndex 34 ∧
    (wiegand2_task_frame L s 176).w.wiegandMode2 = L.WIEGAND_NORMAL_MODE_LABEL ∧
    (wiegand2_task_frame L s 176).task2.keyPadIndex = 0 ∧
    (wiegand2_task_frame L s 176).w.keypadCount = 0 := by
  obtain ⟨hsum, hlt⟩ := keyPadValue_eq_sum s.task2.keypadCode hb
  rw [wiegand2_task_frame_terminator L s hc hL]
  refine ⟨?_, ?_, rfl, ?_, rfl, ?_⟩
  · rw [← hsum]
  · rw [← hsum]
    exact hlt
  · exact (wiegand2_action_globals L _ 176).2.1
  · exact (wiegand2_action_globals L _ 176).2.2

/-- C22 (witness): reader 2 after a keypad start and the digits 1, 2, 3. -/
theorem wiegand2_task_terminator_witness :
    (three_digit_tasks2.w.keypadCount = 1 ∧
      example_labels.WIEGAND_NORMAL_MODE_LABEL ≠ example_labels.WIEGAND_KEYPAD_MODE_LABEL ∧
      three_digit_tasks2.task2.keypadCode = [49, 50, 51, 0, 0, 0, 0]) ∧
    (wiegand2_task_frame example_labels three_digit_tasks2 176).actions =
      three_digit_tasks2.actions ++
        [action_call.exit
            (three_digit_tasks2.task2.keypadCode.getD 0 0 +
              three_digit_tasks2.task2.keypadCode.getD 1 0 * 2 ^ 8 +
              three_digit_tasks2.task2.keypadCode.getD 2 0 * 2 ^ 16 +
              three_digit_tasks2.task2.keypadCode.getD 3 0 * 2 ^ 24 +
              three_digit_tasks2.task2.keypadCode.getD 4 0 * 2 ^ 32 +
              three_digit_tasks2.task2.keypadCode.getD 5 0 * 2 ^ 40),
          action_call.exit 176] :=
  ⟨⟨by decide, by decide, by decide⟩,
    (wiegand2_task_terminator example_labels three_digit_tasks2 (by decide) (by decide)
      (by decide)).1⟩

/-- C23 (failing input): on reader 1 the keypad sessions `[160, 16, 176]` and
`[160, 32, 176]` both call `wiegand1_action` with the address of the array
(and then with 176), whatever the digits; on reader 2 the same sessions call
`wiegand2_action` with the keypad values 49 and 50. -/
theorem wiegand1_task_passes_address :
    (tasks_run example_labels example_already_exists example_tasks
      (frames1 (quiet [160, 16, 176]))).actions =
      [action_call.entry example_tasks.task1.keypadCode_address, action_call.entry 176] ∧
    (tasks_run example_labels example_already_exists example_tasks
      (frames1 (quiet [160, 32, 176]))).actions =
      [action_call.entry example_tasks.task1.keypadCode_address, action_call.entry 176] ∧
    keyPadValue (tasks_run example_labels example_already_exists example_tasks
      (frames1 (quiet [160, 16]))).task1.keypadCode = 49 ∧
    keyPadValue (tasks_run example_labels example_already_exists example_tasks
      (frames1 (quiet [160, 32]))).task1.keypadCode = 50 ∧
    (tasks_run example_labels example_already_exists example_tasks
      (frames2 [160, 16, 176])).actions = [action_call.exit 49, action_call.exit 176] ∧
    (tasks_run example_labels example_already_exists example_tasks
      (frames2 [160, 32, 176])).actions = [action_call.exit 50, action_call.exit 176] := by
  decide

/-- C24 (failing input): after a keypad start, six digits and the expiry of the
keypad timer no entry is in progress and the keypad index is still 6.  The value
160 then starts an entry and, in the same frame, the test `keyPadIndex < 6` of
the second conditional fails and discards it: afterwards the mode is Normal and
no entry is in progress, on reader 1 and on reader 2. -/
theorem keypad_start_with_stale_index :
    (stale_index_tasks1.w.keypadCount = 0 ∧ stale_index_tasks1.task1.keyPadIndex = 6 ∧
      (wiegand1_task_frame example_labels example_already_exists stale_index_tasks1 {}
        160).w.wiegandMode = example_labels.WIEGAND_NORMAL_MODE_LABEL ∧
      (wiegand1_task_frame example_labels example_already_exists stale_index_tasks1 {}
        160).w.keypadCount = 0) ∧
    (stale_index_tasks2.w.keypadCount = 0 ∧ stale_index_tasks2.task2.keyPadIndex = 6 ∧
      (wiegand2_task_frame example_labels stale_index_tasks2 160).w.wiegandMode2 =
        example_labels.WIEGAND_NORMAL_MODE_LABEL ∧
      (wiegand2_task_frame example_labels stale_index_tasks2 160).w.keypadCount = 0) ∧
    example_labels.WIEGAND_NORMAL_MODE_LABEL ≠ example_labels.WIEGAND_KEYPAD_MODE_LABEL := by
  decide

/-- C25. Keypad digit append: on either reader, in the keypad mode with keypad
index `i < 6`, a decoded value `v` that is not 160 and is not a 176 arriving while
an entry is in progress stores `((v >> 4) + 48) mod 256` at `keypadCode[i]`,
advances the keypad index to `i + 1`, leaves every other byte of the array as it
was, calls no action function, enrollment hook or notification, and leaves the
world (the dispatch log included) unchanged; for `v = 16 * k` with `k <= 9` the
value stored is the ASCII code of the digit `k`. -/
theorem keypad_digit_append (L : labels_t) (E : Nat) (s : tasks_t) (env : frame_env_t)
    (v : Nat) (hv : v ≠ 160) (ht : ¬ (v = 176 ∧ s.w.keypadCount = 1)) :
    (s.w.wiegandMode = L.WIEGAND_KEYPAD_MODE_LABEL → s.task1.keyPadIndex < 6 →
      (wiegand1_task_frame L E s env v).task1.keypadCode =
        s.task1.keypadCode.set s.task1.keyPadIndex (((v >>> 4) + 48) % 256) ∧
      (s.task1.keyPadIndex < s.task1.keypadCode.length →
        (wiegand1_task_frame L E s env v).task1.keypadCode.getD s.task1.keyPadIndex 0 =
          ((v >>> 4) + 48) % 256) ∧
      (∀ j, j ≠ s.task1.keyPadIndex →
        (wiegand1_task_frame L E s env v).task1.keypadCode.getD j 0 =
          s.task1.keypadCode.getD j 0) ∧
      (wiegand1_task_frame L E s env v).task1.keyPadIndex = s.task1.keyPadIndex + 1 ∧
      (wiegand1_task_frame L E s env v).actions = s.actions ∧
      (wiegand1_task_frame L E s env v).enrolled = s.enrolled ∧
      (wiegand1_task_frame L E s env v).notified = s.notified ∧
      (wiegand1_task_frame L E s env v).w = s.w) ∧
    (s.w.wiegandMode2 = L.WIEGAND_KEYPAD_MODE_LABEL → s.task2.keyPadIndex < 6 →
      (wiegand2_task_frame L s v).task2.keypadCode =
        s.task2.keypadCode.set s.task2.keyPadIndex (((v >>> 4) + 48) % 256) ∧
      (s.task2.keyPadIndex < s.task2.keypadCode.length →
        (wiegand2_task_frame L s v).task2.keypadCode.getD s.task2.keyPadIndex 0 =
          ((v >>> 4) + 48) % 256) ∧
      (∀ j, j ≠ s.task2.keyPadIndex →
        (wiegand2_task_frame L s v).task2.keypadCode.getD j 0 =
          s.task2.keypadCode.getD j 0) ∧
      (wiegand2_task_frame L s v).task2.keyPadIndex = s.task2.keyPadIndex + 1 ∧
      (wiegand2_task_frame L s v).actions = s.actions ∧
      (wiegand2_task_frame L s v).enrolled = s.enrolled ∧
      (wiegand2_task_frame L s v).notified = s.notified ∧
      (wiegand2_task_frame L s v).w = s.w) ∧
    (∀ k, k ≤ 9 → v = 16 * k → ((v >>> 4) + 48) % 256 = '0'.toNat + k) := by
  refine ⟨?_, ?_, ?_⟩
  · intro hm hi
    rw [wiegand1_task_frame_digit L E s env v hm hi hv ht]
    exact ⟨rfl, fun hlen => getD_set_eq _ _ _ hlen,
      fun j hj => getD_set_ne _ _ _ _ (Ne.symm hj), rfl, rfl, rfl, rfl, rfl⟩
  · intro hm hi
    rw [wiegand2_task_frame_digit L s v hm hi hv ht]
    exact ⟨rfl, fun hlen => getD_set_eq _ _ _ hlen,
      fun j hj => getD_set_ne _ _ _ _ (Ne.symm hj), rfl, rfl, rfl, rfl, rfl⟩
  · intro k hk hvk
    subst hvk
    rw [Nat.shiftRight_eq_div_pow]
    have h48 : '0'.toNat = 48 := by decide
    rw [h48]
    omega

/-- C25 (witness): the digit 7 (decoded value 112) arriving at both readers while
each is in a keypad entry with index 0. -/
theorem keypad_digit_append_witness :
    ((112 : Nat) ≠ 160 ∧ ¬ ((112 : Nat) = 176 ∧ keypad_entry_tasks.w.keypadCount = 1) ∧
      keypad_entry_tasks.w.wiegandMode = example_labels.WIEGAND_KEYPAD_MODE_LABEL ∧
      keypad_entry_tasks.w.wiegandMode2 = example_labels.WIEGAND_KEYPAD_MODE_LABEL ∧
      keypad_entry_tasks.task1.keyPadIndex = 0 ∧ keypad_entry_tasks.task2.keyPadIndex = 0) ∧
    (wiegand1_task_frame example_labels example_already_exists keypad_entry_tasks {}
      112).task1.keypadCode =
      keypad_entry_tasks.task1.keypadCode.set keypad_entry_tasks.task1.keyPadIndex
        (((112 >>> 4) + 48) % 256) ∧
    (wiegand2_task_frame example_labels keypad_entry_tasks 112).task2.keypadCode =
      keypad_entry_tasks.task2.keypadCode.set keypad_entry_tasks.task2.keyPadIndex
        (((112 >>> 4) + 48) % 256) ∧
    ((112 >>> 4) + 48) % 256 = '0'.toNat + 7 :=
  ⟨⟨by decide, by decide, by decide, by decide, by decide, by decide⟩,
    ((keypad_digit_append example_labels example_already_exists keypad_entry_tasks {} 112
      (by decide) (by decide)).1 (by decide) (by decide)).1,
    ((keypad_digit_append example_labels example_already_exists keypad_entry_tasks {} 112
      (by decide) (by decide)).2.1 (by decide) (by decide)).1,
    (keypad_digit_append example_labels example_already_exists keypad_entry_tasks {} 112
      (by decide) (by decide)).2.2 7 (by decide) (by decide)⟩

/-- C26 (counterexample): after a keypad start and six digit values on reader 2 the
session is not discarded: the mode is the keypad mode, the keypad index is 6, an
entry is in progress, and a terminator as the next frame passes the six-digit
value to `wiegand2_action`. -/
theorem six_digits_keep_session :
    (tasks_run example_labels example_already_exists example_tasks
      (frames2 [160, 16, 16, 16, 16, 16, 16])).w.wiegandMode2 =
      example_labels.WIEGAND_KEYPAD_MODE_LABEL ∧
    example_labels.WIEGAND_KEYPAD_MODE_LABEL ≠ example_labels.WIEGAND_NORMAL_MODE_LABEL ∧
    (tasks_run example_labels example_already_exists example_tasks
      (frames2 [160, 16, 16, 16, 16, 16, 16])).task2.keyPadIndex = 6 ∧
    (tasks_run example_labels example_already_exists example_tasks
      (frames2 [160, 16, 16, 16, 16, 16, 16])).w.keypadCount = 1 ∧
    (tasks_run example_labels example_already_exists example_tasks
      (frames2 [160, 16, 16, 16, 16, 16, 16, 176])).actions =
      [action_call.exit 54087348465969, action_call.exit 176] := by
  decide

/-- C26 (amended): keypad overflow.  From a state with no entry in progress and
keypad index 0, after a keypad start (160) and six digit values the session is
still open (keypad mode, index 6, entry in progress); one more value other than
the terminator 176 discards it: the mode of the reader is Normal, the keypad
index is 0, no entry is in progress, the array is zeroed, and no frame of the
sequence called an action function, the enrollment hook or the notification
interface, or dispatched anything.  This holds for reader 1 and for reader 2. -/
theorem keypad_overflow_discards (L : labels_t) (E : Nat) (s : tasks_t)
    (fs : List (frame_env_t × Nat)) (ds : List Nat) (env0 env7 : frame_env_t) (x : Nat)
    (hc : s.w.keypadCount = 0)
    (hi1 : s.task1.keyPadIndex = 0) (hi2 : s.task2.keyPadIndex = 0)
    (hl1 : fs.length = 6) (hl2 : ds.length = 6)
    (hd1 : ∀ f ∈ fs, f.2 ≠ 160 ∧ f.2 ≠ 176) (hd2 : ∀ d ∈ ds, d ≠ 160 ∧ d ≠ 176)
    (hx : x ≠ 176) :
    ((tasks_run L E s (frames1 ((env0, 160) :: fs))).w.wiegandMode =
        L.WIEGAND_KEYPAD_MODE_LABEL ∧
      (tasks_run L E s (frames1 ((env0, 160) :: fs))).task1.keyPadIndex = 6 ∧
      (tasks_run L E s (frames1 ((env0, 160) :: fs))).w.keypadCount = 1 ∧
      (tasks_run L E s (frames1 ((env0, 160) :: fs ++ [(env7, x)]))).w.wiegandMode =
        L.WIEGAND_NORMAL_MODE_LABEL ∧
      (tasks_run L E s (frames1 ((env0, 160) :: fs ++ [(env7, x)]))).task1.keyPadIndex = 0 ∧
      (tasks_run L E s (frames1 ((env0, 160) :: fs ++ [(env7, x)]))).w.keypadCount = 0 ∧
      (tasks_run L E s (frames1 ((env0, 160) :: fs ++ [(env7, x)]))).task1.keypadCode =
        List.replicate 7 0 ∧
      (tasks_run L E s (frames1 ((env0, 160) :: fs ++ [(env7, x)]))).actions = s.actions ∧
      (tasks_run L E s (frames1 ((env0, 160) :: fs ++ [(env7, x)]))).enrolled = s.enrolled ∧
      (tasks_run L E s (frames1 ((env0, 160) :: fs ++ [(env7, x)]))).notified = s.notified ∧
      (tasks_run L E s (frames1 ((env0, 160) :: fs ++ [(env7, x)]))).w.dispatched =
        s.w.dispatched) ∧
    ((tasks_run L E s (frames2 (160 :: ds))).w.wiegandMode2 = L.WIEGAND_KEYPAD_MODE_LABEL ∧
      (tasks_run L E s (frames2 (160 :: ds))).task2.keyPadIndex = 6 ∧
      (tasks_run L E s (frames2 (160 :: ds))).w.keypadCount = 1 ∧
      (tasks_run L E s (frames2 (160 :: ds ++ [x]))).w.wiegandMode2 =
        L.WIEGAND_NORMAL_MODE_LABEL ∧
      (tasks_run L E s (frames2 (160 :: ds ++ [x]))).task2.keyPadIndex = 0 ∧
      (tasks_run L E s (frames2 (160 :: ds ++ [x]))).w.keypadCount = 0 ∧
      (tasks_run L E s (frames2 (160 :: ds ++ [x]))).task2.keypadCode = List.replicate 7 0 ∧
      (tasks_run L E s (frames2 (160 :: ds ++ [x]))).actions = s.actions ∧
      (tasks_run L E s (frames2 (160 :: ds ++ [x]))).enrolled = s.enrolled ∧
      (tasks_run L E s (frames2 (160 :: ds ++ [x]))).notified = s.notified ∧
      (tasks_run L E s (frames2 (160 :: ds ++ [x]))).w.dispatched = s.w.dispatched) := by
  constructor
  · have h0 : tasks_run L E s (frames1 ((env0, 160) :: fs)) =
        tasks_run L E (wiegand1_task_frame L E s env0 160) (frames1 fs) := rfl
    have h1 : tasks_run L E s (frames1 ((env0, 160) :: fs ++ [(env7, x)])) =
        wiegand1_task_frame L E
          (tasks_run L E (wiegand1_task_frame L E s env0 160) (frames1 fs)) env7 x := by
      show tasks_run L E s (frames1 ((env0, 160) :: (fs ++ [(env7, x)]))) = _
      unfold frames1
      rw [List.map_cons, List.map_append]
      exact tasks_run_append L E _ _ _
    have e0 := wiegand1_task_frame_start L E s env0 hc (by omega)
    have m0 : (wiegand1_task_frame L E s env0 160).w.wiegandMode =
        L.WIEGAND_KEYPAD_MODE_LABEL := by rw [e0]
    have c0 : (wiegand1_task_frame L E s env0 160).w.keypadCount = 1 := by rw [e0]
    have d0 : (wiegand1_task_frame L E s env0 160).w.dispatched = s.w.dispatched := by
      rw [e0]
    have k0 : (wiegand1_task_frame L E s env0 160).task1.keyPadIndex = 0 := by
      rw [e0]
      exact hi1
    have a0 : (wiegand1_task_frame L E s env0 160).actions = s.actions := by rw [e0]
    have r0 : (wiegand1_task_frame L E s env0 160).enrolled = s.enrolled := by rw [e0]
    have n0 : (wiegand1_task_frame L E s env0 160).notified = s.notified := by rw [e0]
    obtain ⟨a, b, c, e, _, g⟩ := frames1_digits L E fs (wiegand1_task_frame L E s env0 160)
      m0 hd1 (by rw [k0]; omega)
    rw [k0, hl1] at g
    rw [h0, h1]
    refine ⟨by rw [a]; exact m0, g, by rw [a]; exact c0, ?_⟩
    rw [wiegand1_task_frame_overflow L E _ env7 x (by rw [a]; exact m0) (by rw [g]; omega)
      (by rw [a, c0]; exact fun h => absurd h.2 (by decide)) (fun h => hx h.1)]
    exact ⟨rfl, rfl, rfl, rfl, b.trans a0, c.trans r0, e.trans n0,
      (congrArg world_t.dispatched a).trans d0⟩
  · have h0 : tasks_run L E s (frames2 (160 :: ds)) =
        tasks_run L E (wiegand2_task_frame L s 160) (frames2 ds) := rfl
    have h1 : tasks_run L E s (frames2 (160 :: ds ++ [x])) =
        wiegand2_task_frame L
          (tasks_run L E (wiegand2_task_frame L s 160) (frames2 ds)) x := by
      show tasks_run L E s (frames2 (160 :: (ds ++ [x]))) = _
      unfold frames2
      rw [List.map_cons, List.map_append]
      exact tasks_run_append L E _ _ _
    have e0 := wiegand2_task_frame_start L s hc (by omega)
    have m0 : (wiegand2_task_frame L s 160).w.wiegandMode2 =
        L.WIEGAND_KEYPAD_MODE_LABEL := by rw [e0]
    have c0 : (wiegand2_task_frame L s 160).w.keypadCount = 1 := by rw [e0]
    have d0 : (wiegand2_task_frame L s 160).w.dispatched = s.w.dispatched := by rw [e0]
    have k0 : (wiegand2_task_frame L s 160).task2.keyPadIndex = 0 := by
      rw [e0]
      exact hi2
    have a0 : (wiegand2_task_frame L s 160).actions = s.actions := by rw [e0]
    have r0 : (wiegand2_task_frame L s 160).enrolled = s.enrolled := by rw [e0]
    have n0 : (wiegand2_task_frame L s 160).notified = s.notified := by rw [e0]
    obtain ⟨a, b, c, e, _, g⟩ := frames2_digits L E ds (wiegand2_task_frame L s 160)
      m0 hd2 (by rw [k0]; omega)
    rw [k0, hl2] at g
    rw [h0, h1]
    refine ⟨by rw [a]; exact m0, g, by rw [a]; exact c0, ?_⟩
    rw [wiegand2_task_frame_overflow L _ x (by rw [a]; exact m0) (by rw [g]; omega)
      (by rw [a, c0]; exact fun h => absurd h.2 (by decide)) (fun h => hx h.1)]
    exact ⟨rfl, rfl, rfl, rfl, b.trans a0, c.trans r0, e.trans n0,
      (congrArg world_t.dispatched a).trans d0⟩

/-- C26 (witness): a keypad start, six times the digit 1 and a seventh digit, on
both readers from the start of the tasks. -/
theorem keypad_overflow_discards_witness :
    (example_tasks.w.keypadCount = 0 ∧ example_tasks.task1.keyPadIndex = 0 ∧
      example_tasks.task2.keyPadIndex = 0) ∧
    (tasks_run example_labels example_already_exists example_tasks
      (frames1 ((({} : frame_env_t), 160) :: quiet [16, 16, 16, 16, 16, 16] ++
        [(({} : frame_env_t), 16)]))).w.wiegandMode =
      example_labels.WIEGAND_NORMAL_MODE_LABEL ∧
    (tasks_run example_labels example_already_exists example_tasks
      (frames2 (160 :: [16, 16, 16, 16, 16, 16] ++ [16]))).w.wiegandMode2 =
      example_labels.WIEGAND_NORMAL_MODE_LABEL :=
  ⟨⟨by decide, by decide, by decide⟩,
    (keypad_overflow_discards example_labels example_already_exists example_tasks
      (quiet [16, 16, 16, 16, 16, 16]) [16, 16, 16, 16, 16, 16] {} {} 16
      (by decide) (by decide) (by decide) (by decide) (by decide)
      (by simp [quiet]) (by decide) (by decide)).1.2.2.2.1,
    (keypad_overflow_discards example_labels example_already_exists example_tasks
      (quiet [16, 16, 16, 16, 16, 16]) [16, 16, 16, 16, 16, 16] {} {} 16
      (by decide) (by decide) (by decide) (by decide) (by decide)
      (by simp [quiet]) (by decide) (by decide)).2.2.2.2.1⟩

/-- C27. Keypad index invariant: from the start of the two tasks (both keypad
indices 0, arrays of 7 bytes), after every sequence of frames of reader 1, frames
of reader 2 and expiries of either timer, the keypad index of each task is at
most 6, every element write made into either 7-byte array was at an index below
7, and both arrays still have 7 bytes, each below 256; the same holds from any
state in which it holds. -/
theorem keypad_index_in_bounds (L : labels_t) (E : Nat) (w : world_t) (c1 c2 : List Nat)
    (a : Nat) (es : List task_event)
    (h1 : c1.length = 7) (h2 : c2.length = 7)
    (hb1 : ∀ b ∈ c1, b < 256) (hb2 : ∀ b ∈ c2, b < 256) :
    ((tasks_run L E (tasks_start w c1 c2 a) es).task1.keyPadIndex ≤ 6 ∧
      (tasks_run L E (tasks_start w c1 c2 a) es).task2.keyPadIndex ≤ 6 ∧
      (∀ i ∈ (tasks_run L E (tasks_start w c1 c2 a) es).task1.written, i < 7) ∧
      (∀ i ∈ (tasks_run L E (tasks_start w c1 c2 a) es).task2.written, i < 7) ∧
      (tasks_run L E (tasks_start w c1 c2 a) es).task1.keypadCode.length = 7 ∧
      (tasks_run L E (tasks_start w c1 c2 a) es).task2.keypadCode.length = 7) ∧
    (∀ s : tasks_t, tasks_inv s → tasks_inv (tasks_run L E s es)) := by
  have hstart : tasks_inv (tasks_start w c1 c2 a) := by
    refine ⟨⟨Nat.zero_le _, ?_, h1, hb1⟩, ⟨Nat.zero_le _, ?_, h2, hb2⟩⟩
    · intro i hi
      exact absurd hi (List.not_mem_nil i)
    · intro i hi
      exact absurd hi (List.not_mem_nil i)
  obtain ⟨⟨a1, a2, a3, _⟩, b1, b2, b3, _⟩ := tasks_run_inv L E es _ hstart
  exact ⟨⟨a1, b1, a2, b2, a3, b3⟩, fun s hs => tasks_run_inv L E es s hs⟩

/-- C27 (witness): two overlong keypad entries, a timer expiry and a terminator. -/
theorem keypad_index_in_bounds_witness :
    ((List.replicate 7 0).length = 7 ∧ ∀ b ∈ List.replicate 7 0, b < 256) ∧
    (tasks_run example_labels example_already_exists
      (tasks_start {} (List.replicate 7 0) (List.replicate 7 0) 0)
      (frames2 [160, 16, 16, 16, 16, 16, 16, 16, 176] ++ [task_event.timeout2] ++
        frames1 (quiet [160, 16, 176]))).task2.keyPadIndex ≤ 6 :=
  ⟨⟨by decide, by decide⟩,
    (keypad_index_in_bounds example_labels example_already_exists {} (List.replicate 7 0)
      (List.replicate 7 0) 0
      (frames2 [160, 16, 16, 16, 16, 16, 16, 16, 176] ++ [task_event.timeout2] ++
        frames1 (quiet [160, 16, 176]))
      (by decide) (by decide) (by decide) (by decide)).1.2.1⟩

/-- C28 (failing input): reader 2 is in a keypad entry after `[160, 16]`; when its
timer expires, `timer_autoAdd2_Callback` assigns `wiegandMode`, the mode of
reader 1, so the mode of reader 2 is still the keypad mode.  The same events on
reader 1 with `timer_autoAdd_Callback` leave reader 1 in Normal mode. -/
theorem timeout2_leaves_keypad_mode :
    (tasks_run example_labels example_already_exists example_tasks
      (frames2 [160, 16] ++ [task_event.timeout2])).w.wiegandMode2 =
      example_labels.WIEGAND_KEYPAD_MODE_LABEL ∧
    example_labels.WIEGAND_KEYPAD_MODE_LABEL ≠ example_labels.WIEGAND_NORMAL_MODE_LABEL ∧
    (tasks_run example_labels example_already_exists example_tasks
      (frames2 [160, 16] ++ [task_event.timeout2])).w.keypadCount = 0 ∧
    (tasks_run example_labels example_already_exists example_tasks
      (frames1 (quiet [160, 16]) ++ [task_event.timeout1])).w.wiegandMode =
      example_labels.WIEGAND_NORMAL_MODE_LABEL ∧
    (tasks_run example_labels example_already_exists example_tasks
      (frames1 (quiet [160, 16]) ++ [task_event.timeout1])).w.keypadCount = 0 := by
  decide

/-- C29 (failing input): after `[160, 16, 32]` and the expiry of the timer the
keypad index of reader 2 is still 2 (on reader 1 likewise), so in the following
session `[160, 48, 176]` the digit is stored at index 2 and the value passed to
`wiegand2_action` is `51 * 2^16 = 3342336`; from the start of the task the same
session passes 51. -/
theorem timeout_keeps_keypad_index :
    (tasks_run example_labels example_already_exists example_tasks
      (frames2 [160, 16, 32] ++ [task_event.timeout2])).task2.keyPadIndex = 2 ∧
    (tasks_run example_labels example_already_exists example_tasks
      (frames1 (quiet [160, 16, 32]) ++ [task_event.timeout1])).task1.keyPadIndex = 2 ∧
    (tasks_run example_labels example_already_exists example_tasks
      (frames2 [160, 16, 32] ++ [task_event.timeout2] ++ frames2 [160, 48, 176])).actions =
      [action_call.exit 3342336, action_call.exit 176] ∧
    (tasks_run example_labels example_already_exists example_tasks
      (frames2 [160, 48, 176])).actions = [action_call.exit 51, action_call.exit 176] := by
  decide

/-- C30 (counterexample): in AutoEnroll mode, when `add_defaultUser_wiegand`
returns 1 while the timer is active and is re-armed, and when it returns 7, a
failure other than `ERROR_NEW_USER_ALREADY_EXISTS`, the mode after the frame is
still AutoEnroll. -/
theorem auto_enroll_stays :
    auto_enroll_tasks.w.wiegandMode = example_labels.WIEGAND_AUTO_SAVE_MODE_LABEL ∧
    example_labels.WIEGAND_AUTO_SAVE_MODE_LABEL ≠ example_labels.WIEGAND_NORMAL_MODE_LABEL ∧
    (wiegand1_task_frame example_labels example_already_exists auto_enroll_tasks
      { add_defaultUser_wiegand := 1, xTimerIsTimerActive := true,
        xTimerChangePeriod := true } 5).w.wiegandMode =
      example_labels.WIEGAND_AUTO_SAVE_MODE_LABEL ∧
    (7 ≠ 1 ∧ 7 ≠ example_already_exists) ∧
    (wiegand1_task_frame example_labels example_already_exists auto_enroll_tasks
      { add_defaultUser_wiegand := 7 } 5).w.wiegandMode =
      example_labels.WIEGAND_AUTO_SAVE_MODE_LABEL := by
  decide

/-- C30 (amended): AutoEnroll exits.  In AutoEnroll mode on reader 1, for a frame
that is neither a keypad start nor a keypad terminator, the value is offered to
`add_defaultUser_wiegand` once and no action function or notification is called.
When the hook returns 1 the mode after the frame is Normal if the timer is not
active or cannot be re-armed, and stays AutoEnroll if the timer is active and is
re-armed; when it returns anything else (`ERROR_NEW_USER_ALREADY_EXISTS` or any
other failure) the mode stays AutoEnroll. -/
theorem auto_enroll_mode_after_frame (L : labels_t) (E : Nat) (s : tasks_t)
    (env : frame_env_t) (v : Nat)
    (hm : s.w.wiegandMode = L.WIEGAND_AUTO_SAVE_MODE_LABEL)
    (hk : L.WIEGAND_AUTO_SAVE_MODE_LABEL ≠ L.WIEGAND_KEYPAD_MODE_LABEL)
    (hs : ¬ (v = 160 ∧ s.w.keypadCount = 0)) (ht : ¬ (v = 176 ∧ s.w.keypadCount = 1)) :
    (wiegand1_task_frame L E s env v).w.wiegandMode =
      (if env.add_defaultUser_wiegand % 256 = 1 ∧
          (env.xTimerIsTimerActive = false ∨ env.xTimerChangePeriod = false)
        then L.WIEGAND_NORMAL_MODE_LABEL else L.WIEGAND_AUTO_SAVE_MODE_LABEL) ∧
    (wiegand1_task_frame L E s env v).enrolled = s.enrolled ++ [v] ∧
    (wiegand1_task_frame L E s env v).actions = s.actions ∧
    (wiegand1_task_frame L E s env v).notified = s.notified ∧
    (wiegand1_task_frame L E s env v).w.keypadCount = s.w.keypadCount ∧
    (wiegand1_task_frame L E s env v).task1 = s.task1 := by
  unfold wiegand1_task_frame wiegand1_task_sentinel wiegand1_task_mode
  simp only [hs, if_false, ht, hm, hk]
  by_cases h1 : env.add_defaultUser_wiegand % 256 = 1
  · by_cases h2 : env.xTimerIsTimerActive = false
    · simp [h1, h2, clear_autoSave]
    · by_cases h3 : env.xTimerChangePeriod = false
      · simp [h1, h2, h3, clear_autoSave]
      · simp [h1, h2, h3, hm]
  · simp [h1, hm]

/-- C30 (witness): in AutoEnroll mode the hook returns 1 for the value 5 while the
timer is not active: the mode after the frame is Normal. -/
theorem auto_enroll_mode_after_frame_witness :
    (auto_enroll_tasks.w.wiegandMode = example_labels.WIEGAND_AUTO_SAVE_MODE_LABEL ∧
      example_labels.WIEGAND_AUTO_SAVE_MODE_LABEL ≠
        example_labels.WIEGAND_KEYPAD_MODE_LABEL) ∧
    (wiegand1_task_frame example_labels example_already_exists auto_enroll_tasks
      { add_defaultUser_wiegand := 1 } 5).w.wiegandMode =
      (if (1 : Nat) % 256 = 1 ∧ (false = false ∨ true = false)
        then example_labels.WIEGAND_NORMAL_MODE_LABEL
        else example_labels.WIEGAND_AUTO_SAVE_MODE_LABEL) :=
  ⟨⟨by decide, by decide⟩,
    (auto_enroll_mode_after_frame example_labels example_already_exists auto_enroll_tasks
      { add_defaultUser_wiegand := 1 } 5 (by decide) (by decide) (by decide)
      (by decide)).1⟩

/-! ## The claims on the facility and card split -/

theorem int32_and_mask (x : Int) (k : Nat) (hk : k ≤ 31) :
    int32_and x ((2 : Int) ^ k - 1) = x % 2 ^ k := by
  unfold int32_and int32_bits int32_of_bits
  have hpos : (0 : Int) < 2 ^ k := by positivity
  have hle : (2 : Int) ^ k ≤ 2 ^ 31 := by
    exact_mod_cast Nat.pow_le_pow_right (by norm_num) hk
  have hm : (((2 : Int) ^ k - 1) % 2 ^ 32).toNat = 2 ^ k - 1 := by
    have h1 : ((2 : Int) ^ k - 1) % 2 ^ 32 = 2 ^ k - 1 := by
      apply Int.emod_eq_of_lt <;> omega
    rw [h1]
    have h2 : ((2 : Int) ^ k - 1) = ((2 ^ k - 1 : Nat) : Int) := by
      have : 1 ≤ 2 ^ k := Nat.one_le_two_pow
      push_cast [Nat.cast_sub this]
      rfl
    rw [h2, Int.toNat_ofNat]
  rw [hm, Nat.and_pow_two_sub_one_eq_mod]
  have hx : 0 ≤ x % 2 ^ 32 := Int.emod_nonneg _ (by norm_num)
  have hlt : (x % 2 ^ 32).toNat % 2 ^ k < 2 ^ k := Nat.mod_lt _ (by positivity)
  have hle' : 2 ^ k ≤ 2 ^ 31 := Nat.pow_le_pow_right (by norm_num) hk
  have h32 : (x % 2 ^ 32).toNat % 2 ^ k % 2 ^ 32 = (x % 2 ^ 32).toNat % 2 ^ k :=
    Nat.mod_eq_of_lt (by omega)
  rw [h32, if_pos (by omega)]
  push_cast
  have hx' : (0 : Int) ≤ x % 4294967296 := by
    have := hx
    norm_num at this ⊢
    exact this
  rw [Int.toNat_of_nonneg hx']
  have hdvd : (2 : Int) ^ k ∣ 4294967296 := by
    have : (4294967296 : Int) = 2 ^ 32 := by norm_num
    rw [this]
    exact pow_dvd_pow 2 (by omega)
  exact Int.emod_emod_of_dvd x hdvd

theorem wiegandToFacilityCard_26 (v : Int) :
    wiegandToFacilityCard v 26 = ((v / 2 ^ 16) % 2 ^ 8, v % 2 ^ 16) := by
  unfold wiegandToFacilityCard int32_shr
  rw [if_pos rfl, Int.shiftRight_eq_div_pow]
  have h1 := int32_and_mask (v / 2 ^ 16) 8 (by omega)
  have h2 := int32_and_mask v 16 (by omega)
  norm_num at h1 h2 ⊢
  exact ⟨h1, h2⟩

theorem wiegandToFacilityCard_34 (v : Int) :
    wiegandToFacilityCard v 34 = ((v / 2 ^ 17) % 2 ^ 17, v % 2 ^ 17) := by
  unfold wiegandToFacilityCard int32_shr
  rw [if_neg (by decide), if_pos rfl, Int.shiftRight_eq_div_pow]
  have h1 := int32_and_mask (v / 2 ^ 17) 17 (by omega)
  have h2 := int32_and_mask v 17 (by omega)
  norm_num at h1 h2 ⊢
  exact ⟨h1, h2⟩

theorem int32_of_bits_small (u : Nat) (h : u < 2 ^ 31) : int32_of_bits u = (u : Int) := by
  unfold int32_of_bits
  have h32 : u % 2 ^ 32 = u := Nat.mod_eq_of_lt (by omega)
  rw [h32, if_pos h]

theorem int32_of_bits_cases (u : Nat) (h : u < 2 ^ 32) :
    int32_of_bits u = (u : Int) ∨ int32_of_bits u = (u : Int) - 2 ^ 32 := by
  unfold int32_of_bits
  have h32 : u % 2 ^ 32 = u := Nat.mod_eq_of_lt h
  rw [h32]
  split
  · exact Or.inl rfl
  · exact Or.inr rfl

/-- C34. Facility and card split, width 26: for every 32-bit input value, given
by its bit pattern `u`, `wiegandToFacilityCard` with width 26 returns
`facilityCode = (u >> 16) & 0xFF` and `cardCode = u & 0xFFFF`, whether the `int`
is negative or not; so `0 <= facilityCode <= 255`, `0 <= cardCode <= 65535`, and
for `u < 2^24` `facilityCode * 65536 + cardCode = u`. -/
theorem wiegandToFacilityCard_width_26 (u : Nat) (hu : u < 2 ^ 32) :
    wiegandToFacilityCard (int32_of_bits u) 26 =
      ((((u >>> 16) &&& 0xFF : Nat) : Int), ((u &&& 0xFFFF : Nat) : Int)) ∧
    0 ≤ (wiegandToFacilityCard (int32_of_bits u) 26).1 ∧
    (wiegandToFacilityCard (int32_of_bits u) 26).1 ≤ 255 ∧
    0 ≤ (wiegandToFacilityCard (int32_of_bits u) 26).2 ∧
    (wiegandToFacilityCard (int32_of_bits u) 26).2 ≤ 65535 ∧
    (u < 2 ^ 24 →
      (wiegandToFacilityCard (int32_of_bits u) 26).1 * 65536 +
        (wiegandToFacilityCard (int32_of_bits u) 26).2 = (u : Int)) := by
  have ha : (u >>> 16) &&& 0xFF = (u / 2 ^ 16) % 2 ^ 8 := by
    rw [Nat.shiftRight_eq_div_pow]
    exact Nat.and_pow_two_sub_one_eq_mod _ 8
  have hb : u &&& 0xFFFF = u % 2 ^ 16 := Nat.and_pow_two_sub_one_eq_mod _ 16
  rw [wiegandToFacilityCard_26, ha, hb]
  push_cast
  rcases int32_of_bits_cases u hu with h | h
  · rw [h]
    refine ⟨?_, ?_, ?_, ?_, ?_, ?_⟩
    · rfl
    · omega
    · omega
    · omega
    · omega
    · intro h24
      omega
  · rw [h]
    refine ⟨?_, ?_, ?_, ?_, ?_, ?_⟩
    · simp only [Prod.mk.injEq]
      constructor <;> omega
    · omega
    · omega
    · omega
    · omega
    · intro h24
      omega

/-- C34 (witness): the bit pattern `0x00800001`, facility code 128 and card code
1. -/
theorem wiegandToFacilityCard_width_26_witness :
    (0x00800001 < 2 ^ 32 ∧ 0x00800001 < 2 ^ 24) ∧
    wiegandToFacilityCard (int32_of_bits 0x00800001) 26 =
      ((((0x00800001 >>> 16) &&& 0xFF : Nat) : Int), ((0x00800001 &&& 0xFFFF : Nat) : Int)) ∧
    (wiegandToFacilityCard (int32_of_bits 0x00800001) 26).1 * 65536 +
      (wiegandToFacilityCard (int32_of_bits 0x00800001) 26).2 = ((0x00800001 : Nat) : Int) :=
  ⟨⟨by decide, by decide⟩,
    (wiegandToFacilityCard_width_26 0x00800001 (by decide)).1,
    (wiegandToFacilityCard_width_26 0x00800001 (by decide)).2.2.2.2.2 (by decide)⟩

/-- C35 (failing input): facility and card split, width 34.  The 34-bit value
`2^33` does not fit the `int` parameter of `wiegandToFacilityCard`: converted to
`int` it is 0, and the split is `(0, 0)` instead of `(2^16, 0)`; for `2^31` the
`int` is negative and the facility code is 114688 instead of 16384. -/
theorem wiegandToFacilityCard_34_truncates :
    2 ^ 33 < 2 ^ 34 ∧
    wiegandToFacilityCard (int32_of_bits (2 ^ 33)) 34 = (0, 0) ∧
    ((2 ^ 33 / 2 ^ 17 : Nat) : Int) = 65536 ∧
    (wiegandToFacilityCard (int32_of_bits (2 ^ 33)) 34).1 * 2 ^ 17 +
      (wiegandToFacilityCard (int32_of_bits (2 ^ 33)) 34).2 ≠ ((2 ^ 33 : Nat) : Int) ∧
    wiegandToFacilityCard (int32_of_bits (2 ^ 31)) 34 = (114688, 0) ∧
    ((2 ^ 31 / 2 ^ 17 : Nat) : Int) = 16384 := by
  decide

/-- The split with width 34 on the values that fit.  For every decoded value
`v < 2^31`, the values that the `int` parameter of `wiegandToFacilityCard` holds
unchanged, the split with width 34 is `facilityCode = floor(v / 2^17)` and
`cardCode = v mod 2^17`, so `facilityCode * 2^17 + cardCode = v`; for every
`v`, whatever its size, `cardCode` is `v mod 2^17`. -/
theorem wiegandToFacilityCard_width_34 (v : Nat) :
    (v < 2 ^ 31 →
      wiegandToFacilityCard (int32_of_bits v) 34 = ((v : Int) / 2 ^ 17, (v : Int) % 2 ^ 17) ∧
      (wiegandToFacilityCard (int32_of_bits v) 34).1 * 2 ^ 17 +
        (wiegandToFacilityCard (int32_of_bits v) 34).2 = (v : Int)) ∧
    (wiegandToFacilityCard (int32_of_bits v) 34).2 = (v : Int) % 2 ^ 17 := by
  have e17 : (2 : Int) ^ 17 = 131072 := by norm_num
  have e32 : (2 : Int) ^ 32 = 4294967296 := by norm_num
  rw [wiegandToFacilityCard_34]
  simp only [e17]
  constructor
  · intro hv
    rw [int32_of_bits_small v hv]
    constructor
    · simp only [Prod.mk.injEq]
      exact ⟨by omega, trivial⟩
    · omega
  · have hb : int32_of_bits v = int32_of_bits (v % 2 ^ 32) := by
      unfold int32_of_bits
      rw [Nat.mod_mod]
    have hc : ((v % 2 ^ 32 : Nat) : Int) = (v : Int) % 2 ^ 32 := by
      push_cast
      rfl
    rcases int32_of_bits_cases (v % 2 ^ 32) (Nat.mod_lt _ (by norm_num)) with h | h
    · rw [hb, h, hc, e32]
      show (v : Int) % 4294967296 % 131072 = (v : Int) % 131072
      omega
    · rw [hb, h, hc, e32]
      show ((v : Int) % 4294967296 - 4294967296) % 131072 = (v : Int) % 131072
      omega

/-- The value `2^17 + 5` splits into facility code 1 and card code 5. -/
theorem wiegandToFacilityCard_width_34_witness :
    131077 < 2 ^ 31 ∧
    wiegandToFacilityCard (int32_of_bits 131077) 34 =
      (((131077 : Nat) : Int) / 2 ^ 17, ((131077 : Nat) : Int) % 2 ^ 17) :=
  ⟨by decide, ((wiegandToFacilityCard_width_34 131077).1 (by decide)).1⟩

/-- C36. Invalid-width sentinel: `wiegandToFacilityCard` writes -1 to
`facilityCode`, and likewise to `cardCode`, exactly when the width is neither 26
nor 34; for the widths 26 and 34 both outputs are at least 0 for every input
value, negative ones included. -/
theorem wiegandToFacilityCard_sentinel (v bits : Int) :
    (wiegandToFacilityCard v bits = (-1, -1) ↔ (bits ≠ 26 ∧ bits ≠ 34)) ∧
    ((wiegandToFacilityCard v bits).1 = -1 ↔ (bits ≠ 26 ∧ bits ≠ 34)) ∧
    ((wiegandToFacilityCard v bits).2 = -1 ↔ (bits ≠ 26 ∧ bits ≠ 34)) ∧
    (bits = 26 ∨ bits = 34 →
      0 ≤ (wiegandToFacilityCard v bits).1 ∧ 0 ≤ (wiegandToFacilityCard v bits).2) := by
  by_cases h26 : bits = 26
  · subst h26
    rw [wiegandToFacilityCard_26]
    have a : (0 : Int) ≤ v / 2 ^ 16 % 2 ^ 8 := by omega
    have b : (0 : Int) ≤ v % 2 ^ 16 := by omega
    refine ⟨?_, ?_, ?_, fun _ => ⟨a, b⟩⟩
    · simp only [Prod.mk.injEq]
      omega
    · simp only
      omega
    · simp only
      omega
  · by_cases h34 : bits = 34
    · subst h34
      rw [wiegandToFacilityCard_34]
      have a : (0 : Int) ≤ v / 2 ^ 17 % 2 ^ 17 := by omega
      have b : (0 : Int) ≤ v % 2 ^ 17 := by omega
      refine ⟨?_, ?_, ?_, fun _ => ⟨a, b⟩⟩
      · simp only [Prod.mk.injEq]
        omega
      · simp only
        omega
      · simp only
        omega
    · have e : wiegandToFacilityCard v bits = (-1, -1) := by
        unfold wiegandToFacilityCard
        rw [if_neg h26, if_neg h34]
      rw [e]
      refine ⟨?_, ?_, ?_, ?_⟩
      · exact ⟨fun _ => ⟨h26, h34⟩, fun _ => rfl⟩
      · exact ⟨fun _ => ⟨h26, h34⟩, fun _ => rfl⟩
      · exact ⟨fun _ => ⟨h26, h34⟩, fun _ => rfl⟩
      · intro h
        rcases h with h | h
        · exact absurd h h26
        · exact absurd h h34

/-- C36 (witness): the negative input -1 with width 26 gives 255 and 65535. -/
theorem wiegandToFacilityCard_sentinel_witness :
    ((26 : Int) = 26 ∨ (26 : Int) = 34) ∧
    0 ≤ (wiegandToFacilityCard (-1) 26).1 ∧ 0 ≤ (wiegandToFacilityCard (-1) 26).2 :=
  ⟨Or.inl rfl, (wiegandToFacilityCard_sentinel (-1) 26).2.2.2 (Or.inl rfl)⟩

/-- C37 (counterexample): the four bytes `02 00 00 01` of the 26-bit frame
assemble to `0x02000001`, the decoder gives `0x02000001 >> 6 = 524288`, and the
split of that value with width 26 is not `(128, 1)`. -/
theorem worked_26_bit_example_not_128_1 :
    task_decode_loop example_frame_26.data 4 0 0 = 0x02000001 ∧
    task_decode example_frame_26 = 524288 ∧
    wiegandToFacilityCard (int32_of_bits (task_decode example_frame_26)) 26 ≠ (128, 1) := by
  decide

/-- C37 (amended): worked 26-bit example.  The 26-bit frame whose four buffer
bytes assemble to `0x02000001` decodes, after the 6-bit right shift, to 524288
(`0x80000`), whose split with width 26 is `facilityCode = 8` and
`cardCode = 0`. -/
theorem worked_26_bit_example :
    task_decode_loop example_frame_26.data 4 0 0 = 0x02000001 ∧
    task_decode example_frame_26 = 0x02000001 >>> 6 ∧
    task_decode example_frame_26 = 524288 ∧
    wiegandToFacilityCard (int32_of_bits (task_decode example_frame_26)) 26 = (8, 0) := by
  decide

/-! ## The claims on ReadOnce, the initial mode and the independence of the readers -/

/-- C31 (counterexample): in ReadOnce mode with no keypad entry in progress the
decoded value 160 is taken as a keypad start: nothing is handed to the
notification interface and the mode after the frame is the keypad mode. -/
theorem read_once_keypad_start :
    read_once_tasks.w.wiegandMode = example_labels.WIEGAND_READ_MODE_LABEL ∧
    read_once_tasks.w.keypadCount = 0 ∧
    (wiegand1_task_frame example_labels example_already_exists read_once_tasks {}
      160).notified = [] ∧
    (wiegand1_task_frame example_labels example_already_exists read_once_tasks {}
      160).w.wiegandMode = example_labels.WIEGAND_KEYPAD_MODE_LABEL ∧
    example_labels.WIEGAND_KEYPAD_MODE_LABEL ≠ example_labels.WIEGAND_NORMAL_MODE_LABEL := by
  decide

/-- C31 (amended): ReadOnce.  In ReadOnce mode on reader 1, for every decoded
value `v` that is not a keypad start (160 with no entry in progress) and not a
keypad terminator (176 with an entry in progress), the text `WI G W` followed by
the `%lld` text of `v` is handed exactly once to `esp_ble_gatts_send_indicate`,
with the connection values held at that moment, and exactly once to
`send_UDP_Send`; no action function and no enrollment hook is called, nothing is
dispatched, the store is unchanged, and the mode after the frame is Normal. -/
theorem read_once_frame (L : labels_t) (E : Nat) (s : tasks_t) (env : frame_env_t)
    (v : Nat)
    (hm : s.w.wiegandMode = L.WIEGAND_READ_MODE_LABEL)
    (hk : L.WIEGAND_READ_MODE_LABEL ≠ L.WIEGAND_KEYPAD_MODE_LABEL)
    (ha : L.WIEGAND_READ_MODE_LABEL ≠ L.WIEGAND_AUTO_SAVE_MODE_LABEL)
    (hn : L.WIEGAND_READ_MODE_LABEL ≠ L.WIEGAND_NORMAL_MODE_LABEL)
    (hs : ¬ (v = 160 ∧ s.w.keypadCount = 0)) (ht : ¬ (v = 176 ∧ s.w.keypadCount = 1)) :
    (wiegand1_task_frame L E s env v).notified =
      s.notified ++
        [notify_call.esp_ble_gatts_send_indicate s.w.gattsIF_wiegand_autoSave
            s.w.connID_wiegand_autoSave s.w.handle_table_wiegand_autoSave
            ("WI G W " ++ lld v),
          notify_call.send_UDP_Send ("WI G W " ++ lld v)] ∧
    (wiegand1_task_frame L E s env v).actions = s.actions ∧
    (wiegand1_task_frame L E s env v).enrolled = s.enrolled ∧
    (wiegand1_task_frame L E s env v).w.wiegandMode = L.WIEGAND_NORMAL_MODE_LABEL ∧
    (wiegand1_task_frame L E s env v).w.dispatched = s.w.dispatched ∧
    (wiegand1_task_frame L E s env v).w.nvs = s.w.nvs ∧
    (wiegand1_task_frame L E s env v).w.keypadCount = s.w.keypadCount ∧
    (wiegand1_task_frame L E s env v).task1 = s.task1 := by
  unfold wiegand1_task_frame wiegand1_task_sentinel wiegand1_task_mode
  simp only [hs, if_false, ht, hm, hk, ha, hn]
  by_cases h3 : env.xTimerChangePeriod = true
  · simp [h3, clear_autoSave, read_mode_text]
  · simp [h3, clear_autoSave, read_mode_text]

/-- C31 (witness): the decoded value 4660 in ReadOnce mode. -/
theorem read_once_frame_witness :
    (read_once_tasks.w.wiegandMode = example_labels.WIEGAND_READ_MODE_LABEL ∧
      ¬ ((4660 : Nat) = 160 ∧ read_once_tasks.w.keypadCount = 0) ∧
      ¬ ((4660 : Nat) = 176 ∧ read_once_tasks.w.keypadCount = 1)) ∧
    (wiegand1_task_frame example_labels example_already_exists read_once_tasks {}
      4660).notified =
      read_once_tasks.notified ++
        [notify_call.esp_ble_gatts_send_indicate read_once_tasks.w.gattsIF_wiegand_autoSave
            read_once_tasks.w.connID_wiegand_autoSave
            read_once_tasks.w.handle_table_wiegand_autoSave ("WI G W " ++ lld 4660),
          notify_call.send_UDP_Send ("WI G W " ++ lld 4660)] ∧
    (wiegand1_task_frame example_labels example_already_exists read_once_tasks {}
      4660).w.wiegandMode = example_labels.WIEGAND_NORMAL_MODE_LABEL :=
  ⟨⟨by decide, by decide, by decide⟩,
    (read_once_frame example_labels example_already_exists read_once_tasks {} 4660
      (by decide) (by decide) (by decide) (by decide) (by decide) (by decide)).1,
    (read_once_frame example_labels example_already_exists read_once_tasks {} 4660
      (by decide) (by decide) (by decide) (by decide) (by decide) (by decide)).2.2.2.1⟩

/-- C32 (failing input): `wiegand_reader_init1` as called by `wiegand1_task`
returns `ESP_OK` and leaves in `wiegandMode` the antipassback mode read from the
store: 2 when the store holds 2 and 1 when it holds 1, so not the Normal label in
at least one of the two cases, whatever the value of that label.
`wiegand_reader_init2` as called by `wiegand2_task` returns `ESP_OK`, assigns 0 to
`wiegandMode`, and leaves `wiegandMode2`, the mode of reader 2, as it was: the
keypad label stays, and so does 0. -/
theorem init_does_not_set_normal_mode :
    ((wiegand1_task_init 4 {} persisted_mode_2_world {}).1 = ESP_OK ∧
      (wiegand1_task_init 4 {} persisted_mode_2_world {}).2.1.wiegandMode = 2 ∧
      (2 : Nat) ≠ example_labels.WIEGAND_NORMAL_MODE_LABEL ∧
      (wiegand1_task_init 4 {} persisted_mode_1_world {}).1 = ESP_OK ∧
      (wiegand1_task_init 4 {} persisted_mode_1_world {}).2.1.wiegandMode = 1) ∧
    ((wiegand2_task_init 4 {} keypad_mode2_world {}).1 = ESP_OK ∧
      (wiegand2_task_init 4 {} keypad_mode2_world {}).2.1.wiegandMode2 =
        example_labels.WIEGAND_KEYPAD_MODE_LABEL ∧
      example_labels.WIEGAND_KEYPAD_MODE_LABEL ≠ example_labels.WIEGAND_NORMAL_MODE_LABEL ∧
      (wiegand2_task_init 4 {} keypad_mode2_world {}).2.1.wiegandMode = 0 ∧
      (wiegand2_task_init 4 {} {} {}).2.1.wiegandMode2 = 0) := by
  decide

/-- C33 (failing input): the frames of reader 1 are `[160, 16]` in both runs.
Alone they leave reader 1 in a keypad entry with the digit stored and no call of
`wiegand1_action`.  With the expiry of the timer of reader 2 between them,
`timer_autoAdd2_Callback` sets `wiegandMode` to Normal and `keypadCount` to 0, and
the value 16 is passed to `wiegand1_action`.  With a keypad start on reader 2
before them, `keypadCount` is 1 and the 160 of reader 1 is passed to
`wiegand1_action` instead of starting an entry. -/
theorem readers_interfere :
    ((tasks_run example_labels example_already_exists example_tasks
        (frames1 (quiet [160, 16]))).w.wiegandMode =
        example_labels.WIEGAND_KEYPAD_MODE_LABEL ∧
      (tasks_run example_labels example_already_exists example_tasks
        (frames1 (quiet [160, 16]))).task1.keyPadIndex = 1 ∧
      (tasks_run example_labels example_already_exists example_tasks
        (frames1 (quiet [160, 16]))).actions = []) ∧
    ((tasks_run example_labels example_already_exists example_tasks
        (frames1 (quiet [160]) ++ [task_event.timeout2] ++
          frames1 (quiet [16]))).w.wiegandMode =
        example_labels.WIEGAND_NORMAL_MODE_LABEL ∧
      (tasks_run example_labels example_already_exists example_tasks
        (frames1 (quiet [160]) ++ [task_event.timeout2] ++
          frames1 (quiet [16]))).task1.keyPadIndex = 0 ∧
      (tasks_run example_labels example_already_exists example_tasks
        (frames1 (quiet [160]) ++ [task_event.timeout2] ++
          frames1 (quiet [16]))).actions = [action_call.entry 16]) ∧
    ((tasks_run example_labels example_already_exists example_tasks
        (frames2 [160] ++ frames1 (quiet [160, 16]))).w.wiegandMode =
        example_labels.WIEGAND_NORMAL_MODE_LABEL ∧
      (tasks_run example_labels example_already_exists example_tasks
        (frames2 [160] ++ frames1 (quiet [160, 16]))).actions =
        [action_call.entry 160, action_call.entry 16]) ∧
    example_labels.WIEGAND_KEYPAD_MODE_LABEL ≠ example_labels.WIEGAND_NORMAL_MODE_LABEL := by
  decide

/-! ## Entry followed by exit -/

theorem wiegand_parse_getData_db (L : labels_t) (w : world_t) (v : Nat)
    (kp : Option String) (mode relay reader : Nat) :
    (wiegand_parse_getData L w v kp mode relay reader).2.wiegand_codes = w.wiegand_codes ∧
    (wiegand_parse_getData L w v kp mode relay reader).2.user_records = w.user_records := by
  unfold wiegand_parse_getData
  simp only
  split
  · split <;> exact ⟨rfl, rfl⟩
  · exact ⟨rfl, rfl⟩

theorem wiegand1_action_entry_effect (L : labels_t) (w : world_t) (v : Nat) (id : String)
    (n q : Nat)
    (hact : w.nvs.activate = some 1) (hfaults : w.faults = [])
    (hdb : checkIf_wiegandExist w ("$" ++ lld v) = some id)
    (hrole : (search_and_parse w id).permition = '0' ∨
      (search_and_parse w id).permition = '1' ∨ (search_and_parse w id).permition = '2')
    (habsent : ¬ marked_present w.nvs (lld v))
    (hn : w.nvs.people_number = some n) (hq : w.nvs.people_counter = some q)
    (hq32 : q < 2 ^ 32) (hnq : n < q) :
    (wiegand1_action L w v).dispatched
      = w.dispatched ++ [⟨v, L.WIEGAND_NORMAL_MODE_LABEL, 1, 1⟩] ∧
    (wiegand1_action L w v).nvs =
      (w.nvs.put NVS_ANTIPASSBACK_PEOPLE_NUMBER (n + 1)).set_ns
        (role_namespace (search_and_parse w id).permition)
        ((lld v, "1") :: w.nvs.ns (role_namespace (search_and_parse w id).permition)) ∧
    (wiegand1_action L w v).faults = [] ∧
    (wiegand1_action L w v).wiegand_codes = w.wiegand_codes ∧
    (wiegand1_action L w v).user_records = w.user_records := by
  have hab := (marked_present_iff w.nvs (lld v)).not.mp habsent
  have hn32 : n < 2 ^ 32 := by omega
  have hdb' : List.lookup ("$" ++ lld v) w.wiegand_codes = some id := hdb
  have hnq' : ¬ q ≤ n := by omega
  have hmod : (n + 1) % 2 ^ 32 = n + 1 := Nat.mod_eq_of_lt (by omega)
  unfold wiegand1_action
  simp only [get_INT8_ok, hfaults, nvs_t.get, hact, hdb', checkIf_wiegandExist,
    get_antipassback_user_ok, nvs_get_u32_ok, nvs_set_u32_ok, hab, hn, hq,
    Option.getD_some, Option.map_some', Option.isSome_some, if_true, if_false,
    Nat.mod_eq_of_lt hn32, Nat.mod_eq_of_lt hq32, Nat.one_mod, ne_eq, one_ne_zero,
    not_false_eq_true, ge_iff_le, search_and_parse, hnq', hmod]
  simp only [search_and_parse] at hrole
  rw [set_antipassback_user_ok _ _ _ rfl hrole]
  simp only [if_true]
  refine ⟨(wiegand_parse_getData_log _ _ _ _ _ _ _).1, ?_,
    (wiegand_parse_getData_log _ _ _ _ _ _ _).2.2,
    (wiegand_parse_getData_db _ _ _ _ _ _ _).1, (wiegand_parse_getData_db _ _ _ _ _ _ _).2⟩
  rw [(wiegand_parse_getData_log _ _ _ _ _ _ _).2.1]
  show nvs_t.set_ns _ _ _ = _
  rw [ns_put, filter_ne_of_lookup_none _ _ (lookup_none_of_not_marked _ _ habsent _)]

theorem wiegand2_action_exit_effect (L : labels_t) (w : world_t) (v : Nat) (id : String)
    (n : Nat)
    (hact : w.nvs.activate = some 1) (hfaults : w.faults = [])
    (hdb : checkIf_wiegandExist w ("$" ++ lld v) = some id)
    (hpresent : marked_present w.nvs (search_and_parse w id).wiegand_code)
    (hn : w.nvs.people_number = some n) (hpos : 0 < n) (hn32 : n < 2 ^ 32) :
    (∃ relay, (relay = 1 ∨ relay = 2) ∧
      (wiegand2_action L w v).dispatched =
        w.dispatched ++ [⟨v, L.WIEGAND_NORMAL_MODE_LABEL, relay, 2⟩]) ∧
    (wiegand2_action L w v).nvs =
      { w.nvs with
        people_number := some (n - 1)
        antipassback_USER := w.nvs.antipassback_USER.filter (fun e => e.1 ≠ lld v)
        antipassback_ADMIN := w.nvs.antipassback_ADMIN.filter (fun e => e.1 ≠ lld v)
        antipassback_OWNER := w.nvs.antipassback_OWNER.filter (fun e => e.1 ≠ lld v) } := by
  have hp := (marked_present_iff w.nvs _).mp hpresent
  have hdb' : List.lookup ("$" ++ lld v) w.wiegand_codes = some id := hdb
  simp only [search_and_parse] at hp
  have hne : n ≠ 0 := by omega
  have hmod : (n - 1) % 2 ^ 32 = n - 1 := Nat.mod_eq_of_lt (by omega)
  unfold wiegand2_action
  simp only [get_INT8_ok, hfaults, nvs_t.get, hact, hdb', checkIf_wiegandExist,
    get_antipassback_user_ok, nvs_get_u32_ok, nvs_set_u32_ok, hp, hn,
    Option.getD_some, Option.map_some', Option.isSome_some, if_true, if_false,
    Nat.mod_eq_of_lt hn32, Nat.one_mod, search_and_parse, hne, hmod, nvs_t.put,
    erase_antipassback_user_ok, wiegand_parse_getData_log]
  refine ⟨⟨_, ?_, rfl⟩, trivial⟩
  split
  · exact Or.inr rfl
  · exact Or.inl rfl

theorem filter_cons_key (l : List (String × String)) (key val : String)
    (h : l.lookup key = none) :
    ((key, val) :: l).filter (fun e => e.1 ≠ key) = l := by
  rw [List.filter_cons]
  simp only [ne_eq, not_true_eq_false, decide_False, Bool.false_eq_true, if_false]
  exact filter_ne_of_lookup_none l key h

/-- C39. Entry then exit is a round trip: with antipassback activated, for a
credential found in the user database with role tag `'0'`, `'1'` or `'2'` whose
stored wiegand code is the decimal text of its value, not marked present, with
the persisted current count below the persisted quota and every store operation
succeeding, `wiegand1_action` dispatches it (relay 1, reader 1), `wiegand2_action`
on the same value then dispatches it (reader 2), and afterwards the whole
persisted store, the current count and the three presence namespaces included,
is exactly as before the entry. -/
theorem entry_then_exit_round_trip (L : labels_t) (w : world_t) (v : Nat) (id : String)
    (n q : Nat)
    (hact : w.nvs.activate = some 1) (hfaults : w.faults = [])
    (hdb : checkIf_wiegandExist w ("$" ++ lld v) = some id)
    (hrole : (search_and_parse w id).permition = '0' ∨
      (search_and_parse w id).permition = '1' ∨ (search_and_parse w id).permition = '2')
    (hcode : (search_and_parse w id).wiegand_code = lld v)
    (habsent : ¬ marked_present w.nvs (lld v))
    (hn : w.nvs.people_number = some n) (hq : w.nvs.people_counter = some q)
    (hq32 : q < 2 ^ 32) (hnq : n < q) :
    (wiegand1_action L w v).dispatched
      = w.dispatched ++ [⟨v, L.WIEGAND_NORMAL_MODE_LABEL, 1, 1⟩] ∧
    (wiegand1_action L w v).nvs.people_number = some (n + 1) ∧
    (∃ relay, (relay = 1 ∨ relay = 2) ∧
      (wiegand2_action L (wiegand1_action L w v) v).dispatched =
        w.dispatched ++ [⟨v, L.WIEGAND_NORMAL_MODE_LABEL, 1, 1⟩,
          ⟨v, L.WIEGAND_NORMAL_MODE_LABEL, relay, 2⟩]) ∧
    (wiegand2_action L (wiegand1_action L w v) v).nvs = w.nvs ∧
    (wiegand2_action L (wiegand1_action L w v) v).nvs.people_number = some n ∧
    (∀ h : antipassback_handle_t,
      (wiegand2_action L (wiegand1_action L w v) v).nvs.ns h = w.nvs.ns h) := by
  obtain ⟨e1, e2, e3, e4, e5⟩ :=
    wiegand1_action_entry_effect L w v id n q hact hfaults hdb hrole habsent hn hq hq32 hnq
  have hlook := lookup_none_of_not_marked _ _ habsent
  have hact1 : (wiegand1_action L w v).nvs.activate = some 1 := by
    rw [e2, (set_ns_system _ _ _).2.2.1]
    exact hact
  have hn1 : (wiegand1_action L w v).nvs.people_number = some (n + 1) := by
    rw [e2, (set_ns_system _ _ _).1]
    rfl
  have hdb1 : checkIf_wiegandExist (wiegand1_action L w v) ("$" ++ lld v) = some id := by
    unfold checkIf_wiegandExist
    rw [e4]
    exact hdb
  have hsp : search_and_parse (wiegand1_action L w v) id = search_and_parse w id := by
    unfold search_and_parse
    rw [e5]
  have hpres : marked_present (wiegand1_action L w v).nvs
      (search_and_parse (wiegand1_action L w v) id).wiegand_code := by
    rw [hsp, hcode]
    refine ⟨role_namespace (search_and_parse w id).permition, ?_⟩
    rw [e2, ns_set_ns_same]
    simp
  obtain ⟨⟨relay, hr, x1⟩, x2⟩ := wiegand2_action_exit_effect L (wiegand1_action L w v) v id
    (n + 1) hact1 e3 hdb1 hpres hn1 (by omega) (by omega)
  have hnvs : (wiegand2_action L (wiegand1_action L w v) v).nvs = w.nvs := by
    rw [x2, e2]
    have h0 := hlook antipassback_handle_t.USER
    have h1 := hlook antipassback_handle_t.ADMIN
    have h2 := hlook antipassback_handle_t.OWNER
    simp only [nvs_t.ns] at h0 h1 h2
    cases role_namespace (search_and_parse w id).permition
    · simp only [nvs_t.set_ns, nvs_t.put, nvs_t.ns, Nat.add_sub_cancel,
        filter_cons_key _ _ _ h0, filter_ne_of_lookup_none _ _ h1,
        filter_ne_of_lookup_none _ _ h2, ← hn]
    · simp only [nvs_t.set_ns, nvs_t.put, nvs_t.ns, Nat.add_sub_cancel,
        filter_cons_key _ _ _ h1, filter_ne_of_lookup_none _ _ h0,
        filter_ne_of_lookup_none _ _ h2, ← hn]
    · simp only [nvs_t.set_ns, nvs_t.put, nvs_t.ns, Nat.add_sub_cancel,
        filter_cons_key _ _ _ h2, filter_ne_of_lookup_none _ _ h0,
        filter_ne_of_lookup_none _ _ h1, ← hn]
  refine ⟨e1, hn1, ⟨relay, hr, ?_⟩, hnvs, ?_, ?_⟩
  · rw [x1, e1, List.append_assoc]
    rfl
  · rw [hnvs]
    exact hn
  · intro h
    rw [hnvs]

/-- C39 (witness): credential 11 (role tag `'0'`) enters `quota_world` and leaves
again. -/
theorem entry_then_exit_round_trip_witness :
    (quota_world.nvs.activate = some 1 ∧ quota_world.faults = [] ∧
      checkIf_wiegandExist quota_world ("$" ++ lld 11) = some "a" ∧
      (search_and_parse quota_world "a").permition = '0' ∧
      (search_and_parse quota_world "a").wiegand_code = lld 11 ∧
      quota_world.nvs.people_number = some 0 ∧
      quota_world.nvs.people_counter = some 2) ∧
    (wiegand2_action example_labels (wiegand1_action example_labels quota_world 11) 11).nvs
      = quota_world.nvs :=
  ⟨⟨by decide, by decide, by decide, by decide, by decide, by decide, by decide⟩,
    (entry_then_exit_round_trip example_labels quota_world 11 "a" 0 2 (by decide)
      (by decide) (by decide) (Or.inl (by decide)) (by decide)
      (by rintro ⟨h, hh⟩; cases h <;> exact absurd hh (by decide))
      (by decide) (by decide) (by decide) (by decide)).2.2.2.1⟩

/-! ## Orphan cleanup and the current count -/

theorem same_system_refl (a : nvs_t) : same_system a a := ⟨rfl, rfl, rfl, rfl⟩

theorem same_system_trans {a b c : nvs_t} (h1 : same_system a b) (h2 : same_system b c) :
    same_system a c :=
  ⟨h1.1.trans h2.1, h1.2.1.trans h2.2.1, h1.2.2.1.trans h2.2.2.1, h1.2.2.2.trans h2.2.2.2⟩

theorem same_system_set_ns (n : nvs_t) (h : antipassback_handle_t)
    (l : List (String × String)) : same_system (n.set_ns h l) n := by
  cases h <;> exact ⟨rfl, rfl, rfl, rfl⟩

theorem nvs_erase_key_frame (w : world_t) (h : antipassback_handle_t) (key : String) :
    same_system (nvs_erase_key w h key).2.nvs w.nvs ∧
    (nvs_erase_key w h key).2.dispatched = w.dispatched := by
  unfold nvs_erase_key pop_fault
  rcases w.faults with _ | ⟨b, fs⟩
  · simp only [Bool.false_eq_true, if_false]
    split
    · exact ⟨same_system_set_ns _ _ _, rfl⟩
    · exact ⟨same_system_refl _, rfl⟩
  · cases b
    · simp only [Bool.false_eq_true, if_false]
      split
      · exact ⟨same_system_set_ns _ _ _, rfl⟩
      · exact ⟨same_system_refl _, rfl⟩
    · exact ⟨same_system_refl _, rfl⟩

theorem erase_antipassback_user_frame (w : world_t) (key : String) :
    same_system (erase_antipassback_user w key).2.nvs w.nvs ∧
    (erase_antipassback_user w key).2.dispatched = w.dispatched := by
  unfold erase_antipassback_user
  simp only
  have a := nvs_erase_key_frame w antipassback_handle_t.USER key
  have b := nvs_erase_key_frame (nvs_erase_key w antipassback_handle_t.USER key).2
    antipassback_handle_t.ADMIN key
  have c := nvs_erase_key_frame
    (nvs_erase_key (nvs_erase_key w antipassback_handle_t.USER key).2
      antipassback_handle_t.ADMIN key).2 antipassback_handle_t.OWNER key
  exact ⟨same_system_trans c.1 (same_system_trans b.1 a.1),
    c.2.trans (b.2.trans a.2)⟩

/-- Orphan cleanup does not change the current count: with the activation flag read
as 1, when the credential is absent from the user database, `wiegand1_action` and
`wiegand2_action` dispatch nothing and leave the persisted current count, quota,
mode and flag as they were, whatever the store operations return; when the erase
operations succeed, afterwards the key has no presence record in the USER
role namespace (`wiegand1_action`, which erases there only) and in none of
the three role namespaces (`wiegand2_action`). -/
theorem orphan_cleanup_keeps_count (L : labels_t) (w : world_t) (v : Nat)
    (hact : (get_INT8_Data_From_Storage w NVS_ANTIPASSBACK_ACTIVATE_LABEL).1 = 1)
    (hdb : checkIf_wiegandExist w ("$" ++ lld v) = none) :
    ((wiegand1_action L w v).nvs.people_number = w.nvs.people_number ∧
      same_system (wiegand1_action L w v).nvs w.nvs ∧
      (wiegand1_action L w v).dispatched = w.dispatched) ∧
    ((wiegand2_action L w v).nvs.people_number = w.nvs.people_number ∧
      same_system (wiegand2_action L w v).nvs w.nvs ∧
      (wiegand2_action L w v).dispatched = w.dispatched) ∧
    (w.faults = [] →
      ((wiegand1_action L w v).nvs.ns antipassback_handle_t.USER).lookup (lld v) = none ∧
      ∀ h : antipassback_handle_t,
        ((wiegand2_action L w v).nvs.ns h).lookup (lld v) = none) := by
  have hs := get_INT8_same w NVS_ANTIPASSBACK_ACTIVATE_LABEL
  rcases hg : get_INT8_Data_From_Storage w NVS_ANTIPASSBACK_ACTIVATE_LABEL with ⟨act, w1⟩
  rw [hg] at hact hs
  simp only at hact hs
  subst hact
  have hc := same_but_faults_codes hs.1
  have hn := same_but_faults_nvs hs.1
  have hd := same_but_faults_dispatched hs.1
  have hdb' : List.lookup ("$" ++ lld v) w1.wiegand_codes = none := by
    rw [hc.1]
    exact hdb
  have e1 : wiegand1_action L w v =
      (nvs_erase_key { w1 with anti_passback_activation := 1 } antipassback_handle_t.USER
        (lld v)).2 := by
    unfold wiegand1_action
    simp only [hg, if_true, checkIf_wiegandExist, hdb']
  have e2 : wiegand2_action L w v =
      (erase_antipassback_user { w1 with anti_passback_activation := 1 } (lld v)).2 := by
    unfold wiegand2_action
    simp only [hg, if_true, checkIf_wiegandExist, hdb']
  have f1 := nvs_erase_key_frame { w1 with anti_passback_activation := 1 }
    antipassback_handle_t.USER (lld v)
  have f2 := erase_antipassback_user_frame { w1 with anti_passback_activation := 1 } (lld v)
  rw [← e1] at f1
  rw [← e2] at f2
  have s1 : same_system (wiegand1_action L w v).nvs w.nvs := by
    have := f1.1
    rw [show ({ w1 with anti_passback_activation := 1 } : world_t).nvs = w.nvs from hn]
      at this
    exact this
  have s2 : same_system (wiegand2_action L w v).nvs w.nvs := by
    have := f2.1
    rw [show ({ w1 with anti_passback_activation := 1 } : world_t).nvs = w.nvs from hn]
      at this
    exact this
  refine ⟨⟨s1.2.2.1, s1, f1.2.trans hd⟩, ⟨s2.2.2.1, s2, f2.2.trans hd⟩, ?_⟩
  intro hf
  have hf1 : w1.faults = [] := by
    rw [hs.2, hf]
    rfl
  constructor
  · rw [e1, nvs_erase_key_ok _ _ _ (by exact hf1)]
    exact lookup_filter_ne _ _
  · intro h
    rw [e2, erase_antipassback_user_ok _ _ (by exact hf1)]
    cases h
    · exact lookup_filter_ne _ _
    · exact lookup_filter_ne _ _
    · exact lookup_filter_ne _ _

/-- Credential 22, not enrolled, with a presence record left in the USER
role namespace and the count at 1: the record is erased and the count stays
1. -/
theorem orphan_cleanup_keeps_count_witness :
    ((get_INT8_Data_From_Storage orphan_user_world NVS_ANTIPASSBACK_ACTIVATE_LABEL).1 = 1 ∧
      checkIf_wiegandExist orphan_user_world ("$" ++ lld 22) = none ∧
      orphan_user_world.nvs.people_number = some 1 ∧
      (orphan_user_world.nvs.ns antipassback_handle_t.USER).lookup (lld 22) = some "1") ∧
    (wiegand1_action example_labels orphan_user_world 22).nvs.people_number =
      orphan_user_world.nvs.people_number ∧
    (wiegand2_action example_labels orphan_user_world 22).nvs.people_number =
      orphan_user_world.nvs.people_number ∧
    ((wiegand1_action example_labels orphan_user_world 22).nvs.ns
      antipassback_handle_t.USER).lookup (lld 22) = none :=
  ⟨⟨by decide, by decide, by decide, by decide⟩,
    (orphan_cleanup_keeps_count example_labels orphan_user_world 22 (by decide)
      (by decide)).1.1,
    (orphan_cleanup_keeps_count example_labels orphan_user_world 22 (by decide)
      (by decide)).2.1.1,
    ((orphan_cleanup_keeps_count example_labels orphan_user_world 22 (by decide)
      (by decide)).2.2 (by decide)).1⟩

/-- C40 (failing input): orphan cleanup does not free a quota slot.  In
`orphan_world` credential 22 is absent from the user database, has a presence
record in the ADMIN role namespace, and the current count is 1.
`wiegand1_action` erases the key from the USER role namespace only: it leaves
the whole store, that record included, as it was, so no presence record is
erased and no fewer credentials are marked present.  `wiegand2_action` on the
same input erases the record and leaves the count at 1. -/
theorem wiegand1_action_orphan_cleanup_erases_nothing :
    checkIf_wiegandExist orphan_world ("$" ++ lld 22) = none ∧
    orphan_world.faults = [] ∧
    orphan_world.nvs.people_number = some 1 ∧
    (orphan_world.nvs.ns antipassback_handle_t.ADMIN).lookup (lld 22) = some "1" ∧
    (wiegand1_action example_labels orphan_world 22).nvs = orphan_world.nvs ∧
    (wiegand1_action example_labels orphan_world 22).dispatched = [] ∧
    (wiegand2_action example_labels orphan_world 22).nvs =
      { orphan_world.nvs with antipassback_ADMIN := [] } ∧
    (wiegand2_action example_labels orphan_world 22).nvs.people_number = some 1 := by
  decide

end Wiegand
